import Mathlib

/-! # VQFlipPdf: a verification development

Shallow embedding of the React components of the flip-book front end
(`src/App.jsx`, `src/components/Book.jsx`, `VQBook.jsx`, `Model3D.jsx`,
`IntroScreen-mobile.jsx`).

Conventions of the embedding:
* a component's `useState` variables and `useRef` cells are the fields of a
  state record; a handler is a function from state to state; a `set…` call is
  a field update;
* the browser's timer queue and animation-frame queue are explicit lists in the
  state; a callback is stored in defunctionalised form together with the values
  its closure captured;
* JavaScript numbers used for timestamps, opacities, sizes and angles are
  rationals (`ℚ`); page numbers are integers; a decimal literal that is not a
  double itself, such as `0.3` or `1.2`, is the double nearest to it
  (`JS.num`);
* the frame callbacks of the animations (`Book.animate`, `VQBook.animate`,
  `IntroScreen.logoAnimate`) compute as JavaScript computes, each operation
  rounded to the nearest double (`JS.add`, `JS.sub`, `JS.mul`, `JS.div`): the
  elapsed time, the progress and every value written to the state; the
  rotations of `Model3D` are computed exactly;
* code that can throw returns `Except`.
-/

set_option autoImplicit false

/-! ## JavaScript helpers -/

namespace JS

/-- The method `String.prototype.includes`: `sub` occurs in `s` as a contiguous
run of characters. -/
def includes (s sub : String) : Bool :=
  s.toList.tails.any (fun t => sub.toList.isPrefixOf t)

/-- The function `parseInt` on decimal numerals: leading white space, an
optional sign, then the longest run of decimal digits; `none` stands for `NaN`
(no digit). Radix prefixes are not modelled: the page ids it is applied to are
decimal numerals. -/
def parseInt (s : String) : Option Int :=
  let cs := s.toList.dropWhile Char.isWhitespace
  let signed : Bool × List Char :=
    match cs with
    | '-' :: rest => (true, rest)
    | '+' :: rest => (false, rest)
    | _ => (false, cs)
  let digits := signed.2.takeWhile Char.isDigit
  if digits.isEmpty then
    none
  else
    let n : Int := digits.foldl (fun acc d => 10 * acc + ((d.toNat - 48 : Nat) : Int)) 0
    some (if signed.1 then -n else n)

/-- Property lookup `table[key]` in an object literal; `none` is `undefined`. -/
def lookup {α : Type} (table : List (String × α)) (key : String) : Option α :=
  (table.find? (fun kv => kv.1 == key)).map (fun kv => kv.2)

/-! ### Double-precision arithmetic

JavaScript numbers are IEEE-754 binary64 values. Every such value is a
rational, and the result of an arithmetic operation is the exact result
rounded to the nearest double, ties to the even significand. The functions
below compute that rounding for values in the normal range (no overflow, no
subnormal result), which covers the opacities, scales and offsets of the
animations. -/

/-- The integer nearest to `n / d`, the even one when two are equally near. -/
def roundHalfEven (n d : Nat) : Nat :=
  let q := n / d
  let r := n % d
  if 2 * r < d then q
  else if d < 2 * r then q + 1
  else if q % 2 = 0 then q
  else q + 1

/-- Halving `n` until it is 0, at most `fuel` times, and counting the steps. -/
def bitLengthAux : Nat → Nat → Nat
  | 0, _ => 0
  | fuel + 1, n => if n = 0 then 0 else bitLengthAux fuel (n / 2) + 1

/-- The number of binary digits of `n`. -/
def bitLength (n : Nat) : Nat :=
  bitLengthAux n n

/-- The exponent `e` with `2 ^ e ≤ n / d < 2 ^ (e + 1)`, for positive `n` and
`d`. -/
def binade (n d : Nat) : Int :=
  let e0 : Int := (bitLength n : Int) - (bitLength d : Int)
  if 0 ≤ e0 then
    (if d * 2 ^ e0.toNat ≤ n then e0 else e0 - 1)
  else
    (if d ≤ n * 2 ^ (-e0).toNat then e0 else e0 - 1)

/-- The double nearest to the rational `x` (round to nearest, ties to even,
53-bit significand). -/
def toDouble (x : ℚ) : ℚ :=
  if x = 0 then
    0
  else
    let n := x.num.natAbs
    let d := x.den
    let k : Int := 52 - binade n d
    let m : Nat :=
      if 0 ≤ k then roundHalfEven (n * 2 ^ k.toNat) d
      else roundHalfEven n (d * 2 ^ (-k).toNat)
    let v : ℚ := (m : ℚ) * (2 : ℚ) ^ (-k)
    if x < 0 then -v else v

/-- The value of a decimal literal such as `0.3`: the double nearest to it. -/
def num (x : ℚ) : ℚ :=
  toDouble x

/-- The operator `a + b` on numbers. -/
def add (a b : ℚ) : ℚ :=
  toDouble (a + b)

/-- The operator `a - b` on numbers. -/
def sub (a b : ℚ) : ℚ :=
  toDouble (a - b)

/-- The operator `a * b` on numbers. -/
def mul (a b : ℚ) : ℚ :=
  toDouble (a * b)

/-- The operator `a / b` on numbers, for `b` other than 0. -/
def div (a b : ℚ) : ℚ :=
  toDouble (a / b)

end JS

/-- A per-overlay style descriptor of the position tables. -/
structure ImagePosition where
  position : String
  top : Option String := none
  left : Option String := none
  bottom : Option String := none
  right : Option String := none
  width : String
  maxWidth : String
  deriving DecidableEq, Repr

/-- The overlay render loop common to the three components (Book.jsx 1023-1055,
VQBook.jsx 950-996, IntroScreen-mobile.jsx 1136-1180): nothing when either
table has no entry for the key; otherwise one hot-spot per medium whose index
has a position, a medium without position being skipped. -/
def renderOverlays (media : List (String × List String))
    (positions : List (String × List ImagePosition)) (key : String) :
    List (String × ImagePosition) :=
  match JS.lookup media key, JS.lookup positions key with
  | some srcs, some ps =>
    srcs.enum.filterMap (fun (entry : Nat × String) =>
      match ps.get? entry.1 with
      | some imagePosition => some (entry.2, imagePosition)
      | none => none)
  | _, _ => []

/-! ## App.jsx -/

namespace App

/-- The function `getInitialBookType` (App.jsx 18-30), with
`window.location.pathname` passed as `path`. -/
def getInitialBookType (path : String) : String :=
  if path = "/friender" then
    "friender"
  else if path = "/vq" then
    "vq"
  else
    "intro"

/-- The flip-book component placed under the header. -/
inductive BookComponent
  | Book
  | VQBook
  deriving DecidableEq, Repr

/-- What `App` returns (App.jsx 48-64): the intro screen alone, or the header
(given `selectedBook`) above one of the two books. -/
inductive View
  | IntroScreen
  | headerAnd (selectedBook : String) (book : BookComponent)
  deriving DecidableEq, Repr

/-- The render of `App` for a value of `selectedBook` (App.jsx 48-64). -/
def render (selectedBook : String) : View :=
  if selectedBook = "intro" then
    View.IntroScreen
  else
    View.headerAnd selectedBook
      (if selectedBook = "friender" then BookComponent.Book else BookComponent.VQBook)

/-- The first render of `App`: `useState(getInitialBookType())` (App.jsx 33). -/
def initialView (path : String) : View :=
  render (getInitialBookType path)

end App

/-! ## The page-flip bookkeeping shared by Book.jsx and VQBook.jsx

`safePageFlip` and the effects around it are the same text in the two files
(Book.jsx 806-883, VQBook.jsx 815-892); the records below hold what that code
reads and writes. -/

namespace FlipBook

/-- What a call of a method of the external page-flip widget does. -/
inductive Outcome
  | returns
  | throws
  deriving DecidableEq, Repr

/-- The object returned by `bookRef.current.pageFlip()`. A field is `none` when
`typeof` of that property is not `'function'`, and otherwise tells what calling
it does. -/
structure PageFlipApi where
  flip : Option Outcome
  flipToPage : Option Outcome
  goToPage : Option Outcome
  turnToPage : Option Outcome
  setPage : Option Outcome
  deriving DecidableEq, Repr

/-- What the call `bookRef.current.pageFlip()` does. -/
inductive PageFlipCall
  | throws
  | returnsNull
  | returnsApi (api : PageFlipApi)
  deriving DecidableEq, Repr

/-- The value of `bookRef.current` when it is not null. A field is `none` when
the property is falsy. -/
structure BookHandle where
  pageFlip : Option PageFlipCall
  flip : Option Outcome
  goToPage : Option Outcome
  deriving DecidableEq, Repr

/-- The transition methods of the widget that `safePageFlip` may call. -/
inductive WidgetMethod
  | pageFlip_flip
  | pageFlip_flipToPage
  | pageFlip_goToPage
  | pageFlip_turnToPage
  | pageFlip_setPage
  | bookRef_flip
  | bookRef_goToPage
  deriving DecidableEq, Repr

/-- One call of a transition method, with its argument. -/
structure WidgetCall where
  method : WidgetMethod
  arg : Int
  deriving DecidableEq, Repr

/-- The callbacks given to `setTimeout` and `setInterval`, each with the values
of the render scope that its closure captured. -/
inductive TimerCallback
  /-- The tick of `setInterval(() => { if (checkBookReady()) clearInterval(interval) }, 100)` -/
  | checkBookReady
  /-- The `timer` of the mount effect (1000 ms) -/
  | mountTimer
  /-- The `animationTimer` / `mainImageTimer`, started by `timer` -/
  | animationTimer
  /-- The 100 ms check of `handleResize` -/
  | resizeCheck (isMobile : Bool) (currentPage : Int) (isBookReady : Bool)
  /-- The 100 ms timer of `closeModal` -/
  | closeModalFlip (modalSourcePage : Int) (isBookReady : Bool) (currentPage : Int)
  /-- The 500 ms timer of `handlePageChange` for the cover -/
  | coverDelay
  /-- The timer started by `coverDelay` -/
  | coverAnimation
  /-- The 300 ms timer of `safePageFlip` -/
  | flip (targetPage : Int)
  deriving DecidableEq, Repr

/-- A pending timer of the browser. -/
structure Timer where
  id : Nat
  delay : Nat
  callback : TimerCallback
  deriving DecidableEq, Repr

/-- The timer is one scheduled by `safePageFlip`. -/
def Timer.isFlip (t : Timer) : Bool :=
  match t.callback with
  | TimerCallback.flip _ => true
  | _ => false

/-- State and refs of the flip bookkeeping, with the browser's timer queue. -/
structure Core where
  currentPage : Int
  isBookReady : Bool
  isFlipping : Bool
  flipTimeoutRef : Option Nat
  isFlippingRef : Bool
  /-- Pending timers, oldest first -/
  timers : List Timer
  /-- The handle the next `setTimeout` / `setInterval` returns -/
  nextTimerId : Nat
  /-- Transition methods of the widget called so far, oldest first -/
  widgetCalls : List WidgetCall
  deriving DecidableEq, Repr

/-- The call `setTimeout(callback, delay)` (also `setInterval`): the handle
returned is the old `nextTimerId`. -/
def Core.setTimeout (callback : TimerCallback) (delay : Nat) (c : Core) : Core :=
  { c with
    timers := c.timers ++ [{ id := c.nextTimerId, delay := delay, callback := callback }]
    nextTimerId := c.nextTimerId + 1 }

/-- The call `clearTimeout(id)` (also `clearInterval`). -/
def Core.clearTimeout (id : Nat) (c : Core) : Core :=
  { c with timers := c.timers.filter (fun t => t.id != id) }

/-- The statement `if (ref.current) clearTimeout(ref.current)`: a handle is
truthy when it is a number other than 0. -/
def Core.clearIfTruthy (ref : Option Nat) (c : Core) : Core :=
  match ref with
  | some id => if id != 0 then c.clearTimeout id else c
  | none => c

/-- Body of `safePageFlip(targetPage)` (Book.jsx 806-883), where `isBookReady`
and `currentPage` are the values of the render in which the function was
created. -/
def Core.safePageFlipIn (isBookReady : Bool) (currentPage : Int) (targetPage : Int)
    (c : Core) : Core :=
  if !isBookReady then
    c
  else if c.isFlippingRef then
    c
  else if currentPage = targetPage then
    c
  else
    let c := { c with isFlippingRef := true, isFlipping := true }
    let c := c.clearIfTruthy c.flipTimeoutRef
    let id := c.nextTimerId
    let c := c.setTimeout (TimerCallback.flip targetPage) 300
    { c with flipTimeoutRef := some id }

/-- The call `safePageFlip(targetPage)` from the current render. -/
def Core.safePageFlip (targetPage : Int) (c : Core) : Core :=
  c.safePageFlipIn c.isBookReady c.currentPage targetPage

/-- The fallback of the flip timer: `setCurrentPage(targetPage)` and both
flipping flags reset. -/
def Core.directUpdate (targetPage : Int) (c : Core) : Core :=
  { c with currentPage := targetPage, isFlippingRef := false, isFlipping := false }

/-- The call `receiver.method(targetPage)`: it is recorded, and it returns
(`ok`) or throws (`error`, carrying the state at the throw). -/
def Core.callMethod (method : WidgetMethod) (outcome : Outcome) (targetPage : Int)
    (c : Core) : Except Core Core :=
  let c := { c with widgetCalls := c.widgetCalls ++ [{ method := method, arg := targetPage }] }
  match outcome with
  | Outcome.returns => Except.ok c
  | Outcome.throws => Except.error c

/-- The `try` block of the flip timer (Book.jsx 833-871) for a non-null
`bookRef.current`. -/
def Core.flipTimerTry (handle : BookHandle) (targetPage : Int) (c : Core) : Except Core Core :=
  match handle.pageFlip with
  | some call =>
    match call with
    | PageFlipCall.throws => Except.error c
    | PageFlipCall.returnsNull => Except.ok (c.directUpdate targetPage)
    | PageFlipCall.returnsApi pageFlip =>
      match pageFlip.flip, pageFlip.flipToPage, pageFlip.goToPage, pageFlip.turnToPage,
        pageFlip.setPage with
      | some o, _, _, _, _ => c.callMethod WidgetMethod.pageFlip_flip o targetPage
      | none, some o, _, _, _ => c.callMethod WidgetMethod.pageFlip_flipToPage o targetPage
      | none, none, some o, _, _ => c.callMethod WidgetMethod.pageFlip_goToPage o targetPage
      | none, none, none, some o, _ => c.callMethod WidgetMethod.pageFlip_turnToPage o targetPage
      | none, none, none, none, some o => c.callMethod WidgetMethod.pageFlip_setPage o targetPage
      | none, none, none, none, none => Except.ok (c.directUpdate targetPage)
  | none =>
    match handle.flip, handle.goToPage with
    | some o, _ => c.callMethod WidgetMethod.bookRef_flip o targetPage
    | none, some o => c.callMethod WidgetMethod.bookRef_goToPage o targetPage
    | none, none => Except.ok (c.directUpdate targetPage)

/-- The callback of the flip timer (Book.jsx 831-882), run with the current
value of `bookRef.current`. An `error` result would be an exception leaving the
callback. -/
def Core.flipTimerCallback (bookRef : Option BookHandle) (targetPage : Int) (c : Core) :
    Except Core Core :=
  match bookRef with
  | some handle =>
    match c.flipTimerTry handle targetPage with
    | Except.ok c => Except.ok c
    | Except.error c => Except.ok (c.directUpdate targetPage)
  | none => Except.ok { c with isFlippingRef := false, isFlipping := false }

/-- Result of a callback that may throw: the state reached, also when an
exception leaves the callback. -/
def settle (r : Except Core Core) : Core :=
  match r with
  | Except.ok c => c
  | Except.error c => c

/-- Invariant of the timer queue: handles are positive, below the next handle
and pairwise distinct, and every pending page-flip timer is the one whose
handle is held in `flipTimeoutRef`. -/
def Core.TimerInv (c : Core) : Prop :=
  0 < c.nextTimerId ∧
  (∀ t ∈ c.timers, 0 < t.id ∧ t.id < c.nextTimerId) ∧
  (∀ t ∈ c.timers, t.isFlip = true → c.flipTimeoutRef = some t.id) ∧
  (c.timers.map Timer.id).Nodup

end FlipBook

/-! ## Book.jsx -/

namespace Book

open FlipBook

/-- A pending `requestAnimationFrame(animate)` of `animateCover`, with the
`startTime` and `duration` of the closure. -/
structure Frame where
  id : Nat
  startTime : ℚ
  duration : ℚ
  deriving DecidableEq, Repr

/-- State of the `Book` component: the `useState` variables and refs
(Book.jsx 20-41; those of the flip bookkeeping are in `Core`), the closure
variables of the effects, and the browser's animation-frame queue. -/
structure State extends Core where
  isMainImageAnimating : Bool
  mainImageSize : ℚ
  mainImageRotation : ℚ
  mainImageOpacity : ℚ
  titleOpacity : ℚ
  subtitleOpacity : ℚ
  backgroundScale : ℚ
  backgroundBlur : ℚ
  selectedGif : Option String
  isModalOpen : Bool
  modalSourcePage : Option Int
  is3DModalOpen : Bool
  isMobile : Bool
  animationRef : Option Nat
  /-- The variable `isMounted` of the readiness effect -/
  isMounted : Bool
  /-- The variable `interval` of the readiness effect, when it was started -/
  interval : Option Nat
  /-- The variable `timer` of the mount effect -/
  timer : Option Nat
  /-- Pending animation frames, oldest first -/
  frames : List Frame
  /-- The handle the next `requestAnimationFrame` returns -/
  nextFrameId : Nat
  /-- The unmount cleanups have run -/
  unmounted : Bool
  deriving DecidableEq, Repr

/-- The initial render (Book.jsx 20-41), with empty browser queues whose
handles start at 1. -/
def init (innerWidth : Nat) : State :=
  { currentPage := 0
    isMainImageAnimating := false
    mainImageSize := 1
    mainImageRotation := 0
    mainImageOpacity := 0
    titleOpacity := 0
    subtitleOpacity := 0
    backgroundScale := JS.num (6 / 5)
    backgroundBlur := 0
    selectedGif := none
    isModalOpen := false
    modalSourcePage := none
    is3DModalOpen := false
    isMobile := decide (innerWidth < 576)
    isBookReady := false
    isFlipping := false
    animationRef := none
    flipTimeoutRef := none
    isFlippingRef := false
    timers := []
    nextTimerId := 1
    widgetCalls := []
    isMounted := true
    interval := none
    timer := none
    frames := []
    nextFrameId := 1
    unmounted := false }

/-- Lifting of `setTimeout` to the component state. -/
def State.setTimeout (callback : TimerCallback) (delay : Nat) (s : State) : State :=
  { s with toCore := s.toCore.setTimeout callback delay }

/-- Lifting of `clearTimeout` to the component state. -/
def State.clearTimeout (id : Nat) (s : State) : State :=
  { s with toCore := s.toCore.clearTimeout id }

/-- The call `requestAnimationFrame(animate)`: the handle returned is the old
`nextFrameId`. -/
def State.requestAnimationFrame (startTime duration : ℚ) (s : State) : State :=
  { s with
    frames := s.frames ++ [{ id := s.nextFrameId, startTime := startTime, duration := duration }]
    nextFrameId := s.nextFrameId + 1 }

/-- The call `cancelAnimationFrame(id)`. -/
def State.cancelAnimationFrame (id : Nat) (s : State) : State :=
  { s with frames := s.frames.filter (fun f => f.id != id) }

/-- The statement `if (animationRef.current) cancelAnimationFrame(animationRef.current)`. -/
def State.cancelAnimationIfTruthy (s : State) : State :=
  match s.animationRef with
  | some id => if id != 0 then s.cancelAnimationFrame id else s
  | none => s

/-- The value `bookRef.current && bookRef.current.pageFlip` as a condition. -/
def handleReady (bookRef : Option BookHandle) : Bool :=
  match bookRef with
  | some handle => handle.pageFlip.isSome
  | none => false

/-- The value `progress` of a frame of `animate` (Book.jsx 92-93): the
difference and the quotient are double operations. -/
def progress (startTime duration currentTime : ℚ) : ℚ :=
  let elapsed := JS.sub currentTime startTime
  min (JS.div elapsed duration) 1

/-- Background stage of a frame, 0-30 % (Book.jsx 96-100). -/
def backgroundStage (progress : ℚ) (s : State) : State :=
  if progress ≤ JS.num (3 / 10) then
    let bgProgress := JS.div progress (JS.num (3 / 10))
    { s with
      backgroundScale := JS.sub (JS.num (6 / 5)) (JS.mul (JS.num (2 / 10)) bgProgress)
      backgroundBlur := JS.mul 5 bgProgress }
  else s

/-- Appearance of the main image, 20-50 % (Book.jsx 168-175). -/
def appearStage (progress : ℚ) (s : State) : State :=
  if progress ≥ JS.num (2 / 10) ∧ progress ≤ 1 / 2 then
    let imgProgress := JS.div (JS.sub progress (JS.num (2 / 10))) (JS.num (3 / 10))
    { s with
      mainImageOpacity := imgProgress
      mainImageRotation := JS.mul 360 imgProgress
      mainImageSize := JS.add 0 (JS.mul 70 imgProgress) }
  else s

/-- Size hold and rotation back to 0, 50-80 % (Book.jsx 178-184). -/
def sizeStage (progress : ℚ) (s : State) : State :=
  if progress ≥ 1 / 2 ∧ progress ≤ JS.num (8 / 10) then
    let sizeProgress := JS.div (JS.sub progress (1 / 2)) (JS.num (3 / 10))
    { s with
      mainImageSize := 70
      mainImageRotation := JS.sub 360 (JS.mul 360 sizeProgress) }
  else s

/-- Final state of the main image, from 80 % (Book.jsx 187-191). -/
def finalStage (progress : ℚ) (s : State) : State :=
  if progress ≥ JS.num (8 / 10) then
    { s with mainImageSize := 70, mainImageOpacity := 1, mainImageRotation := 0 }
  else s

/-- Title and subtitle, 70-100 % (Book.jsx 194-198). -/
def textStage (progress : ℚ) (s : State) : State :=
  if progress ≥ JS.num (7 / 10) ∧ progress ≤ 1 then
    let textProgress := JS.div (JS.sub progress (JS.num (7 / 10))) (JS.num (3 / 10))
    { s with titleOpacity := textProgress, subtitleOpacity := textProgress }
  else s

/-- Rotation set to 0 at the end (Book.jsx 201-203). -/
def endStage (progress : ℚ) (s : State) : State :=
  if progress ≥ 1 then { s with mainImageRotation := 0 } else s

/-- The state writes of a frame with the given `progress`, in the order of the
source (Book.jsx 95-203). In the stage functions a decimal literal is the
double it denotes (`JS.num`; 0.5 and the integers are doubles themselves) and
every operation is rounded as JavaScript rounds it. -/
def frameWrites (progress : ℚ) (s : State) : State :=
  endStage progress (textStage progress (finalStage progress (sizeStage progress
    (appearStage progress (backgroundStage progress s)))))

/-- The frame callback `animate(currentTime)` of `animateCover(duration)`
(Book.jsx 91-208). -/
def animate (startTime duration currentTime : ℚ) (s : State) : State :=
  let progress := progress startTime duration currentTime
  let s := frameWrites progress s
  if progress < 1 then
    let id := s.nextFrameId
    let s := s.requestAnimationFrame startTime duration
    { s with animationRef := some id }
  else s

/-- The function `animateCover(duration)` (Book.jsx 88-211), called when
`performance.now()` is `now`. -/
def animateCover (duration now : ℚ) (s : State) : State :=
  let startTime := now
  let id := s.nextFrameId
  let s := s.requestAnimationFrame startTime duration
  { s with animationRef := some id }

/-- The frames of one `animateCover(duration)` started at `startTime`, the
browser delivering the timestamps of the list in turn: each frame runs
`animate`, and the next timestamp is used only if that frame requested another
frame. The result is the final state with the timestamps of the frames run. -/
def animateCoverLoop (startTime duration : ℚ) : List ℚ → State → State × List ℚ
  | [], s => (s, [])
  | currentTime :: rest, s =>
    let s1 := animate startTime duration currentTime s
    if s1.nextFrameId = s.nextFrameId then
      (s1, [currentTime])
    else
      let r := animateCoverLoop startTime duration rest s1
      (r.1, currentTime :: r.2)

/-- The `id` fields of `frienderData` (Book.jsx 302-338), in order. -/
def frienderData : List String :=
  ["2", "3", "4", "5", "6", "7", "8"]

/-- An entry of `getPageGroups()`. -/
structure PageGroup where
  groupId : Nat
  pages : List Int
  description : String
  deriving DecidableEq, Repr

/-- The function `getPageGroups()` (Book.jsx 341-364) for a value of `isMobile`. -/
def getPageGroups (isMobile : Bool) : List PageGroup :=
  if isMobile then
    [ { groupId := 1, pages := [0], description := "표지" },
      { groupId := 2, pages := [1], description := "1장" },
      { groupId := 3, pages := [2], description := "2장" },
      { groupId := 4, pages := [3], description := "3장" },
      { groupId := 5, pages := [4], description := "4장" },
      { groupId := 6, pages := [5], description := "5장" },
      { groupId := 7, pages := [6], description := "6장" },
      { groupId := 8, pages := [7], description := "7장" } ]
  else
    [ { groupId := 1, pages := [0], description := "표지" },
      { groupId := 2, pages := [1, 2], description := "1-2장" },
      { groupId := 3, pages := [3, 4], description := "3-4장" },
      { groupId := 4, pages := [5, 6], description := "5-6장" },
      { groupId := 5, pages := [7], description := "마지막" } ]

/-- The table `gifMapping` (Book.jsx 393-400); `none` is `undefined`. -/
def gifMapping (gifNumber : Nat) : Option String :=
  match gifNumber with
  | 1 => some "/interacivefile/FrienderFile/1-탄소-중립을-통해-지구촌-기후변화를-예방.gif"
  | 2 => some "/interacivefile/FrienderFile/2-친환경-에너지-자립마을-만들기.gif"
  | 3 => some "/interacivefile/FrienderFile/3-탄소-중립-실천.gif"
  | 4 => some "/interacivefile/FrienderFile/4-똑똑한-재활용-쓰레기-분리배출-실천.gif"
  | 5 => some "/interacivefile/FrienderFile/5-에너지가-가정에-오기까지의-여정.gif"
  | 6 => some "/interacivefile/FrienderFile/6-해양-오염-구조-탐사대-체험.gif"
  | _ => none

/-- The table `sectionImgMapping` (Book.jsx 403-438), keyed by page id. -/
def sectionImgMapping : List (String × List String) :=
  [
    ("2",
      ["/interacivefile/FrienderFile/section-img/2-1.png",
       "/interacivefile/FrienderFile/section-img/2-2.png",
       "/interacivefile/FrienderFile/section-img/2-3.png"]),
    ("3",
      ["/interacivefile/FrienderFile/section-img/3-1.png",
       "/interacivefile/FrienderFile/section-img/3-2.png",
       "/interacivefile/FrienderFile/section-img/3-3.png"]),
    ("4",
      ["/interacivefile/FrienderFile/section-img/4-1.png",
       "/interacivefile/FrienderFile/section-img/4-2.png",
       "/interacivefile/FrienderFile/section-img/4-3.png",
       "/interacivefile/FrienderFile/section-img/4-4.png"]),
    ("5",
      ["/interacivefile/FrienderFile/section-img/5-1.png",
       "/interacivefile/FrienderFile/section-img/5-2.png",
       "/interacivefile/FrienderFile/section-img/5-3.png"]),
    ("6",
      ["/interacivefile/FrienderFile/section-img/6-1.png",
       "/interacivefile/FrienderFile/section-img/6-2.png",
       "/interacivefile/FrienderFile/section-img/6-3.png",
       "/interacivefile/FrienderFile/section-img/6-4.png"]),
    ("7",
      ["/interacivefile/FrienderFile/section-img/7-1.png",
       "/interacivefile/FrienderFile/section-img/7-2.png",
       "/interacivefile/FrienderFile/section-img/7-3.png",
       "/interacivefile/FrienderFile/section-img/7-4.png"]),
    ("8", ["/interacivefile/FrienderFile/section-img/8-1.png"])
  ]

/-- The table `individualImagePositions` (Book.jsx 441-632), keyed by page id. -/
def individualImagePositions : List (String × List ImagePosition) :=
  [
    ("2",
      [{ position := "absolute", top := some "3%", left := some "5%", width := "100%", maxWidth := "95%" },
       { position := "absolute", top := some "25%", left := some "3%", width := "100%", maxWidth := "95%" },
       { position := "absolute", bottom := some "0%", right := some "0%", width := "100%", maxWidth := "95%" }]),
    ("3",
      [{ position := "absolute", top := some "7%", left := some "2%", width := "100%", maxWidth := "95%" },
       { position := "absolute", top := some "38%", right := some "2%", width := "100%", maxWidth := "95%" },
       { position := "absolute", left := some "3%", bottom := some "0%", width := "100%", maxWidth := "95%" }]),
    ("4",
      [{ position := "absolute", top := some "0%", left := some "7%", width := "100%", maxWidth := "95%" },
       { position := "absolute", top := some "22%", right := some "2%", width := "100%", maxWidth := "95%" },
       { position := "absolute", left := some "7%", bottom := some "39%", width := "100%", maxWidth := "95%" },
       { position := "absolute", bottom := some "3%", right := some "0%", width := "100%", maxWidth := "95%" }]),
    ("5",
      [{ position := "absolute", top := some "0%", left := some "0%", width := "100%", maxWidth := "95%" },
       { position := "absolute", top := some "33%", left := some "0%", width := "100%", maxWidth := "95%" },
       { position := "absolute", bottom := some "3%", right := some "10%", width := "100%", maxWidth := "95%" }]),
    ("6",
      [{ position := "absolute", top := some "0%", left := some "9%", width := "100%", maxWidth := "95%" },
       { position := "absolute", top := some "12%", left := some "6%", width := "100%", maxWidth := "95%" },
       { position := "absolute", bottom := some "27%", right := some "0%", width := "100%", maxWidth := "95%" },
       { position := "absolute", left := some "7%", bottom := some "3%", width := "100%", maxWidth := "95%" }]),
    ("7",
      [{ position := "absolute", top := some "0%", left := some "0%", width := "100%", maxWidth := "95%" },
       { position := "absolute", top := some "11%", right := some "8%", width := "100%", maxWidth := "95%" },
       { position := "absolute", left := some "0%", bottom := some "39%", width := "100%", maxWidth := "95%" },
       { position := "absolute", bottom := some "4%", right := some "7%", width := "100%", maxWidth := "95%" }]),
    ("8",
      [{ position := "absolute", left := some "0%", bottom := some "1%", width := "100%", maxWidth := "95%" }])
  ]

/-- The overlay hot-spots rendered on the page with id `pageId`
(Book.jsx 1023-1055). -/
def renderedOverlays (pageId : String) : List (String × ImagePosition) :=
  renderOverlays sectionImgMapping individualImagePositions pageId

/-- The handler `handleGifClick(gifNumber, event)` (Book.jsx 640-646). -/
def handleGifClick (gifNumber : Nat) (s : State) : State :=
  { s with selectedGif := gifMapping gifNumber, modalSourcePage := some 4, isModalOpen := true }

/-- The function `open3DModal()` (Book.jsx 691-693). -/
def open3DModal (s : State) : State :=
  { s with is3DModalOpen := true }

/-- The function `close3DModal()` (Book.jsx 698-700). -/
def close3DModal (s : State) : State :=
  { s with is3DModalOpen := false }

/-- The handler `handleSectionImgClick(imgSrc, event, pageId)` (Book.jsx
656-667). A `NaN` from `parseInt` is stored as `none`. -/
def handleSectionImgClick (imgSrc : String) (pageId : String) (s : State) : State :=
  if JS.includes imgSrc "3-3.png" then
    open3DModal s
  else
    { s with selectedGif := some imgSrc, modalSourcePage := JS.parseInt pageId, isModalOpen := true }

/-- The handler `closeModal()` (Book.jsx 673-686). -/
def closeModal (s : State) : State :=
  let s1 := { s with isModalOpen := false, selectedGif := none }
  let s2 :=
    match s.modalSourcePage with
    | some modalSourcePage =>
      s1.setTimeout (TimerCallback.closeModalFlip modalSourcePage s.isBookReady s.currentPage) 100
    | none => s1
  { s2 with modalSourcePage := none }

/-- The call `safePageFlip(targetPage)` from the current render. -/
def safePageFlip (targetPage : Int) (s : State) : State :=
  { s with toCore := s.toCore.safePageFlip targetPage }

/-- The call `safePageFlip(targetPage)` from a closure that captured
`isBookReady` and `currentPage`. -/
def safePageFlipIn (isBookReady : Bool) (currentPage : Int) (targetPage : Int) (s : State) :
    State :=
  { s with toCore := s.toCore.safePageFlipIn isBookReady currentPage targetPage }

/-- The handler `handlePageChange(e)` (Book.jsx 762-799), with `e.data` passed
as `newPage`. -/
def handlePageChange (newPage : Int) (s : State) : State :=
  if newPage = s.currentPage then
    s
  else
    let s := { s with currentPage := newPage, isFlippingRef := false, isFlipping := false }
    if newPage = 0 then
      s.setTimeout TimerCallback.coverDelay 500
    else
      let s :=
        { s with
          isMainImageAnimating := false
          mainImageSize := 1
          mainImageRotation := 0
          mainImageOpacity := 0
          titleOpacity := 0
          subtitleOpacity := 0
          backgroundScale := JS.num (6 / 5)
          backgroundBlur := 0 }
      s.cancelAnimationIfTruthy

/-- The handler `handleResize()` (Book.jsx 254-274), with `window.innerWidth`
passed as `innerWidth`. -/
def handleResize (innerWidth : Nat) (s : State) : State :=
  let wasMobile := s.isMobile
  let newIsMobile := decide (innerWidth < 576)
  if wasMobile != newIsMobile then
    let s1 := { s with isMobile := newIsMobile }
    s1.setTimeout (TimerCallback.resizeCheck s.isMobile s.currentPage s.isBookReady) 100
  else s

/-- The handler `handleKeyDown(e)` (Book.jsx 285-295), with `e.key` passed as
`key`. -/
def handleKeyDown (key : String) (s : State) : State :=
  if key = "ArrowLeft" then
    if s.currentPage > 0 then safePageFlip (s.currentPage - 1) s else s
  else if key = "ArrowRight" then
    if s.currentPage < 7 then safePageFlip (s.currentPage + 1) s else s
  else s

/-- The function `goToGroup(groupId)` (Book.jsx 383-390). -/
def goToGroup (groupId : Nat) (s : State) : State :=
  match (getPageGroups s.isMobile).find? (fun group => group.groupId == groupId) with
  | some targetGroup =>
    match targetGroup.pages with
    | first :: _ => safePageFlip first s
    | [] => s
  | none => s

/-- The function `goToPreviousPage()` (Book.jsx 888-892). -/
def goToPreviousPage (s : State) : State :=
  if s.currentPage > 0 then safePageFlip (s.currentPage - 1) s else s

/-- The function `goToNextPage()` (Book.jsx 897-901). -/
def goToNextPage (s : State) : State :=
  if s.currentPage < 7 then safePageFlip (s.currentPage + 1) s else s

/-- The mount of the component with `window.innerWidth` and the value of
`bookRef.current` at that time: the initial render, then the readiness effect
(Book.jsx 47-82) and the mount effect (Book.jsx 217-231). -/
def mount (innerWidth : Nat) (bookRef : Option BookHandle) : State :=
  let s := init innerWidth
  let s :=
    if handleReady bookRef then
      { s with isBookReady := true }
    else
      let id := s.nextTimerId
      let s := s.setTimeout TimerCallback.checkBookReady 100
      { s with interval := some id }
  let id := s.nextTimerId
  let s := s.setTimeout TimerCallback.mountTimer 1000
  { s with timer := some id }

/-- The cleanups run at unmount, in the order of the effects: the readiness
effect (Book.jsx 78-81, registered only when the interval was started), the
mount effect (Book.jsx 230) and the cleanup effect (Book.jsx 238-246). -/
def unmount (s : State) : State :=
  let s :=
    match s.interval with
    | some interval => { s with isMounted := false }.clearTimeout interval
    | none => s
  let s :=
    match s.timer with
    | some timer => s.clearTimeout timer
    | none => s
  let s := s.cancelAnimationIfTruthy
  let s := { s with toCore := s.toCore.clearIfTruthy s.flipTimeoutRef }
  { s with isFlippingRef := false, unmounted := true }

/-- The tick of the readiness interval (Book.jsx 50-76); the `isBookReady` read
by `checkBookReady` is that of the first render, `false`. -/
def checkBookReadyTick (bookRef : Option BookHandle) (s : State) : State :=
  if !s.isMounted then
    s
  else if handleReady bookRef then
    let s := { s with isBookReady := true }
    match s.interval with
    | some interval => s.clearTimeout interval
    | none => s
  else s

/-- The body of a timer callback, run with the current `bookRef.current` and
`performance.now()`. -/
def runCallback (callback : TimerCallback) (bookRef : Option BookHandle) (now : ℚ)
    (s : State) : State :=
  match callback with
  | TimerCallback.checkBookReady => checkBookReadyTick bookRef s
  | TimerCallback.mountTimer => s.setTimeout TimerCallback.animationTimer 1000
  | TimerCallback.animationTimer =>
    animateCover 3000 now { s with isMainImageAnimating := true }
  | TimerCallback.resizeCheck isMobile currentPage isBookReady =>
    let newPageGroups := getPageGroups isMobile
    let isValidPage := newPageGroups.any (fun group => group.pages.contains currentPage)
    if !isValidPage && currentPage != 0 then
      safePageFlipIn isBookReady currentPage 0 s
    else s
  | TimerCallback.closeModalFlip modalSourcePage isBookReady currentPage =>
    let pageIndex := if modalSourcePage = 1 then 0 else modalSourcePage - 1
    safePageFlipIn isBookReady currentPage pageIndex s
  | TimerCallback.coverDelay => s.setTimeout TimerCallback.coverAnimation 1000
  | TimerCallback.coverAnimation =>
    animateCover 3000 now { s with isMainImageAnimating := true }
  | TimerCallback.flip targetPage =>
    { s with toCore := settle (s.toCore.flipTimerCallback bookRef targetPage) }

/-- The browser fires the pending timer `id`: a timeout leaves the queue, the
interval stays, and the callback runs. -/
def fireTimer (id : Nat) (bookRef : Option BookHandle) (now : ℚ) (s : State) : State :=
  match s.timers.find? (fun t => t.id == id) with
  | some t =>
    let s := if t.callback = TimerCallback.checkBookReady then s else s.clearTimeout id
    runCallback t.callback bookRef now s
  | none => s

/-- The browser runs the pending animation frame `id` at `currentTime`. -/
def runFrame (id : Nat) (currentTime : ℚ) (s : State) : State :=
  match s.frames.find? (fun f => f.id == id) with
  | some f => animate f.startTime f.duration currentTime (s.cancelAnimationFrame id)
  | none => s

/-- What can happen to a mounted `Book`. -/
inductive Event
  | fireTimer (id : Nat) (bookRef : Option BookHandle) (now : ℚ)
  | runFrame (id : Nat) (currentTime : ℚ)
  | safePageFlip (targetPage : Int)
  | handlePageChange (newPage : Int)
  | handleResize (innerWidth : Nat)
  | handleKeyDown (key : String)
  | goToGroup (groupId : Nat)
  | goToPreviousPage
  | goToNextPage
  | handleGifClick (gifNumber : Nat)
  | handleSectionImgClick (imgSrc : String) (pageId : String)
  | closeModal
  | close3DModal
  | unmount
  deriving DecidableEq, Repr

/-- One step of the component. Timers and animation frames run whenever the
browser fires them; the handlers run only while the component is mounted. -/
def step (s : State) (e : Event) : State :=
  match e with
  | Event.fireTimer id bookRef now => fireTimer id bookRef now s
  | Event.runFrame id currentTime => runFrame id currentTime s
  | Event.unmount => if s.unmounted then s else unmount s
  | Event.safePageFlip targetPage => if s.unmounted then s else safePageFlip targetPage s
  | Event.handlePageChange newPage => if s.unmounted then s else handlePageChange newPage s
  | Event.handleResize innerWidth => if s.unmounted then s else handleResize innerWidth s
  | Event.handleKeyDown key => if s.unmounted then s else handleKeyDown key s
  | Event.goToGroup groupId => if s.unmounted then s else goToGroup groupId s
  | Event.goToPreviousPage => if s.unmounted then s else goToPreviousPage s
  | Event.goToNextPage => if s.unmounted then s else goToNextPage s
  | Event.handleGifClick gifNumber => if s.unmounted then s else handleGifClick gifNumber s
  | Event.handleSectionImgClick imgSrc pageId =>
    if s.unmounted then s else handleSectionImgClick imgSrc pageId s
  | Event.closeModal => if s.unmounted then s else closeModal s
  | Event.close3DModal => if s.unmounted then s else close3DModal s

/-- The state after a list of events. -/
def run (s : State) (events : List Event) : State :=
  events.foldl step s

/-- The states the component can be in: those reached from a mount by events. -/
inductive Reachable : State → Prop
  | mount (innerWidth : Nat) (bookRef : Option BookHandle) : Reachable (mount innerWidth bookRef)
  | step (s : State) (e : Event) (h : Reachable s) : Reachable (step s e)

/-- The page-flip timers that are pending. -/
def pendingFlipTimers (s : State) : List Timer :=
  s.timers.filter Timer.isFlip

end Book

/-! ## VQBook.jsx -/

namespace VQBook

open FlipBook

/-- A pending `requestAnimationFrame(animate)` of `animateMainImage`, with the
values of the closure. -/
structure Frame where
  id : Nat
  startTime : ℚ
  startSize : ℚ
  sizeDiff : ℚ
  duration : ℚ
  deriving DecidableEq, Repr

/-- State of the `VQBook` component: the `useState` variables and refs
(VQBook.jsx 19-35; those of the flip bookkeeping are in `Core`), the closure
variables of the effects, and the browser's animation-frame queue. -/
structure State extends Core where
  isCoverVisible : Bool
  isMainImageAnimating : Bool
  mainImageSize : ℚ
  selectedGif : Option String
  isModalOpen : Bool
  modalSourcePage : Option Int
  is3DModalOpen : Bool
  isMobile : Bool
  animationRef : Option Nat
  /-- The variable `isMounted` of the readiness effect -/
  isMounted : Bool
  /-- The variable `interval` of the readiness effect, when it was started -/
  interval : Option Nat
  /-- The variable `timer` of the mount effect -/
  timer : Option Nat
  /-- Pending animation frames, oldest first -/
  frames : List Frame
  /-- The handle the next `requestAnimationFrame` returns -/
  nextFrameId : Nat
  /-- The unmount cleanups have run -/
  unmounted : Bool
  deriving DecidableEq, Repr

/-- The initial render (VQBook.jsx 19-35), with empty browser queues whose
handles start at 1. -/
def init (innerWidth : Nat) : State :=
  { currentPage := 0
    isCoverVisible := false
    isMainImageAnimating := false
    mainImageSize := 1
    selectedGif := none
    isModalOpen := false
    modalSourcePage := none
    is3DModalOpen := false
    isMobile := decide (innerWidth < 576)
    isBookReady := false
    isFlipping := false
    animationRef := none
    flipTimeoutRef := none
    isFlippingRef := false
    timers := []
    nextTimerId := 1
    widgetCalls := []
    isMounted := true
    interval := none
    timer := none
    frames := []
    nextFrameId := 1
    unmounted := false }

/-- Lifting of `setTimeout` to the component state. -/
def State.setTimeout (callback : TimerCallback) (delay : Nat) (s : State) : State :=
  { s with toCore := s.toCore.setTimeout callback delay }

/-- Lifting of `clearTimeout` to the component state. -/
def State.clearTimeout (id : Nat) (s : State) : State :=
  { s with toCore := s.toCore.clearTimeout id }

/-- The call `requestAnimationFrame(animate)`: the handle returned is the old
`nextFrameId`. -/
def State.requestAnimationFrame (startTime startSize sizeDiff duration : ℚ) (s : State) :
    State :=
  { s with
    frames := s.frames ++
      [{ id := s.nextFrameId, startTime := startTime, startSize := startSize,
         sizeDiff := sizeDiff, duration := duration }]
    nextFrameId := s.nextFrameId + 1 }

/-- The call `cancelAnimationFrame(id)`. -/
def State.cancelAnimationFrame (id : Nat) (s : State) : State :=
  { s with frames := s.frames.filter (fun f => f.id != id) }

/-- The statement `if (animationRef.current) cancelAnimationFrame(animationRef.current)`. -/
def State.cancelAnimationIfTruthy (s : State) : State :=
  match s.animationRef with
  | some id => if id != 0 then s.cancelAnimationFrame id else s
  | none => s

/-- The value `bookRef.current && bookRef.current.pageFlip` as a condition. -/
def handleReady (bookRef : Option BookHandle) : Bool :=
  match bookRef with
  | some handle => handle.pageFlip.isSome
  | none => false

/-- The frame callback `animate(currentTime)` of `animateMainImage`
(VQBook.jsx 91-103); every operation is a double operation. -/
def animate (startTime startSize sizeDiff duration currentTime : ℚ) (s : State) : State :=
  let elapsed := JS.sub currentTime startTime
  let progress := min (JS.div elapsed duration) 1
  let currentSize := JS.add startSize (JS.mul sizeDiff progress)
  let s := { s with mainImageSize := currentSize }
  if progress < 1 then
    let id := s.nextFrameId
    let s := s.requestAnimationFrame startTime startSize sizeDiff duration
    { s with animationRef := some id }
  else s

/-- The function `animateMainImage(startSize, endSize, duration)` (VQBook.jsx
87-106), called when `performance.now()` is `now`. -/
def animateMainImage (startSize endSize duration now : ℚ) (s : State) : State :=
  let startTime := now
  let sizeDiff := JS.sub endSize startSize
  let id := s.nextFrameId
  let s := s.requestAnimationFrame startTime startSize sizeDiff duration
  { s with animationRef := some id }

/-- The `id` fields of `vqData` (VQBook.jsx 200-316), in order. -/
def vqData : List String :=
  ["2", "3", "4", "5", "6", "7", "8", "9", "10", "11", "12", "13", "14", "15", "16", "17", "18", "19", "20", "21", "22", "23", "24"]

/-- An entry of `getPageGroups()`. -/
structure PageGroup where
  groupId : Nat
  pages : List Int
  description : String
  deriving DecidableEq, Repr

/-- The function `getPageGroups()` (VQBook.jsx 319-367) for a value of
`isMobile`. -/
def getPageGroups (isMobile : Bool) : List PageGroup :=
  if isMobile then
    [
      { groupId := 1, pages := [0], description := "표지" },
      { groupId := 2, pages := [1], description := "1장" },
      { groupId := 3, pages := [2], description := "2장" },
      { groupId := 4, pages := [3], description := "3장" },
      { groupId := 5, pages := [4], description := "4장" },
      { groupId := 6, pages := [5], description := "5장" },
      { groupId := 7, pages := [6], description := "6장" },
      { groupId := 8, pages := [7], description := "7장" },
      { groupId := 9, pages := [8], description := "8장" },
      { groupId := 10, pages := [9], description := "9장" },
      { groupId := 11, pages := [10], description := "10장" },
      { groupId := 12, pages := [11], description := "11장" },
      { groupId := 13, pages := [12], description := "12장" },
      { groupId := 14, pages := [13], description := "13장" },
      { groupId := 15, pages := [14], description := "14장" },
      { groupId := 16, pages := [15], description := "15장" },
      { groupId := 17, pages := [16], description := "16장" },
      { groupId := 18, pages := [17], description := "17장" },
      { groupId := 19, pages := [18], description := "18장" },
      { groupId := 20, pages := [19], description := "19장" },
      { groupId := 21, pages := [20], description := "20장" },
      { groupId := 22, pages := [21], description := "21장" },
      { groupId := 23, pages := [22], description := "22장" },
      { groupId := 24, pages := [23], description := "23장" },
      { groupId := 25, pages := [24], description := "24장" } ]
  else
    [
      { groupId := 1, pages := [0], description := "표지" },
      { groupId := 2, pages := [1, 2], description := "1-2장" },
      { groupId := 3, pages := [3, 4], description := "3-4장" },
      { groupId := 4, pages := [5, 6], description := "5-6장" },
      { groupId := 5, pages := [7, 8], description := "7-8장" },
      { groupId := 6, pages := [9, 10], description := "9-10장" },
      { groupId := 7, pages := [11, 12], description := "11-12장" },
      { groupId := 8, pages := [13, 14], description := "13-14장" },
      { groupId := 9, pages := [15, 16], description := "15-16장" },
      { groupId := 10, pages := [17, 18], description := "17-18장" },
      { groupId := 11, pages := [19, 20], description := "19-20장" },
      { groupId := 12, pages := [21, 22], description := "21-22장" },
      { groupId := 13, pages := [23, 24], description := "23-24장" } ]

/-- The table `vqSectionImgMapping` (VQBook.jsx 396-430), keyed by page id. -/
def vqSectionImgMapping : List (String × List String) :=
  [
    ("2",
      ["/interacivefile/VQFile/sectionimg/2-1.png",
       "/interacivefile/VQFile/sectionimg/2-2.png",
       "/interacivefile/VQFile/sectionimg/2-3.png"]),
    ("3",
      ["/interacivefile/VQFile/sectionimg/3-1.png",
       "/interacivefile/VQFile/sectionimg/3-2.png"]),
    ("4", ["/interacivefile/VQFile/sectionimg/4-1.png"]),
    ("5", ["/interacivefile/VQFile/sectionimg/5-1.png"]),
    ("6", ["/interacivefile/VQFile/sectionimg/6-1.png"]),
    ("7", ["/interacivefile/VQFile/sectionimg/7-1.png"]),
    ("8", ["/interacivefile/VQFile/sectionimg/8-1.png"]),
    ("9", ["/interacivefile/VQFile/sectionimg/9-1.png"]),
    ("10", ["/interacivefile/VQFile/sectionimg/10-1.png"]),
    ("11", ["/interacivefile/VQFile/sectionimg/11-1.png"]),
    ("12", ["/interacivefile/VQFile/sectionimg/12-1.png"]),
    ("13", ["/interacivefile/VQFile/sectionimg/13-1.png"]),
    ("14", ["/interacivefile/VQFile/sectionimg/14-1.png"]),
    ("15", ["/interacivefile/VQFile/sectionimg/15-1.png"]),
    ("16", ["/interacivefile/VQFile/sectionimg/16-1.png"]),
    ("17", ["/interacivefile/VQFile/sectionimg/17-1.png"]),
    ("18", ["/interacivefile/VQFile/sectionimg/18-1.png"]),
    ("19",
      ["/interacivefile/VQFile/19-1-video.mp4",
       "/interacivefile/VQFile/19-2-video.mp4"]),
    ("20", ["/interacivefile/VQFile/sectionimg/20-1.png"]),
    ("21", ["/interacivefile/VQFile/sectionimg/21-1.png"]),
    ("22", ["/interacivefile/VQFile/sectionimg/22-1.png"]),
    ("23", ["/interacivefile/VQFile/sectionimg/23-1.png"]),
    ("24", ["/interacivefile/VQFile/sectionimg/24-1.png"])
  ]

/-- The table `vqIndividualImagePositions` (VQBook.jsx 433-669), keyed by page
id. -/
def vqIndividualImagePositions : List (String × List ImagePosition) :=
  [
    ("2",
      [{ position := "absolute", top := some "17%", left := some "9%", width := "100%", maxWidth := "300px" },
       { position := "absolute", top := some "48%", left := some "8%", width := "100%", maxWidth := "320px" },
       { position := "absolute", left := some "9%", bottom := some "8%", width := "100%", maxWidth := "320px" }]),
    ("3",
      [{ position := "absolute", top := some "17%", left := some "4%", width := "100%", maxWidth := "310px" },
       { position := "absolute", bottom := some "4%", right := some "12%", width := "100%", maxWidth := "310px" }]),
    ("4",
      [{ position := "absolute", top := some "9%", left := some "8%", width := "100%", maxWidth := "300px" }]),
    ("5",
      [{ position := "absolute", bottom := some "6%", right := some "7%", width := "100%", maxWidth := "180px" }]),
    ("6",
      [{ position := "absolute", top := some "19%", left := some "25%", width := "100%", maxWidth := "190px" }]),
    ("7",
      [{ position := "absolute", top := some "19%", left := some "9%", width := "100%", maxWidth := "300px" }]),
    ("8",
      [{ position := "absolute", top := some "20%", left := some "25%", width := "100%", maxWidth := "190px" }]),
    ("9",
      [{ position := "absolute", top := some "19%", left := some "16%", width := "100%", maxWidth := "245px" }]),
    ("10",
      [{ position := "absolute", top := some "20%", left := some "25%", width := "100%", maxWidth := "190px" }]),
    ("11",
      [{ position := "absolute", top := some "17%", left := some "24%", width := "100%", maxWidth := "184px" }]),
    ("12",
      [{ position := "absolute", top := some "20%", left := some "24%", width := "100%", maxWidth := "195px" }]),
    ("13",
      [{ position := "absolute", top := some "11%", left := some "0%", width := "100%", maxWidth := "292px" }]),
    ("14",
      [{ position := "absolute", top := some "20%", left := some "25%", width := "100%", maxWidth := "190px" }]),
    ("15",
      [{ position := "absolute", top := some "30%", left := some "14%", width := "100%", maxWidth := "268px" }]),
    ("16",
      [{ position := "absolute", top := some "20%", left := some "25%", width := "100%", maxWidth := "190px" }]),
    ("17",
      [{ position := "absolute", top := some "8%", left := some "0%", width := "100%", maxWidth := "288px" }]),
    ("18",
      [{ position := "absolute", top := some "10%", left := some "9%", width := "100%", maxWidth := "298px" }]),
    ("19",
      [{ position := "absolute", top := some "10%", left := some "25%", width := "100%", maxWidth := "175px" },
       { position := "absolute", top := some "10%", right := some "25%", width := "100%", maxWidth := "175px" }]),
    ("20",
      [{ position := "absolute", top := some "9%", left := some "9%", width := "100%", maxWidth := "308px" }]),
    ("21",
      [{ position := "absolute", top := some "9%", left := some "12%", width := "100%", maxWidth := "264px" }]),
    ("22",
      [{ position := "absolute", top := some "27%", left := some "13%", width := "100%", maxWidth := "284px" }]),
    ("23",
      [{ position := "absolute", top := some "35%", left := some "31%", width := "100%", maxWidth := "134px" }]),
    ("24",
      [{ position := "absolute", top := some "20%", left := some "25%", width := "100%", maxWidth := "200px" }])
  ]

/-- The overlay hot-spots rendered on the page with id `pageId`
(VQBook.jsx 950-996). -/
def renderedOverlays (pageId : String) : List (String × ImagePosition) :=
  renderOverlays vqSectionImgMapping vqIndividualImagePositions pageId

/-- The function `open3DModal()` (VQBook.jsx 714-716). -/
def open3DModal (s : State) : State :=
  { s with is3DModalOpen := true }

/-- The function `close3DModal()` (VQBook.jsx 721-723). -/
def close3DModal (s : State) : State :=
  { s with is3DModalOpen := false }

/-- The handler `handleSectionImgClick(imgSrc, event, pageId)` (VQBook.jsx
679-690). A `NaN` from `parseInt` is stored as `none`. -/
def handleSectionImgClick (imgSrc : String) (pageId : String) (s : State) : State :=
  if JS.includes imgSrc "2-1.png" then
    open3DModal s
  else
    { s with selectedGif := some imgSrc, modalSourcePage := JS.parseInt pageId, isModalOpen := true }

/-- The handler `closeModal()` (VQBook.jsx 696-709). -/
def closeModal (s : State) : State :=
  let s1 := { s with isModalOpen := false, selectedGif := none }
  let s2 :=
    match s.modalSourcePage with
    | some modalSourcePage =>
      s1.setTimeout (TimerCallback.closeModalFlip modalSourcePage s.isBookReady s.currentPage) 100
    | none => s1
  { s2 with modalSourcePage := none }

/-- The call `safePageFlip(targetPage)` from the current render. -/
def safePageFlip (targetPage : Int) (s : State) : State :=
  { s with toCore := s.toCore.safePageFlip targetPage }

/-- The call `safePageFlip(targetPage)` from a closure that captured
`isBookReady` and `currentPage`. -/
def safePageFlipIn (isBookReady : Bool) (currentPage : Int) (targetPage : Int) (s : State) :
    State :=
  { s with toCore := s.toCore.safePageFlipIn isBookReady currentPage targetPage }

/-- The handler `handlePageChange(e)` (VQBook.jsx 774-808), with `e.data`
passed as `newPage`. -/
def handlePageChange (newPage : Int) (s : State) : State :=
  if newPage = s.currentPage then
    s
  else
    let s := { s with currentPage := newPage, isFlippingRef := false, isFlipping := false }
    if newPage = 0 then
      s.setTimeout TimerCallback.coverDelay 500
    else
      let s := { s with isCoverVisible := false, isMainImageAnimating := false, mainImageSize := 1 }
      s.cancelAnimationIfTruthy

/-- The handler `handleResize()` (VQBook.jsx 152-172), with `window.innerWidth`
passed as `innerWidth`. -/
def handleResize (innerWidth : Nat) (s : State) : State :=
  let wasMobile := s.isMobile
  let newIsMobile := decide (innerWidth < 576)
  if wasMobile != newIsMobile then
    let s1 := { s with isMobile := newIsMobile }
    s1.setTimeout (TimerCallback.resizeCheck s.isMobile s.currentPage s.isBookReady) 100
  else s

/-- The handler `handleKeyDown(e)` (VQBook.jsx 183-193), with `e.key` passed as
`key`. -/
def handleKeyDown (key : String) (s : State) : State :=
  if key = "ArrowLeft" then
    if s.currentPage > 0 then safePageFlip (s.currentPage - 1) s else s
  else if key = "ArrowRight" then
    if s.currentPage < 24 then safePageFlip (s.currentPage + 1) s else s
  else s

/-- The function `goToGroup(groupId)` (VQBook.jsx 386-393). -/
def goToGroup (groupId : Nat) (s : State) : State :=
  match (getPageGroups s.isMobile).find? (fun group => group.groupId == groupId) with
  | some targetGroup =>
    match targetGroup.pages with
    | first :: _ => safePageFlip first s
    | [] => s
  | none => s

/-- The function `goToPreviousPage()` (VQBook.jsx 897-901). -/
def goToPreviousPage (s : State) : State :=
  if s.currentPage > 0 then safePageFlip (s.currentPage - 1) s else s

/-- The function `goToNextPage()` (VQBook.jsx 906-910). -/
def goToNextPage (s : State) : State :=
  if s.currentPage < 24 then safePageFlip (s.currentPage + 1) s else s

/-- The mount of the component with `window.innerWidth` and the value of
`bookRef.current` at that time: the initial render, then the readiness effect
(VQBook.jsx 44-79) and the mount effect (VQBook.jsx 112-129). -/
def mount (innerWidth : Nat) (bookRef : Option BookHandle) : State :=
  let s := init innerWidth
  let s :=
    if handleReady bookRef then
      { s with isBookReady := true }
    else
      let id := s.nextTimerId
      let s := s.setTimeout TimerCallback.checkBookReady 100
      { s with interval := some id }
  let id := s.nextTimerId
  let s := s.setTimeout TimerCallback.mountTimer 1000
  { s with timer := some id }

/-- The cleanups run at unmount, in the order of the effects: the readiness
effect (VQBook.jsx 75-78, registered only when the interval was started), the
mount effect (VQBook.jsx 128) and the cleanup effect (VQBook.jsx 136-144). -/
def unmount (s : State) : State :=
  let s :=
    match s.interval with
    | some interval => { s with isMounted := false }.clearTimeout interval
    | none => s
  let s :=
    match s.timer with
    | some timer => s.clearTimeout timer
    | none => s
  let s := s.cancelAnimationIfTruthy
  let s := { s with toCore := s.toCore.clearIfTruthy s.flipTimeoutRef }
  { s with isFlippingRef := false, unmounted := true }

/-- The tick of the readiness interval (VQBook.jsx 47-73); the `isBookReady`
read by `checkBookReady` is that of the first render, `false`. -/
def checkBookReadyTick (bookRef : Option BookHandle) (s : State) : State :=
  if !s.isMounted then
    s
  else if handleReady bookRef then
    let s := { s with isBookReady := true }
    match s.interval with
    | some interval => s.clearTimeout interval
    | none => s
  else s

/-- The main-image animation started by the cover timers (VQBook.jsx 119-122,
794-796), with `window.innerWidth` and `performance.now()` passed in. -/
def startMainImage (innerWidth : Nat) (now : ℚ) (s : State) : State :=
  let s := { s with isMainImageAnimating := true }
  let endSize : ℚ := min (if innerWidth < 576 then 320 else 320) 320
  animateMainImage 1 endSize 1000 now s

/-- The body of a timer callback, run with the current `bookRef.current`,
`window.innerWidth` and `performance.now()`. -/
def runCallback (callback : TimerCallback) (bookRef : Option BookHandle) (innerWidth : Nat)
    (now : ℚ) (s : State) : State :=
  match callback with
  | TimerCallback.checkBookReady => checkBookReadyTick bookRef s
  | TimerCallback.mountTimer =>
    { s with isCoverVisible := true }.setTimeout TimerCallback.animationTimer 2000
  | TimerCallback.animationTimer => startMainImage innerWidth now s
  | TimerCallback.resizeCheck isMobile currentPage isBookReady =>
    let newPageGroups := getPageGroups isMobile
    let isValidPage := newPageGroups.any (fun group => group.pages.contains currentPage)
    if !isValidPage && currentPage != 0 then
      safePageFlipIn isBookReady currentPage 0 s
    else s
  | TimerCallback.closeModalFlip modalSourcePage isBookReady currentPage =>
    let pageIndex := if modalSourcePage = 1 then 0 else modalSourcePage - 1
    safePageFlipIn isBookReady currentPage pageIndex s
  | TimerCallback.coverDelay =>
    { s with isCoverVisible := true }.setTimeout TimerCallback.coverAnimation 2000
  | TimerCallback.coverAnimation => startMainImage innerWidth now s
  | TimerCallback.flip targetPage =>
    { s with toCore := settle (s.toCore.flipTimerCallback bookRef targetPage) }

/-- The browser fires the pending timer `id`: a timeout leaves the queue, the
interval stays, and the callback runs. -/
def fireTimer (id : Nat) (bookRef : Option BookHandle) (innerWidth : Nat) (now : ℚ)
    (s : State) : State :=
  match s.timers.find? (fun t => t.id == id) with
  | some t =>
    let s := if t.callback = TimerCallback.checkBookReady then s else s.clearTimeout id
    runCallback t.callback bookRef innerWidth now s
  | none => s

/-- The browser runs the pending animation frame `id` at `currentTime`. -/
def runFrame (id : Nat) (currentTime : ℚ) (s : State) : State :=
  match s.frames.find? (fun f => f.id == id) with
  | some f =>
    animate f.startTime f.startSize f.sizeDiff f.duration currentTime (s.cancelAnimationFrame id)
  | none => s

/-- What can happen to a mounted `VQBook`. -/
inductive Event
  | fireTimer (id : Nat) (bookRef : Option BookHandle) (innerWidth : Nat) (now : ℚ)
  | runFrame (id : Nat) (currentTime : ℚ)
  | safePageFlip (targetPage : Int)
  | handlePageChange (newPage : Int)
  | handleResize (innerWidth : Nat)
  | handleKeyDown (key : String)
  | goToGroup (groupId : Nat)
  | goToPreviousPage
  | goToNextPage
  | handleSectionImgClick (imgSrc : String) (pageId : String)
  | closeModal
  | close3DModal
  | unmount
  deriving DecidableEq, Repr

/-- One step of the component. Timers and animation frames run whenever the
browser fires them; the handlers run only while the component is mounted. -/
def step (s : State) (e : Event) : State :=
  match e with
  | Event.fireTimer id bookRef innerWidth now => fireTimer id bookRef innerWidth now s
  | Event.runFrame id currentTime => runFrame id currentTime s
  | Event.unmount => if s.unmounted then s else unmount s
  | Event.safePageFlip targetPage => if s.unmounted then s else safePageFlip targetPage s
  | Event.handlePageChange newPage => if s.unmounted then s else handlePageChange newPage s
  | Event.handleResize innerWidth => if s.unmounted then s else handleResize innerWidth s
  | Event.handleKeyDown key => if s.unmounted then s else handleKeyDown key s
  | Event.goToGroup groupId => if s.unmounted then s else goToGroup groupId s
  | Event.goToPreviousPage => if s.unmounted then s else goToPreviousPage s
  | Event.goToNextPage => if s.unmounted then s else goToNextPage s
  | Event.handleSectionImgClick imgSrc pageId =>
    if s.unmounted then s else handleSectionImgClick imgSrc pageId s
  | Event.closeModal => if s.unmounted then s else closeModal s
  | Event.close3DModal => if s.unmounted then s else close3DModal s

/-- The state after a list of events. -/
def run (s : State) (events : List Event) : State :=
  events.foldl step s

/-- The states the component can be in: those reached from a mount by events. -/
inductive Reachable : State → Prop
  | mount (innerWidth : Nat) (bookRef : Option BookHandle) : Reachable (mount innerWidth bookRef)
  | step (s : State) (e : Event) (h : Reachable s) : Reachable (step s e)

/-- The page-flip timers that are pending. -/
def pendingFlipTimers (s : State) : List Timer :=
  s.timers.filter Timer.isFlip

end VQBook

/-! ## Model3D.jsx -/

namespace Model3D

/-- State of the `Model3D` component (Model3D.jsx 15-20). -/
structure State where
  rotationX : ℚ
  rotationY : ℚ
  isDragging : Bool
  startX : ℚ
  startY : ℚ
  autoRotate : Bool
  deriving DecidableEq, Repr

/-- The initial render (Model3D.jsx 15-20). -/
def init : State :=
  { rotationX := 0, rotationY := 0, isDragging := false, startX := 0, startY := 0,
    autoRotate := false }

/-- A pointer position: `clientX` and `clientY`. -/
structure Point where
  clientX : ℚ
  clientY : ℚ
  deriving DecidableEq, Repr

/-- The tick of the auto-rotate interval (Model3D.jsx 32-34). -/
def autoRotateTick (s : State) : State :=
  { s with rotationY := s.rotationY + 2 }

/-- The handler `handleMouseDown(e)` (Model3D.jsx 54-61). -/
def handleMouseDown (e : Point) (s : State) : State :=
  { s with isDragging := true, startX := e.clientX, startY := e.clientY }

/-- The handler `handleMouseMove(e)` (Model3D.jsx 68-86). -/
def handleMouseMove (e : Point) (s : State) : State :=
  if !s.isDragging then
    s
  else
    let deltaX := e.clientX - s.startX
    let deltaY := e.clientY - s.startY
    { s with
      rotationY := s.rotationY + deltaX * (1 / 2)
      rotationX := max (-90) (min 90 (s.rotationX - deltaY * (1 / 2)))
      startX := e.clientX
      startY := e.clientY }

/-- The handler `handleMouseUp()` (Model3D.jsx 92-94). -/
def handleMouseUp (s : State) : State :=
  { s with isDragging := false }

/-- The handler `handleTouchStart(e)` (Model3D.jsx 101-108), with `e.touches`
passed as a list; with no touch, reading `e.touches[0].clientX` throws after
`setIsDragging(true)`. -/
def handleTouchStart (touches : List Point) (s : State) : State :=
  let s := { s with isDragging := true }
  match touches with
  | touch :: _ => { s with startX := touch.clientX, startY := touch.clientY }
  | [] => s

/-- The handler `handleTouchMove(e)` (Model3D.jsx 115-133), with `e.touches`
passed as a list; with no touch, reading `e.touches[0].clientX` throws before
any state is set. -/
def handleTouchMove (touches : List Point) (s : State) : State :=
  if !s.isDragging then
    s
  else
    match touches with
    | touch :: _ =>
      let deltaX := touch.clientX - s.startX
      let deltaY := touch.clientY - s.startY
      { s with
        rotationY := s.rotationY + deltaX * (1 / 2)
        rotationX := max (-90) (min 90 (s.rotationX - deltaY * (1 / 2)))
        startX := touch.clientX
        startY := touch.clientY }
    | [] => s

/-- The handler `handleTouchEnd()` (Model3D.jsx 139-141). -/
def handleTouchEnd (s : State) : State :=
  { s with isDragging := false }

/-- The function `resetModel()` (Model3D.jsx 147-151). -/
def resetModel (s : State) : State :=
  { s with rotationX := 0, rotationY := 0, autoRotate := false }

/-- The function `toggleAutoRotate()` (Model3D.jsx 157-159). -/
def toggleAutoRotate (s : State) : State :=
  { s with autoRotate := !s.autoRotate }

/-- What can happen to a mounted `Model3D`. -/
inductive Event
  | mouseDown (e : Point)
  | mouseMove (e : Point)
  | mouseUp
  | touchStart (touches : List Point)
  | touchMove (touches : List Point)
  | touchEnd
  | autoRotateTick
  | toggleAutoRotate
  | resetModel
  deriving DecidableEq, Repr

/-- One step of the component; the interval ticks only while `autoRotate` is
on (Model3D.jsx 30-47). -/
def step (s : State) (e : Event) : State :=
  match e with
  | Event.mouseDown p => handleMouseDown p s
  | Event.mouseMove p => handleMouseMove p s
  | Event.mouseUp => handleMouseUp s
  | Event.touchStart touches => handleTouchStart touches s
  | Event.touchMove touches => handleTouchMove touches s
  | Event.touchEnd => handleTouchEnd s
  | Event.autoRotateTick => if s.autoRotate then autoRotateTick s else s
  | Event.toggleAutoRotate => toggleAutoRotate s
  | Event.resetModel => resetModel s

/-- The state after a list of events. -/
def run (s : State) (events : List Event) : State :=
  events.foldl step s

end Model3D

/-! ## IntroScreen-mobile.jsx -/

namespace IntroScreen

/-- The table `sectionImgMapping` (IntroScreen-mobile.jsx 219-252), keyed by
page number. -/
def sectionImgMapping : List (String × List String) :=
  [
    ("2",
      ["/interacivefile/VQFile/sectionimg/2-1.png",
       "/interacivefile/VQFile/sectionimg/2-2.png",
       "/interacivefile/VQFile/sectionimg/2-3.png"]),
    ("3",
      ["/interacivefile/VQFile/sectionimg/3-1.png",
       "/interacivefile/VQFile/sectionimg/3-2.png"]),
    ("4", ["/interacivefile/VQFile/sectionimg/4-1.png"]),
    ("5", ["/interacivefile/VQFile/sectionimg/5-1.png"]),
    ("6", ["/interacivefile/VQFile/sectionimg/6-1.png"]),
    ("7", ["/interacivefile/VQFile/sectionimg/7-1.png"]),
    ("8", ["/interacivefile/VQFile/sectionimg/8-1.png"]),
    ("9", ["/interacivefile/VQFile/sectionimg/9-1.png"]),
    ("10", ["/interacivefile/VQFile/sectionimg/10-1.png"]),
    ("11", ["/interacivefile/VQFile/sectionimg/11-1.png"]),
    ("12", ["/interacivefile/VQFile/sectionimg/12-1.png"]),
    ("13", ["/interacivefile/VQFile/sectionimg/13-1.png"]),
    ("14", ["/interacivefile/VQFile/sectionimg/14-1.png"]),
    ("15", ["/interacivefile/VQFile/sectionimg/15-1.png"]),
    ("16", ["/interacivefile/VQFile/sectionimg/16-1.png"]),
    ("17", ["/interacivefile/VQFile/sectionimg/17-1.png"]),
    ("18", ["/interacivefile/VQFile/sectionimg/18-1.png"]),
    ("19", []),
    ("20", ["/interacivefile/VQFile/sectionimg/20-1.png"]),
    ("21", ["/interacivefile/VQFile/sectionimg/21-1.png"]),
    ("22", ["/interacivefile/VQFile/sectionimg/22-1.png"]),
    ("23", ["/interacivefile/VQFile/sectionimg/23-1.png"]),
    ("24", ["/interacivefile/VQFile/sectionimg/24-1.png"])
  ]

/-- The table `individualImagePositions` (IntroScreen-mobile.jsx 314-562), keyed
by page number. The template string `${getResponsiveImageSize(n)}%` of a
`maxWidth`, whose value depends on `window.innerWidth` and on number
formatting, is `responsivePercent n`. -/
def individualImagePositions (responsivePercent : Nat → String) : List (String × List ImagePosition) :=
  [
    ("2",
      [{ position := "absolute", top := some "17%", left := some "9%", width := "100%", maxWidth := responsivePercent 81 },
       { position := "absolute", top := some "48%", left := some "8%", width := "100%", maxWidth := responsivePercent 81 },
       { position := "absolute", left := some "9%", bottom := some "8%", width := "100%", maxWidth := responsivePercent 81 }]),
    ("3",
      [{ position := "absolute", top := some "17%", left := some "4%", width := "100%", maxWidth := responsivePercent 81 },
       { position := "absolute", bottom := some "4%", right := some "12%", width := "100%", maxWidth := responsivePercent 81 }]),
    ("4",
      [{ position := "absolute", top := some "9%", left := some "8%", width := "100%", maxWidth := responsivePercent 81 }]),
    ("5",
      [{ position := "absolute", bottom := some "6%", right := some "7%", width := "100%", maxWidth := responsivePercent 81 }]),
    ("6",
      [{ position := "absolute", top := some "1%", left := some "7%", width := "100%", maxWidth := responsivePercent 81 }]),
    ("7",
      [{ position := "absolute", top := some "19%", left := some "9%", width := "100%", maxWidth := responsivePercent 81 }]),
    ("8",
      [{ position := "absolute", top := some "1%", left := some "7%", width := "100%", maxWidth := responsivePercent 81 }]),
    ("9",
      [{ position := "absolute", top := some "1%", left := some "7%", width := "100%", maxWidth := responsivePercent 81 }]),
    ("10",
      [{ position := "absolute", top := some "2%", left := some "7%", width := "100%", maxWidth := responsivePercent 81 }]),
    ("11",
      [{ position := "absolute", top := some "5%", left := some "14%", width := "100%", maxWidth := responsivePercent 70 }]),
    ("12",
      [{ position := "absolute", top := some "4%", left := some "7%", width := "100%", maxWidth := responsivePercent 81 }]),
    ("13",
      [{ position := "absolute", top := some "11%", left := some "0%", width := "100%", maxWidth := responsivePercent 81 }]),
    ("14",
      [{ position := "absolute", top := some "4%", left := some "7%", width := "100%", maxWidth := responsivePercent 81 }]),
    ("15",
      [{ position := "absolute", top := some "30%", left := some "14%", width := "100%", maxWidth := responsivePercent 81 }]),
    ("16",
      [{ position := "absolute", top := some "4%", left := some "7%", width := "100%", maxWidth := responsivePercent 81 }]),
    ("17",
      [{ position := "absolute", top := some "8%", left := some "0%", width := "100%", maxWidth := responsivePercent 81 }]),
    ("18",
      [{ position := "absolute", top := some "10%", left := some "9%", width := "100%", maxWidth := responsivePercent 81 }]),
    ("19", []),
    ("20",
      [{ position := "absolute", top := some "9%", left := some "9%", width := "100%", maxWidth := responsivePercent 81 }]),
    ("21",
      [{ position := "absolute", top := some "9%", left := some "12%", width := "100%", maxWidth := responsivePercent 81 }]),
    ("22",
      [{ position := "absolute", top := some "27%", left := some "13%", width := "100%", maxWidth := responsivePercent 81 }]),
    ("23",
      [{ position := "absolute", top := some "20%", left := some "10%", width := "100%", maxWidth := responsivePercent 81 }]),
    ("24",
      [{ position := "absolute", bottom := some "5%", right := some "5%", width := "100%", maxWidth := responsivePercent 81 }])
  ]

/-- The number of entries of `pageImages` (IntroScreen-mobile.jsx 565-710). -/
def pageImagesLength : Nat := 24

/-- The overlay hot-spots rendered on the page at `index` of `pageImages`
(IntroScreen-mobile.jsx 1080-1183): none on the cover and on the video page
(index 18), otherwise those of page number `index + 1`. -/
def renderedOverlays (responsivePercent : Nat → String) (index : Nat) :
    List (String × ImagePosition) :=
  if index > 0 && index != 18 then
    renderOverlays sectionImgMapping (individualImagePositions responsivePercent)
      (toString (index + 1))
  else []

/-- How a promise settles. -/
inductive Settled
  | resolves
  | rejects
  deriving DecidableEq, Repr

/-- The browser APIs read by `handleShareClick`: `share` is `none` when
`navigator.share` is falsy and otherwise tells how the promise it returns
settles; `clipboard` is `none` when `navigator.clipboard` is undefined and
otherwise tells how the promise of `writeText` settles. -/
structure Navigator where
  share : Option Settled
  clipboard : Option Settled
  deriving DecidableEq, Repr

/-- What the handler shows or logs. -/
inductive Effect
  | alert (message : String)
  | consoleLog (message : String)
  deriving DecidableEq, Repr

/-- The effect is a dialog shown to the user. -/
def Effect.isDialog (e : Effect) : Bool :=
  match e with
  | Effect.alert _ => true
  | Effect.consoleLog _ => false

/-- How the handler and its promise chain end. -/
inductive Completion
  /-- The handler returned and every promise of the chain was handled -/
  | completed
  /-- A `TypeError` left the handler -/
  | threw
  /-- The handler returned and the promise chain ended in a rejection that
  nothing handles -/
  | unhandledRejection
  deriving DecidableEq, Repr

/-- Outcome of `handleShareClick`. -/
structure ShareResult where
  completion : Completion
  effects : List Effect
  deriving DecidableEq, Repr

/-- The expression `navigator.clipboard.writeText(href).then(onResolve).catch(onReject)`:
an `error` is the `TypeError` of reading `writeText` of undefined. -/
def writeText (clipboard : Option Settled) (onResolve onReject : Effect) :
    Except Unit (List Effect) :=
  match clipboard with
  | none => Except.error ()
  | some Settled.resolves => Except.ok [onResolve]
  | some Settled.rejects => Except.ok [onReject]

/-- The handler `handleShareClick()` (IntroScreen-mobile.jsx 917-946). -/
def handleShareClick (navigator : Navigator) : ShareResult :=
  let copyWithAlert :=
    writeText navigator.clipboard (Effect.alert "링크가 클립보드에 복사되었습니다!")
      (Effect.alert "클립보드 복사에 실패했습니다.")
  let copyWithLog :=
    writeText navigator.clipboard (Effect.consoleLog "링크가 클립보드에 복사되었습니다!")
      (Effect.consoleLog "클립보드 복사에 실패했습니다.")
  match navigator.share with
  | some shared =>
    -- navigator.share({...}).then(onShared).catch(onShareFailed)
    let onShareFailed : ShareResult :=
      match copyWithAlert with
      | Except.ok effects => { completion := Completion.completed, effects := effects }
      | Except.error _ => { completion := Completion.unhandledRejection, effects := [] }
    match shared with
    | Settled.resolves =>
      match copyWithLog with
      | Except.ok effects => { completion := Completion.completed, effects := effects }
      | Except.error _ => onShareFailed
    | Settled.rejects => onShareFailed
  | none =>
    match copyWithAlert with
    | Except.ok effects => { completion := Completion.completed, effects := effects }
    | Except.error _ => { completion := Completion.threw, effects := [] }

/-- The handler is silent: it raises no error and shows no dialog. -/
def Silent (r : ShareResult) : Prop :=
  r.completion = Completion.completed ∧ ∀ e ∈ r.effects, e.isDialog = false

/-- A value of `mainLogoPosition`: the object `{ x, y }`. -/
structure Position where
  x : ℚ
  y : ℚ
  deriving DecidableEq, Repr

/-- A final setting of the logo: the object `{ scale, position }`. -/
structure FinalSettings where
  scale : ℚ
  position : Position
  deriving DecidableEq, Repr

/-- The 17 `useState` variables of the component (IntroScreen-mobile.jsx
15-32); `none` is `null`. -/
structure Vars where
  showIntro : Bool
  logoOpacity : ℚ
  whiteScreenVisible : Bool
  mainScreenVisible : Bool
  imageScale : ℚ
  imageOpacity : ℚ
  mainLogoOpacity : ℚ
  mainLogoScale : ℚ
  mainLogoPosition : Position
  subTitleOpacity : ℚ
  subTitleTransform : String
  subTitle2Opacity : ℚ
  titleOpacity : ℚ
  titleTransform : String
  selectedGif : Option String
  isModalOpen : Bool
  modalSourcePage : Option Int
  deriving DecidableEq, Repr

/-- The callbacks given to `setTimeout` by `handleHomeClick` and by
`startOverlayAnimations`. -/
inductive TimerCallback
  /-- The restart of the logo animation (IntroScreen-mobile.jsx 855-885) -/
  | restartLogoAnimation
  /-- The call `animateOverlayFromLeft(setSubTitleOpacity, setSubTitleTransform, 1000)` -/
  | subTitleFromLeft
  /-- The calls `setSubTitleOpacity(0); setSubTitle2Opacity(1)` -/
  | swapSubTitle
  /-- The call `animateOverlayFromLeft(setTitleOpacity, setTitleTransform, 1000)` -/
  | titleFromLeft
  deriving DecidableEq, Repr

/-- A pending `setTimeout`. -/
structure Timer where
  id : Nat
  delay : Nat
  callback : TimerCallback
  deriving DecidableEq, Repr

/-- A pending `requestAnimationFrame(animate)` of `startMainLogoAnimation`, with
the `startTime` of the closure. -/
structure Frame where
  id : Nat
  startTime : ℚ
  deriving DecidableEq, Repr

/-- State of the `IntroScreen` component: the `useState` variables, the ref
`animationRef` and the browser's timer and animation-frame queues. -/
structure State extends Vars where
  animationRef : Option Nat
  /-- Pending timers, oldest first -/
  timers : List Timer
  /-- The handle the next `setTimeout` returns -/
  nextTimerId : Nat
  /-- Pending animation frames, oldest first -/
  frames : List Frame
  /-- The handle the next `requestAnimationFrame` returns -/
  nextFrameId : Nat
  deriving DecidableEq, Repr

/-- The initial render (IntroScreen-mobile.jsx 15-35), with empty browser queues
whose handles start at 1. -/
def init : State :=
  { showIntro := true
    logoOpacity := 0
    whiteScreenVisible := true
    mainScreenVisible := false
    imageScale := JS.num (6 / 5)
    imageOpacity := 0
    mainLogoOpacity := 0
    mainLogoScale := 0
    mainLogoPosition := { x := 0, y := 0 }
    subTitleOpacity := 0
    subTitleTransform := "translateX(-100%)"
    subTitle2Opacity := 0
    titleOpacity := 0
    titleTransform := "translateX(-100%)"
    selectedGif := none
    isModalOpen := false
    modalSourcePage := none
    animationRef := none
    timers := []
    nextTimerId := 1
    frames := []
    nextFrameId := 1 }

/-- The call `setTimeout(callback, delay)`. -/
def State.setTimeout (callback : TimerCallback) (delay : Nat) (s : State) : State :=
  { s with
    timers := s.timers ++ [{ id := s.nextTimerId, delay := delay, callback := callback }]
    nextTimerId := s.nextTimerId + 1 }

/-- The call `requestAnimationFrame(animate)` in `startMainLogoAnimation`: the
handle returned is the old `nextFrameId`. -/
def State.requestAnimationFrame (startTime : ℚ) (s : State) : State :=
  { s with
    frames := s.frames ++ [{ id := s.nextFrameId, startTime := startTime }]
    nextFrameId := s.nextFrameId + 1 }

/-- The function `getResponsiveMainLogoFinalSettings()` (IntroScreen-mobile.jsx
268-291), `screenWidth` being `window.innerWidth`. -/
def getResponsiveMainLogoFinalSettings (screenWidth : Nat) : FinalSettings :=
  if screenWidth ≥ 1024 then
    { scale := 1, position := { x := 42, y := -41 } }
  else if screenWidth ≥ 768 then
    { scale := JS.num (8 / 10), position := { x := 41, y := -41 } }
  else if screenWidth ≥ 480 then
    { scale := JS.num (4 / 10), position := { x := 41, y := -41 } }
  else
    { scale := JS.num (3 / 10), position := { x := 40, y := -40 } }

/-- The value `finalSettings` of a frame of `startMainLogoAnimation`
(IntroScreen-mobile.jsx 66). -/
def finalSettings (innerWidth : Nat) : FinalSettings :=
  if innerWidth < 1024 then getResponsiveMainLogoFinalSettings innerWidth
  else { scale := 1, position := { x := 42, y := -41 } }

/-- The value `progress` of a frame of `startMainLogoAnimation`
(IntroScreen-mobile.jsx 59-60), the duration being 4000 ms: the difference and
the quotient are double operations. -/
def logoProgress (startTime currentTime : ℚ) : ℚ :=
  let duration : ℚ := 4000
  let elapsed := JS.sub currentTime startTime
  min (JS.div elapsed duration) 1

/-- The state writes of a frame of `startMainLogoAnimation` with the given
`progress` (IntroScreen-mobile.jsx 67-91). The literals 0.375, 0.625 and 1.5
are doubles themselves, and every operation is rounded as JavaScript rounds
it. -/
def logoFrameWrites (progress : ℚ) (finalSettings : FinalSettings) (s : State) : State :=
  let maxScale : ℚ := 3 / 2
  if progress < 3 / 8 then
    let firstPhaseProgress := JS.div progress (3 / 8)
    { s with
      mainLogoOpacity := firstPhaseProgress
      mainLogoScale := JS.mul firstPhaseProgress maxScale
      mainLogoPosition := { x := 0, y := 0 } }
  else if progress < 5 / 8 then
    { s with
      mainLogoOpacity := 1
      mainLogoScale := maxScale
      mainLogoPosition := { x := 0, y := 0 } }
  else
    let moveProgress := JS.div (JS.sub progress (5 / 8)) (3 / 8)
    let moveX := JS.mul moveProgress finalSettings.position.x
    let moveY := JS.mul moveProgress finalSettings.position.y
    { s with
      mainLogoOpacity := 1
      mainLogoScale := JS.sub maxScale (JS.mul (JS.sub maxScale finalSettings.scale) moveProgress)
      mainLogoPosition := { x := moveX, y := moveY } }

/-- The function `startOverlayAnimations()` (IntroScreen-mobile.jsx 107-123). -/
def startOverlayAnimations (s : State) : State :=
  let s := s.setTimeout TimerCallback.subTitleFromLeft 500
  let s := s.setTimeout TimerCallback.swapSubTitle 2000
  s.setTimeout TimerCallback.titleFromLeft 2500

/-- The frame callback `animate(currentTime)` of `startMainLogoAnimation`
(IntroScreen-mobile.jsx 58-99), run when `window.innerWidth` is `innerWidth`. -/
def logoAnimate (startTime : ℚ) (innerWidth : Nat) (currentTime : ℚ) (s : State) : State :=
  let progress := logoProgress startTime currentTime
  let s := logoFrameWrites progress (finalSettings innerWidth) s
  if progress < 1 then
    let id := s.nextFrameId
    let s := s.requestAnimationFrame startTime
    { s with animationRef := some id }
  else
    startOverlayAnimations s

/-- The function `startMainLogoAnimation()` (IntroScreen-mobile.jsx 54-102),
called when `performance.now()` is `now`. -/
def startMainLogoAnimation (now : ℚ) (s : State) : State :=
  let startTime := now
  let id := s.nextFrameId
  let s := s.requestAnimationFrame startTime
  { s with animationRef := some id }

/-- The handler `handleHomeClick()` (IntroScreen-mobile.jsx 834-886): the 17
setter calls, then the 500 ms timer that restarts the logo animation. -/
def handleHomeClick (s : State) : State :=
  let s : State :=
    { s with
      showIntro := true
      logoOpacity := 0
      whiteScreenVisible := true
      mainScreenVisible := false
      imageScale := JS.num (6 / 5)
      imageOpacity := 0
      mainLogoOpacity := 0
      mainLogoScale := 0
      mainLogoPosition := { x := 0, y := 0 }
      subTitleOpacity := 0
      subTitleTransform := "translateX(-100%)"
      subTitle2Opacity := 0
      titleOpacity := 0
      titleTransform := "translateX(-100%)"
      selectedGif := none
      isModalOpen := false
      modalSourcePage := none }
  s.setTimeout TimerCallback.restartLogoAnimation 500

/-- A state in the middle of a session: main screen shown, logo and titles in
their final places at width 600, a modal open on page 5, one pending frame and
one pending timer. -/
def busy : State :=
  { showIntro := false
    logoOpacity := 1
    whiteScreenVisible := false
    mainScreenVisible := true
    imageScale := 1
    imageOpacity := 1
    mainLogoOpacity := 1
    mainLogoScale := JS.num (4 / 10)
    mainLogoPosition := { x := 41, y := -41 }
    subTitleOpacity := 0
    subTitleTransform := "translateX(0%)"
    subTitle2Opacity := 1
    titleOpacity := 1 / 2
    titleTransform := "translateX(-50%)"
    selectedGif := some "/interacivefile/VQFile/sectionimg/5-1.png"
    isModalOpen := true
    modalSourcePage := some 5
    animationRef := some 7
    timers := [{ id := 4, delay := 2500, callback := TimerCallback.titleFromLeft }]
    nextTimerId := 5
    frames := [{ id := 7, startTime := 1000 }]
    nextFrameId := 8 }

end IntroScreen

/-! ## Scenarios -/

namespace FlipBook

/-- A widget handle whose `pageFlip()` object has a working `flip`. -/
def workingHandle : BookHandle :=
  { pageFlip := some (PageFlipCall.returnsApi
      { flip := some Outcome.returns, flipToPage := none, goToPage := none,
        turnToPage := none, setPage := none })
    flip := none
    goToPage := none }

/-- Case (a) of the fallback: `pageFlip()` returns an object that exposes none
of `flip`, `flipToPage`, `goToPage`, `turnToPage`, `setPage`. -/
def BookHandle.ExposesNoMethod (handle : BookHandle) : Prop :=
  ∃ api, handle.pageFlip = some (PageFlipCall.returnsApi api) ∧ api.flip = none ∧
    api.flipToPage = none ∧ api.goToPage = none ∧ api.turnToPage = none ∧ api.setPage = none

/-- Case (b) of the fallback: the handle has no `pageFlip`, `flip` or
`goToPage`. -/
def BookHandle.HasNoMethod (handle : BookHandle) : Prop :=
  handle.pageFlip = none ∧ handle.flip = none ∧ handle.goToPage = none

/-- A widget handle whose `pageFlip()` object has only a `goToPage`, which
throws. -/
def throwingHandle : BookHandle :=
  { pageFlip := some (PageFlipCall.returnsApi
      { flip := none, flipToPage := none, goToPage := some Outcome.throws,
        turnToPage := none, setPage := none })
    flip := none
    goToPage := none }

/-- A widget handle whose `pageFlip()` object exposes no transition method. -/
def bareHandle : BookHandle :=
  { pageFlip := some (PageFlipCall.returnsApi
      { flip := none, flipToPage := none, goToPage := none, turnToPage := none,
        setPage := none })
    flip := none
    goToPage := none }

/-- A widget handle without `pageFlip`, `flip` and `goToPage`. -/
def emptyHandle : BookHandle :=
  { pageFlip := none, flip := none, goToPage := none }

end FlipBook

namespace Book

/-- A history in which a second flip is requested while the timer of the first
is still pending: the widget reports page 1 before the first timer fires. -/
def overlappingFlips : List Event :=
  [Event.safePageFlip 1, Event.handlePageChange 1, Event.safePageFlip 2]

end Book

namespace VQBook

/-- A history in which a second flip is requested while the timer of the first
is still pending: the widget reports page 1 before the first timer fires. -/
def overlappingFlips : List Event :=
  [Event.safePageFlip 1, Event.handlePageChange 1, Event.safePageFlip 2]

end VQBook

namespace Book

/-- A ready book at page 0 on which `safePageFlip(3)` has been called: the flip
timer (handle 2) is pending. -/
def flipPending : State :=
  safePageFlip 3 (mount 1024 (some FlipBook.workingHandle))

end Book

namespace Book

/-- The history of the unmount during the mount delay: mounted at time 0 with
no widget handle (interval 1, `timer` 2), `timer` fires at 1000 ms and starts
`animationTimer` (handle 3), and the component is unmounted before 2000 ms. -/
def unmountedEarly : State :=
  run (mount 1024 none) [Event.fireTimer 2 none 1000, Event.unmount]

/-- The history of an unmount right after a modal was closed: an overlay of
page 2 is clicked, the modal is closed (100 ms timer, handle 3), and the
component is unmounted before the timer fires. -/
def unmountedAfterClose : State :=
  run (mount 1024 none)
    [Event.handleSectionImgClick "/interacivefile/FrienderFile/section-img/2-1.png" "2",
      Event.closeModal, Event.unmount]

end Book

/-- The media table and the position table are parallel at `key`: both have an
entry for it, and the two entries have the same length. -/
def TablesParallelAt (media : List (String × List String))
    (positions : List (String × List ImagePosition)) (key : String) : Prop :=
  (JS.lookup media key).isSome = true ∧ (JS.lookup positions key).isSome = true ∧
    (JS.lookup media key).map List.length = (JS.lookup positions key).map List.length

instance (media : List (String × List String)) (positions : List (String × List ImagePosition))
    (key : String) : Decidable (TablesParallelAt media positions key) := by
  unfold TablesParallelAt
  exact inferInstance

namespace Book

/-- The page panels in the order of the render (Book.jsx 909-1134): the cover
(`none`), then one panel per entry of `frienderData` (`some id`). The list
index of a panel is its page index in the book. -/
def renderedPages : List (Option String) :=
  none :: frienderData.map some

/-- The condition `index === 2` under which a panel of `frienderData` carries
the environment GIF hot-spots (Book.jsx 1058). -/
def rendersGifHotspots (index : Nat) : Bool :=
  index == 2

/-- The condition `isModalOpen && selectedGif` under which the media modal is
rendered (Book.jsx 1142); a string is truthy when it is not empty. -/
def modalRendered (s : State) : Bool :=
  s.isModalOpen &&
    (match s.selectedGif with
     | some gif => gif != ""
     | none => false)

/-- The overlay media paths configured in `sectionImgMapping`, each with the id
of its page. -/
def configuredOverlays : List (String × String) :=
  sectionImgMapping.flatMap (fun entry => entry.2.map (fun imgSrc => (entry.1, imgSrc)))

end Book

namespace Book

/-- The mounted book in the middle of the cover animation: the main image half
way in. -/
def midAnimation : State :=
  { mount 1024 none with
    isMainImageAnimating := true
    mainImageSize := 35
    mainImageRotation := 180
    mainImageOpacity := 1 / 2
    backgroundScale := 1
    backgroundBlur := 5 }

end Book

namespace FlipBook

/-- The first transition method that the object returned by `pageFlip()`
exposes, in the order `flip`, `flipToPage`, `goToPage`, `turnToPage`,
`setPage`, with what calling it does; `none` when it exposes none. -/
def PageFlipApi.firstAvailable (api : PageFlipApi) : Option (WidgetMethod × Outcome) :=
  [(WidgetMethod.pageFlip_flip, api.flip),
   (WidgetMethod.pageFlip_flipToPage, api.flipToPage),
   (WidgetMethod.pageFlip_goToPage, api.goToPage),
   (WidgetMethod.pageFlip_turnToPage, api.turnToPage),
   (WidgetMethod.pageFlip_setPage, api.setPage)].findSome?
    (fun entry => entry.2.map (fun outcome => (entry.1, outcome)))

/-- The book waits for the widget at page `page`: `isFlippingRef` is set, the
widget calls made so far are `calls`, and no page-flip timer is pending. -/
def Core.Awaiting (page : Int) (calls : List WidgetCall) (c : Core) : Prop :=
  c.isFlippingRef = true ∧ c.currentPage = page ∧ c.widgetCalls = calls ∧
    ∀ t ∈ c.timers, t.isFlip = false

/-- A widget handle whose `pageFlip()` object has no `flip` but a working
`flipToPage` and a working `setPage`. -/
def secondMethodHandle : BookHandle :=
  { pageFlip := some (PageFlipCall.returnsApi
      { flip := none, flipToPage := some Outcome.returns, goToPage := none,
        turnToPage := none, setPage := some Outcome.returns })
    flip := none
    goToPage := none }

end FlipBook

namespace Book

/-- The event is neither the unmount nor a report by `handlePageChange` of a
page other than `page`. -/
def Event.keepsWaiting (page : Int) (e : Event) : Bool :=
  match e with
  | Event.unmount => false
  | Event.handlePageChange newPage => newPage == page
  | _ => true

/-- A history after the flip timer fired: key presses, a resize with its check,
a click on an overlay, the modal closed with its timer, and a report of the
page the book is already on. -/
def waitingHistory : List Event :=
  [Event.handleKeyDown "ArrowRight", Event.handleResize 320,
   Event.fireTimer 3 (some FlipBook.secondMethodHandle) 500,
   Event.handleSectionImgClick "/interacivefile/FrienderFile/section-img/2-1.png" "2",
   Event.closeModal, Event.fireTimer 4 (some FlipBook.secondMethodHandle) 700,
   Event.safePageFlip 5, Event.handlePageChange 0, Event.goToNextPage]

end Book

/-! # Theorems -/

/-! ## Rounding to doubles

Facts about `JS.toDouble` used for the frame callbacks: the rounded value of a
positive number is `m * 2 ^ j` with a 53-bit significand `m`; the rounded value
is below 1 exactly for numbers below `1 - 2 ^ (-54)`; and for doubles `e` and
`d > 0` the rounded quotient is below 1 exactly when `e < d`. -/

theorem JS.bitLengthAux_zero (fuel : Nat) : JS.bitLengthAux fuel 0 = 0 := by
  cases fuel with
  | zero => rfl
  | succ f => simp [JS.bitLengthAux]

theorem JS.bitLengthAux_spec : ∀ (fuel n : Nat), 0 < n → n ≤ fuel →
    ∃ b : Nat, JS.bitLengthAux fuel n = b + 1 ∧ 2 ^ b ≤ n ∧ n < 2 ^ (b + 1) := by
  intro fuel
  induction fuel with
  | zero => intro n h0 h1; omega
  | succ f ih =>
    intro n h0 h1
    have hn : n ≠ 0 := by omega
    by_cases h2 : n / 2 = 0
    · refine ⟨0, ?_, ?_, ?_⟩
      · simp [JS.bitLengthAux, hn, h2, JS.bitLengthAux_zero]
      · simpa using h0
      · have : n < 2 := by omega
        simpa using this
    · obtain ⟨b, hb, hlo, hhi⟩ := ih (n / 2) (by omega) (by omega)
      refine ⟨b + 1, ?_, ?_, ?_⟩
      · simp [JS.bitLengthAux, hn, hb]
      · rw [pow_succ]; omega
      · rw [pow_succ]; omega

theorem JS.bitLength_spec (n : Nat) (h : 0 < n) :
    ∃ b : Nat, JS.bitLength n = b + 1 ∧ 2 ^ b ≤ n ∧ n < 2 ^ (b + 1) :=
  JS.bitLengthAux_spec n n h le_rfl

theorem JS.binade_spec (n d : Nat) (hn : 0 < n) (hd : 0 < d) :
    (2 : ℚ) ^ (JS.binade n d) * d ≤ n ∧ (n : ℚ) < (2 : ℚ) ^ (JS.binade n d + 1) * d := by
  obtain ⟨a, ha, ha1, ha2⟩ := JS.bitLength_spec n hn
  obtain ⟨b, hb, hb1, hb2⟩ := JS.bitLength_spec d hd
  have hnq : (0 : ℚ) < n := by exact_mod_cast hn
  have hdq : (0 : ℚ) < d := by exact_mod_cast hd
  have qa1 : (2 : ℚ) ^ a ≤ n := by exact_mod_cast ha1
  have qa2 : (n : ℚ) < 2 ^ (a + 1) := by exact_mod_cast ha2
  have qb1 : (2 : ℚ) ^ b ≤ d := by exact_mod_cast hb1
  have qb2 : (d : ℚ) < 2 ^ (b + 1) := by exact_mod_cast hb2
  have h2 : (2 : ℚ) ≠ 0 := by norm_num
  unfold JS.binade
  simp only [ha, hb]
  by_cases hab : b ≤ a
  · obtain ⟨c, rfl⟩ := Nat.exists_eq_add_of_le hab
    have he0 : ((b + c + 1 : Nat) : Int) - ((b + 1 : Nat) : Int) = (c : Int) := by push_cast; ring
    have hP : (0 : ℚ) < 2 ^ c := by positivity
    have hB : (0 : ℚ) < 2 ^ b := by positivity
    rw [he0]
    simp only [Int.natCast_nonneg, ↓reduceIte, Int.toNat_ofNat]
    rw [pow_add] at qa1
    rw [show b + c + 1 = b + (c + 1) by ring, pow_add, pow_succ] at qa2
    by_cases hc : d * 2 ^ c ≤ n
    · have qc : (d : ℚ) * 2 ^ c ≤ n := by exact_mod_cast hc
      simp only [hc, ↓reduceIte]
      rw [zpow_add_one₀ h2, zpow_natCast]
      constructor
      · linarith
      · nlinarith
    · have qc : (n : ℚ) < d * 2 ^ c := by
        have : n < d * 2 ^ c := Nat.lt_of_not_le hc
        exact_mod_cast this
      simp only [hc, ↓reduceIte]
      rw [sub_add_cancel, zpow_sub_one₀ h2, zpow_natCast]
      constructor
      · have : (d : ℚ) * 2 ^ c < 2 * n := by
          rw [pow_succ] at qb2
          have := mul_lt_mul_of_pos_right qb2 hP
          nlinarith
        have h3 : (2 : ℚ) ^ c * 2⁻¹ * d = (d * 2 ^ c) / 2 := by ring
        rw [h3]
        linarith
      · linarith
  · have hba : a < b := Nat.lt_of_not_le hab
    obtain ⟨c, rfl⟩ := Nat.exists_eq_add_of_lt hba
    have he0 : ((a + 1 : Nat) : Int) - ((a + c + 1 + 1 : Nat) : Int) = -((c + 1 : Nat) : Int) := by
      push_cast; ring
    have hneg : ¬ (0 : Int) ≤ -((c + 1 : Nat) : Int) := by
      push_cast; omega
    have hP : (0 : ℚ) < 2 ^ (c + 1) := by positivity
    have hA : (0 : ℚ) < 2 ^ a := by positivity
    rw [he0]
    simp only [hneg, ↓reduceIte, neg_neg, Int.toNat_ofNat]
    rw [show a + c + 1 = a + (c + 1) by ring, pow_add] at qb1
    rw [show a + c + 1 + 1 = (a + 1) + (c + 1) by ring, pow_add] at qb2
    rw [pow_succ] at qa2
    by_cases hc : d ≤ n * 2 ^ (c + 1)
    · have qc : (d : ℚ) ≤ n * 2 ^ (c + 1) := by exact_mod_cast hc
      simp only [hc, ↓reduceIte]
      rw [zpow_add_one₀ h2, zpow_neg, zpow_natCast]
      constructor
      · rw [inv_mul_le_iff₀ hP]; linarith
      · rw [show ((2 : ℚ) ^ (c + 1))⁻¹ * 2 * d = (2 * d) / 2 ^ (c + 1) by field_simp, lt_div_iff₀ hP]
        nlinarith
    · have qc : (n : ℚ) * 2 ^ (c + 1) < d := by
        have : n * 2 ^ (c + 1) < d := Nat.lt_of_not_le hc
        exact_mod_cast this
      simp only [hc, ↓reduceIte]
      rw [sub_add_cancel, zpow_sub_one₀ h2, zpow_neg, zpow_natCast]
      constructor
      · rw [show ((2 : ℚ) ^ (c + 1))⁻¹ * 2⁻¹ * d = d / (2 * 2 ^ (c + 1)) by
            rw [div_eq_mul_inv, mul_inv]; ring,
          div_le_iff₀ (by positivity)]
        rw [pow_succ] at qb2
        have := mul_le_mul_of_nonneg_right qa1 (show (0 : ℚ) ≤ 2 * 2 ^ (c + 1) by positivity)
        nlinarith
      · rw [show ((2 : ℚ) ^ (c + 1))⁻¹ * d = d / 2 ^ (c + 1) by field_simp, lt_div_iff₀ hP]
        linarith

theorem JS.roundHalfEven_cases (N D : Nat) (hD : 0 < D) :
    ∃ q r : Nat, (N : ℚ) / D = q + (r : ℚ) / D ∧ r < D ∧
      ((2 * r < D ∧ JS.roundHalfEven N D = q) ∨
       (D < 2 * r ∧ JS.roundHalfEven N D = q + 1) ∨
       (2 * r = D ∧ q % 2 = 0 ∧ JS.roundHalfEven N D = q) ∨
       (2 * r = D ∧ q % 2 = 1 ∧ JS.roundHalfEven N D = q + 1)) := by
  refine ⟨N / D, N % D, ?_, Nat.mod_lt _ hD, ?_⟩
  · have hDq : (D : ℚ) ≠ 0 := by exact_mod_cast hD.ne'
    have h : (N : ℚ) = D * (N / D : Nat) + (N % D : Nat) := by
      exact_mod_cast (Nat.div_add_mod N D).symm
    field_simp
    linarith
  · unfold JS.roundHalfEven
    simp only
    by_cases h1 : 2 * (N % D) < D
    · left; exact ⟨h1, by simp [h1]⟩
    · by_cases h2 : D < 2 * (N % D)
      · right; left; exact ⟨h2, by simp [h1, h2]⟩
      · have h3 : 2 * (N % D) = D := by omega
        by_cases h4 : N / D % 2 = 0
        · right; right; left; exact ⟨h3, h4, by simp [h1, h2, h4]⟩
        · right; right; right; exact ⟨h3, by omega, by simp [h1, h2, h4]⟩

theorem JS.roundHalfEven_bounds (N D : Nat) (hD : 0 < D) :
    (N : ℚ) / D - 1 / 2 ≤ (JS.roundHalfEven N D : ℚ) ∧
    (JS.roundHalfEven N D : ℚ) ≤ (N : ℚ) / D + 1 / 2 := by
  obtain ⟨q, r, hy, hr, hc⟩ := JS.roundHalfEven_cases N D hD
  have hDq : (0 : ℚ) < D := by exact_mod_cast hD
  have hf0 : (0 : ℚ) ≤ (r : ℚ) / D := by positivity
  rw [hy]
  rcases hc with ⟨h, e⟩ | ⟨h, e⟩ | ⟨h, _, e⟩ | ⟨h, _, e⟩
  · have hq : (2 : ℚ) * r < D := by exact_mod_cast h
    have hf : (r : ℚ) / D < 1 / 2 := by rw [div_lt_iff₀ hDq]; linarith
    rw [e]
    constructor <;> linarith
  · have hq : (D : ℚ) < 2 * r := by exact_mod_cast h
    have hq2 : (r : ℚ) < D := by exact_mod_cast hr
    have hf : 1 / 2 < (r : ℚ) / D := by rw [lt_div_iff₀ hDq]; linarith
    have hf1 : (r : ℚ) / D < 1 := by rw [div_lt_one hDq]; exact hq2
    rw [e]
    push_cast
    constructor <;> linarith
  · have hq : (2 : ℚ) * r = D := by exact_mod_cast h
    have hf : (r : ℚ) / D = 1 / 2 := by rw [div_eq_iff hDq.ne']; linarith
    rw [e, hf]
    constructor <;> linarith
  · have hq : (2 : ℚ) * r = D := by exact_mod_cast h
    have hf : (r : ℚ) / D = 1 / 2 := by rw [div_eq_iff hDq.ne']; linarith
    rw [e, hf]
    push_cast
    constructor <;> linarith

theorem JS.roundHalfEven_ge_of_even (N D M : Nat) (hD : 0 < D) (hM : M % 2 = 0)
    (h : (M : ℚ) - 1 / 2 ≤ (N : ℚ) / D) : M ≤ JS.roundHalfEven N D := by
  obtain ⟨q, r, hy, hr, hc⟩ := JS.roundHalfEven_cases N D hD
  have hDq : (0 : ℚ) < D := by exact_mod_cast hD
  have hf0 : (0 : ℚ) ≤ (r : ℚ) / D := by positivity
  have hq2 : (r : ℚ) < D := by exact_mod_cast hr
  have hf1 : (r : ℚ) / D < 1 := by rw [div_lt_one hDq]; exact hq2
  rw [hy] at h
  rcases hc with ⟨h1, e⟩ | ⟨h1, e⟩ | ⟨h1, h2, e⟩ | ⟨h1, h2, e⟩
  · have hq : (2 : ℚ) * r < D := by exact_mod_cast h1
    have hf : (r : ℚ) / D < 1 / 2 := by rw [div_lt_iff₀ hDq]; linarith
    have : (M : ℚ) < q + 1 := by linarith
    have : M < q + 1 := by exact_mod_cast this
    rw [e]; omega
  · have : (M : ℚ) < q + 1 + 1 := by linarith
    have : M < q + 1 + 1 := by exact_mod_cast this
    rw [e]; omega
  · have hq : (2 : ℚ) * r = D := by exact_mod_cast h1
    have hf : (r : ℚ) / D = 1 / 2 := by rw [div_eq_iff hDq.ne']; linarith
    have : (M : ℚ) < q + 1 + 1 := by linarith
    have : M < q + 1 + 1 := by exact_mod_cast this
    rw [e]; omega
  · have : (M : ℚ) < q + 1 + 1 := by linarith
    have : M < q + 1 + 1 := by exact_mod_cast this
    rw [e]; omega

theorem JS.roundHalfEven_ge (N D M : Nat) (hD : 0 < D) (h : (M : ℚ) ≤ (N : ℚ) / D) :
    M ≤ JS.roundHalfEven N D := by
  have hb := (JS.roundHalfEven_bounds N D hD).1
  have : (M : ℚ) < (JS.roundHalfEven N D : ℚ) + 1 := by linarith
  have : M < JS.roundHalfEven N D + 1 := by exact_mod_cast this
  omega

theorem JS.roundHalfEven_le (N D M : Nat) (hD : 0 < D) (h : (N : ℚ) / D ≤ (M : ℚ)) :
    JS.roundHalfEven N D ≤ M := by
  have hb := (JS.roundHalfEven_bounds N D hD).2
  have : (JS.roundHalfEven N D : ℚ) < (M : ℚ) + 1 := by linarith
  have : JS.roundHalfEven N D < M + 1 := by exact_mod_cast this
  omega

theorem JS.roundHalfEven_lt (N D M : Nat) (hD : 0 < D) (h : (N : ℚ) / D < (M : ℚ) - 1 / 2) :
    JS.roundHalfEven N D < M := by
  have hb := (JS.roundHalfEven_bounds N D hD).2
  have : (JS.roundHalfEven N D : ℚ) < (M : ℚ) := by linarith
  exact_mod_cast this

theorem JS.toDouble_pos_form (x : ℚ) (hx : 0 < x) :
    ∃ (N D : Nat) (k : Int), 0 < D ∧ (N : ℚ) / D = x * (2 : ℚ) ^ k ∧
      (2 : ℚ) ^ 52 ≤ x * (2 : ℚ) ^ k ∧ x * (2 : ℚ) ^ k < (2 : ℚ) ^ 53 ∧
      JS.toDouble x = (JS.roundHalfEven N D : ℚ) * (2 : ℚ) ^ (-k) := by
  have h2 : (2 : ℚ) ≠ 0 := by norm_num
  have hnum : 0 < x.num := Rat.num_pos.mpr hx
  have hn : 0 < x.num.natAbs := Int.natAbs_pos.mpr hnum.ne'
  have hd : 0 < x.den := x.den_pos
  have hdq : (0 : ℚ) < x.den := by exact_mod_cast hd
  have hcast : ((x.num.natAbs : Nat) : ℚ) = (x.num : ℚ) := by
    rw [← Int.cast_natCast, Int.natAbs_of_nonneg hnum.le]
  have hxe : ((x.num.natAbs : Nat) : ℚ) / (x.den : ℚ) = x := by
    rw [hcast]; exact Rat.num_div_den x
  obtain ⟨b1, b2⟩ := JS.binade_spec x.num.natAbs x.den hn hd
  have hlo : (2 : ℚ) ^ (JS.binade x.num.natAbs x.den) ≤ x := by
    have := (le_div_iff₀ hdq).mpr b1
    rwa [hxe] at this
  have hhi : x < (2 : ℚ) ^ (JS.binade x.num.natAbs x.den + 1) := by
    have := (div_lt_iff₀ hdq).mpr b2
    rwa [hxe] at this
  have hk0 : (0 : ℚ) < (2 : ℚ) ^ (52 - JS.binade x.num.natAbs x.den) := by positivity
  have hlo2 : (2 : ℚ) ^ 52 ≤ x * (2 : ℚ) ^ (52 - JS.binade x.num.natAbs x.den) := by
    have := mul_le_mul_of_nonneg_right hlo hk0.le
    rw [← zpow_add₀ h2] at this
    have he : JS.binade x.num.natAbs x.den + (52 - JS.binade x.num.natAbs x.den) = 52 := by ring
    rw [he] at this
    exact_mod_cast this
  have hhi2 : x * (2 : ℚ) ^ (52 - JS.binade x.num.natAbs x.den) < (2 : ℚ) ^ 53 := by
    have := mul_lt_mul_of_pos_right hhi hk0
    rw [← zpow_add₀ h2] at this
    have he : JS.binade x.num.natAbs x.den + 1 + (52 - JS.binade x.num.natAbs x.den) = 53 := by
      ring
    rw [he] at this
    exact_mod_cast this
  by_cases hk : 0 ≤ 52 - JS.binade x.num.natAbs x.den
  · refine ⟨x.num.natAbs * 2 ^ (52 - JS.binade x.num.natAbs x.den).toNat, x.den,
      52 - JS.binade x.num.natAbs x.den, hd, ?_, hlo2, hhi2, ?_⟩
    · have hz : (2 : ℚ) ^ (52 - JS.binade x.num.natAbs x.den) =
          (2 : ℚ) ^ (52 - JS.binade x.num.natAbs x.den).toNat := by
        rw [← zpow_natCast, Int.toNat_of_nonneg hk]
      rw [hz]
      push_cast
      rw [mul_div_right_comm, hxe]
    · unfold JS.toDouble
      simp only [hx.ne', ↓reduceIte, not_lt.mpr hx.le, hk]
  · refine ⟨x.num.natAbs, x.den * 2 ^ (-(52 - JS.binade x.num.natAbs x.den)).toNat,
      52 - JS.binade x.num.natAbs x.den, by positivity, ?_, hlo2, hhi2, ?_⟩
    · have hk' : 0 ≤ -(52 - JS.binade x.num.natAbs x.den) := by omega
      have hz : (2 : ℚ) ^ (52 - JS.binade x.num.natAbs x.den) =
          ((2 : ℚ) ^ (-(52 - JS.binade x.num.natAbs x.den)).toNat)⁻¹ := by
        rw [← zpow_natCast, Int.toNat_of_nonneg hk', zpow_neg, inv_inv]
      rw [hz]
      push_cast
      rw [← div_div, hxe, div_eq_mul_inv]
    · unfold JS.toDouble
      simp only [hx.ne', ↓reduceIte, not_lt.mpr hx.le, hk]

theorem JS.toDouble_zero : JS.toDouble 0 = 0 := by
  unfold JS.toDouble
  simp

theorem JS.toDouble_nonneg (x : ℚ) (hx : 0 ≤ x) : 0 ≤ JS.toDouble x := by
  rcases hx.eq_or_lt with h | h
  · rw [← h, JS.toDouble_zero]
  · obtain ⟨N, D, k, _, _, _, _, e⟩ := JS.toDouble_pos_form x h
    rw [e]
    positivity

theorem JS.toDouble_nonpos (x : ℚ) (hx : x ≤ 0) : JS.toDouble x ≤ 0 := by
  rcases hx.eq_or_lt with h | h
  · rw [h, JS.toDouble_zero]
  · unfold JS.toDouble
    simp only [h.ne, ↓reduceIte, h]
    exact neg_nonpos.mpr (by positivity)

theorem JS.exponent_ge_of_lt_one (x : ℚ) (k : Int) (h1 : (2 : ℚ) ^ 52 ≤ x * (2 : ℚ) ^ k)
    (hx : x < 1) : 53 ≤ k := by
  have hk : (0 : ℚ) < (2 : ℚ) ^ k := by positivity
  have h : (2 : ℚ) ^ (52 : Int) < (2 : ℚ) ^ k := by
    have : x * (2 : ℚ) ^ k < (2 : ℚ) ^ k := by nlinarith
    have h52 : (2 : ℚ) ^ (52 : Int) = (2 : ℚ) ^ 52 := by norm_cast
    rw [h52]
    linarith
  have := (zpow_lt_zpow_iff_right₀ (by norm_num : (1 : ℚ) < 2)).mp h
  omega

theorem JS.exponent_le_of_ge (x : ℚ) (k : Int) (j : Nat) (h2 : x * (2 : ℚ) ^ k < (2 : ℚ) ^ 53)
    (hx : 1 / (2 : ℚ) ^ j ≤ x) : k ≤ 52 + j := by
  have hk : (0 : ℚ) < (2 : ℚ) ^ k := by positivity
  have hj : (0 : ℚ) < (2 : ℚ) ^ j := by positivity
  have h : (2 : ℚ) ^ k < (2 : ℚ) ^ ((53 : Int) + j) := by
    have h1 : 1 / (2 : ℚ) ^ j * (2 : ℚ) ^ k ≤ x * (2 : ℚ) ^ k :=
      mul_le_mul_of_nonneg_right hx hk.le
    have h3 : (2 : ℚ) ^ ((53 : Int) + j) = (2 : ℚ) ^ 53 * (2 : ℚ) ^ j := by
      rw [zpow_add₀ (by norm_num : (2 : ℚ) ≠ 0), zpow_natCast]
      norm_cast
    rw [h3]
    have h4 : (2 : ℚ) ^ k / (2 : ℚ) ^ j < (2 : ℚ) ^ 53 := by
      have : 1 / (2 : ℚ) ^ j * (2 : ℚ) ^ k = (2 : ℚ) ^ k / (2 : ℚ) ^ j := by ring
      linarith
    exact (div_lt_iff₀ hj).mp h4
  have := (zpow_lt_zpow_iff_right₀ (by norm_num : (1 : ℚ) < 2)).mp h
  omega

theorem JS.toDouble_lt_one_iff (x : ℚ) : JS.toDouble x < 1 ↔ x < 1 - 1 / 2 ^ 54 := by
  constructor
  · intro h
    by_contra hc
    have hx : 1 - 1 / (2 : ℚ) ^ 54 ≤ x := not_lt.mp hc
    have hpos : 0 < x := lt_of_lt_of_le (by norm_num) hx
    obtain ⟨N, D, k, hD, hy, hlo, hhi, e⟩ := JS.toDouble_pos_form x hpos
    have hm52 : 2 ^ 52 ≤ JS.roundHalfEven N D :=
      JS.roundHalfEven_ge N D (2 ^ 52) hD (by rw [hy]; exact_mod_cast hlo)
    have hm52q : (2 : ℚ) ^ 52 ≤ (JS.roundHalfEven N D : ℚ) := by exact_mod_cast hm52
    have hkle : k ≤ 53 := by
      have := JS.exponent_le_of_ge x k 1 hhi (by norm_num at hx ⊢; linarith)
      omega
    rw [e] at h
    by_cases hx1 : 1 ≤ x
    · have hk52 : k ≤ 52 := by
        have := JS.exponent_le_of_ge x k 0 hhi (by simpa using hx1)
        simpa using this
      have hz : (2 : ℚ) ^ (-(52 : Int)) ≤ (2 : ℚ) ^ (-k) :=
        zpow_le_zpow_right₀ (by norm_num) (by omega)
      have hz0 : (0 : ℚ) < (2 : ℚ) ^ (-k) := by positivity
      have h52 : (2 : ℚ) ^ 52 * (2 : ℚ) ^ (-(52 : Int)) = 1 := by
        rw [zpow_neg]; norm_num
      have : (2 : ℚ) ^ 52 * (2 : ℚ) ^ (-(52 : Int)) ≤
          (JS.roundHalfEven N D : ℚ) * (2 : ℚ) ^ (-k) :=
        mul_le_mul hm52q hz (by positivity) (by positivity)
      rw [h52] at this
      linarith
    · have hk53 : 53 ≤ k := JS.exponent_ge_of_lt_one x k hlo (not_le.mp hx1)
      have hk : k = 53 := by omega
      subst hk
      have hy2 : ((2 ^ 53 : Nat) : ℚ) - 1 / 2 ≤ (N : ℚ) / D := by
        rw [hy]
        have h53 : (2 : ℚ) ^ (53 : Int) = 2 ^ 53 := by norm_cast
        rw [h53]
        push_cast
        norm_num at hx ⊢
        linarith
      have hm : 2 ^ 53 ≤ JS.roundHalfEven N D :=
        JS.roundHalfEven_ge_of_even N D (2 ^ 53) hD (by norm_num) hy2
      have hmq : (2 : ℚ) ^ 53 ≤ (JS.roundHalfEven N D : ℚ) := by exact_mod_cast hm
      have h53 : (2 : ℚ) ^ (-(53 : Int)) = 1 / 2 ^ 53 := by
        rw [zpow_neg]; norm_num
      rw [h53] at h
      have : (JS.roundHalfEven N D : ℚ) * (1 / 2 ^ 53) < 1 := h
      rw [mul_one_div, div_lt_one (by positivity)] at this
      linarith
  · intro hx
    by_cases hpos : 0 < x
    · obtain ⟨N, D, k, hD, hy, hlo, hhi, e⟩ := JS.toDouble_pos_form x hpos
      have hx1 : x < 1 := lt_of_lt_of_le hx (by norm_num)
      have hk53 : 53 ≤ k := JS.exponent_ge_of_lt_one x k hlo hx1
      have hm53 : JS.roundHalfEven N D ≤ 2 ^ 53 :=
        JS.roundHalfEven_le N D (2 ^ 53) hD (by rw [hy]; exact_mod_cast hhi.le)
      have hm53q : (JS.roundHalfEven N D : ℚ) ≤ (2 : ℚ) ^ 53 := by exact_mod_cast hm53
      rw [e]
      by_cases hk : k = 53
      · subst hk
        have hy2 : (N : ℚ) / D < ((2 ^ 53 : Nat) : ℚ) - 1 / 2 := by
          rw [hy]
          have h53 : (2 : ℚ) ^ (53 : Int) = 2 ^ 53 := by norm_cast
          rw [h53]
          push_cast
          norm_num at hx ⊢
          linarith
        have hm : JS.roundHalfEven N D < 2 ^ 53 := JS.roundHalfEven_lt N D (2 ^ 53) hD hy2
        have hmq : (JS.roundHalfEven N D : ℚ) < (2 : ℚ) ^ 53 := by exact_mod_cast hm
        have h53 : (2 : ℚ) ^ (-(53 : Int)) = 1 / 2 ^ 53 := by
          rw [zpow_neg]; norm_num
        rw [h53, mul_one_div, div_lt_one (by positivity)]
        exact hmq
      · have hk54 : 54 ≤ k := by omega
        have hz : (2 : ℚ) ^ (-k) ≤ (2 : ℚ) ^ (-(54 : Int)) :=
          zpow_le_zpow_right₀ (by norm_num) (by omega)
        have h54 : (2 : ℚ) ^ 53 * (2 : ℚ) ^ (-(54 : Int)) = 1 / 2 := by
          rw [zpow_neg]; norm_num
        have : (JS.roundHalfEven N D : ℚ) * (2 : ℚ) ^ (-k) ≤
            (2 : ℚ) ^ 53 * (2 : ℚ) ^ (-(54 : Int)) :=
          mul_le_mul hm53q hz (by positivity) (by positivity)
        rw [h54] at this
        linarith
    · have := JS.toDouble_nonpos x (not_lt.mp hpos)
      linarith

theorem JS.toDouble_pos_normal (x : ℚ) (hx : 0 < x) :
    ∃ (m : Nat) (j : Int), 2 ^ 52 ≤ m ∧ m < 2 ^ 53 ∧ JS.toDouble x = (m : ℚ) * (2 : ℚ) ^ j := by
  obtain ⟨N, D, k, hD, hy, hlo, hhi, e⟩ := JS.toDouble_pos_form x hx
  have hm52 : 2 ^ 52 ≤ JS.roundHalfEven N D :=
    JS.roundHalfEven_ge N D (2 ^ 52) hD (by rw [hy]; exact_mod_cast hlo)
  have hm53 : JS.roundHalfEven N D ≤ 2 ^ 53 :=
    JS.roundHalfEven_le N D (2 ^ 53) hD (by rw [hy]; exact_mod_cast hhi.le)
  by_cases h : JS.roundHalfEven N D < 2 ^ 53
  · exact ⟨JS.roundHalfEven N D, -k, hm52, h, e⟩
  · have hm : JS.roundHalfEven N D = 2 ^ 53 := by omega
    refine ⟨2 ^ 52, -k + 1, le_rfl, by norm_num, ?_⟩
    rw [e, hm, zpow_add_one₀ (by norm_num : (2 : ℚ) ≠ 0)]
    push_cast
    ring

theorem JS.normal_div_lt (me md : Nat) (je jd : Int) (he1 : 2 ^ 52 ≤ me) (he2 : me < 2 ^ 53)
    (hd1 : 2 ^ 52 ≤ md) (hd2 : md < 2 ^ 53)
    (h : (me : ℚ) * (2 : ℚ) ^ je < (md : ℚ) * (2 : ℚ) ^ jd) :
    (me : ℚ) * (2 : ℚ) ^ je / ((md : ℚ) * (2 : ℚ) ^ jd) < 1 - 1 / 2 ^ 54 := by
  have h2 : (2 : ℚ) ≠ 0 := by norm_num
  have qe1 : (2 : ℚ) ^ 52 ≤ me := by exact_mod_cast he1
  have qe2 : (me : ℚ) + 1 ≤ 2 ^ 53 := by exact_mod_cast he2
  have qd1 : (2 : ℚ) ^ 52 ≤ md := by exact_mod_cast hd1
  have qd2 : (md : ℚ) + 1 ≤ 2 ^ 53 := by exact_mod_cast hd2
  have hmd : (0 : ℚ) < md := lt_of_lt_of_le (by positivity) qd1
  have hPd : (0 : ℚ) < (2 : ℚ) ^ jd := by positivity
  have hPe : (0 : ℚ) < (2 : ℚ) ^ je := by positivity
  rw [div_lt_iff₀ (by positivity)]
  by_cases hj : jd ≤ je
  · obtain ⟨t, ht⟩ := Int.eq_ofNat_of_zero_le (show 0 ≤ je - jd by omega)
    have hje : je = jd + t := by omega
    have hpow : (2 : ℚ) ^ je = (2 : ℚ) ^ jd * (2 : ℚ) ^ t := by
      rw [hje, zpow_add₀ h2, zpow_natCast]
    rw [hpow] at h ⊢
    have hlt : (me : ℚ) * (2 : ℚ) ^ t < md := by
      have h' : (me : ℚ) * (2 : ℚ) ^ t * (2 : ℚ) ^ jd < (md : ℚ) * (2 : ℚ) ^ jd := by
        calc (me : ℚ) * (2 : ℚ) ^ t * (2 : ℚ) ^ jd
            = (me : ℚ) * ((2 : ℚ) ^ jd * (2 : ℚ) ^ t) := by ring
          _ < (md : ℚ) * (2 : ℚ) ^ jd := h
      exact lt_of_mul_lt_mul_right h' hPd.le
    have hnat : me * 2 ^ t < md := by exact_mod_cast hlt
    have hle : (me : ℚ) * (2 : ℚ) ^ t + 1 ≤ md := by exact_mod_cast hnat
    have key : (me : ℚ) * (2 : ℚ) ^ t < (1 - 1 / 2 ^ 54) * md := by
      norm_num at qd2 ⊢
      linarith
    calc (me : ℚ) * ((2 : ℚ) ^ jd * (2 : ℚ) ^ t)
        = (me : ℚ) * (2 : ℚ) ^ t * (2 : ℚ) ^ jd := by ring
      _ < (1 - 1 / 2 ^ 54) * md * (2 : ℚ) ^ jd := mul_lt_mul_of_pos_right key hPd
      _ = (1 - 1 / 2 ^ 54) * ((md : ℚ) * (2 : ℚ) ^ jd) := by ring
  · obtain ⟨t, ht⟩ := Int.eq_ofNat_of_zero_le (show 0 ≤ jd - je - 1 by omega)
    have hjd : jd = je + (t + 1 : Nat) := by push_cast; omega
    have hpow : (2 : ℚ) ^ jd = (2 : ℚ) ^ je * (2 : ℚ) ^ (t + 1) := by
      rw [hjd, zpow_add₀ h2, zpow_natCast]
    rw [hpow]
    have ht1 : (2 : ℚ) ≤ (2 : ℚ) ^ (t + 1) := by
      have : (1 : ℚ) ≤ (2 : ℚ) ^ t := one_le_pow₀ (by norm_num)
      rw [pow_succ]; linarith
    have hbig : (2 : ℚ) ^ 53 ≤ (md : ℚ) * (2 : ℚ) ^ (t + 1) := by
      have := mul_le_mul qd1 ht1 (by norm_num) hmd.le
      have h53 : (2 : ℚ) ^ 53 = (2 : ℚ) ^ 52 * 2 := by norm_num
      rw [h53]
      exact this
    have key : (me : ℚ) < (1 - 1 / 2 ^ 54) * ((md : ℚ) * (2 : ℚ) ^ (t + 1)) := by
      have h1 : (1 - 1 / (2 : ℚ) ^ 54) * (2 : ℚ) ^ 53 ≤
          (1 - 1 / 2 ^ 54) * ((md : ℚ) * (2 : ℚ) ^ (t + 1)) :=
        mul_le_mul_of_nonneg_left hbig (by norm_num)
      have h3 : (me : ℚ) < (1 - 1 / (2 : ℚ) ^ 54) * (2 : ℚ) ^ 53 := by
        norm_num at qe2 ⊢
        linarith
      linarith
    calc (me : ℚ) * (2 : ℚ) ^ je
        < (1 - 1 / 2 ^ 54) * ((md : ℚ) * (2 : ℚ) ^ (t + 1)) * (2 : ℚ) ^ je :=
          mul_lt_mul_of_pos_right key hPe
      _ = (1 - 1 / 2 ^ 54) * ((md : ℚ) * ((2 : ℚ) ^ je * (2 : ℚ) ^ (t + 1))) := by ring

/-- For doubles `e` and `d > 0`, the rounded quotient `e / d` is below 1 exactly
when `e < d`. -/
theorem JS.div_lt_one_iff (a d : ℚ) (hd : 0 < d) (hdd : JS.toDouble d = d) :
    JS.div (JS.toDouble a) d < 1 ↔ JS.toDouble a < d := by
  unfold JS.div
  rw [JS.toDouble_lt_one_iff]
  constructor
  · intro h
    have : JS.toDouble a / d < 1 := lt_of_lt_of_le h (by norm_num)
    exact (div_lt_one hd).mp this
  · intro h
    by_cases hpos : 0 < JS.toDouble a
    · have ha : 0 < a := by
        by_contra hc
        have := JS.toDouble_nonpos a (not_lt.mp hc)
        linarith
      obtain ⟨me, je, he1, he2, ee⟩ := JS.toDouble_pos_normal a ha
      obtain ⟨md, jd, hd1, hd2, ed⟩ := JS.toDouble_pos_normal d hd
      rw [hdd] at ed
      rw [ee, ed] at h
      have := JS.normal_div_lt me md je jd he1 he2 hd1 hd2 h
      rw [ee, ed]
      exact this
    · have h0 : JS.toDouble a / d ≤ 0 := div_nonpos_of_nonpos_of_nonneg (not_lt.mp hpos) hd.le
      exact lt_of_le_of_lt h0 (by norm_num)

theorem JS.div_ge_one (e d : ℚ) (hd : 0 < d) (h : d ≤ e) : 1 ≤ JS.div e d := by
  unfold JS.div
  by_contra hc
  have h1 := (JS.toDouble_lt_one_iff (e / d)).mp (not_le.mp hc)
  have h2 : 1 ≤ e / d := (one_le_div hd).mpr h
  have : (1 : ℚ) - 1 / 2 ^ 54 < 1 := by norm_num
  linarith

/-- Rounding does not go below a double that the number reaches: for a double
`d > 0` and `x ≥ d`, the rounded `x` is at least `d`. -/
theorem JS.toDouble_ge_of_ge (x d : ℚ) (hd : 0 < d) (hdd : JS.toDouble d = d) (h : d ≤ x) :
    d ≤ JS.toDouble x := by
  have h2 : (2 : ℚ) ≠ 0 := by norm_num
  have hx : 0 < x := lt_of_lt_of_le hd h
  obtain ⟨N, D, k, hD, hy, hlo, hhi, e⟩ := JS.toDouble_pos_form x hx
  obtain ⟨md, jd, hd1, hd2, ed⟩ := JS.toDouble_pos_normal d hd
  rw [hdd] at ed
  have hm52 : 2 ^ 52 ≤ JS.roundHalfEven N D :=
    JS.roundHalfEven_ge N D (2 ^ 52) hD (by rw [hy]; exact_mod_cast hlo)
  have hm52q : (2 : ℚ) ^ 52 ≤ (JS.roundHalfEven N D : ℚ) := by exact_mod_cast hm52
  have hk : (0 : ℚ) < (2 : ℚ) ^ k := by positivity
  have hkk : (2 : ℚ) ^ (-k) * (2 : ℚ) ^ k = 1 := by
    rw [← zpow_add₀ h2]; simp
  have key : (md : ℚ) * (2 : ℚ) ^ (jd + k) ≤ (JS.roundHalfEven N D : ℚ) := by
    by_cases hj : 0 ≤ jd + k
    · obtain ⟨t, ht⟩ := Int.eq_ofNat_of_zero_le hj
      have hI : (md : ℚ) * (2 : ℚ) ^ (jd + k) = ((md * 2 ^ t : Nat) : ℚ) := by
        rw [ht, zpow_natCast]; push_cast; ring
      rw [hI]
      have hle : ((md * 2 ^ t : Nat) : ℚ) ≤ (N : ℚ) / D := by
        rw [hy, ← hI, zpow_add₀ h2, ← mul_assoc, ← ed]
        exact mul_le_mul_of_nonneg_right h hk.le
      exact_mod_cast JS.roundHalfEven_ge N D (md * 2 ^ t) hD hle
    · have hz : (2 : ℚ) ^ (jd + k) ≤ (2 : ℚ) ^ (-1 : Int) :=
        zpow_le_zpow_right₀ (by norm_num) (by omega)
      have h1 : (2 : ℚ) ^ (-1 : Int) = 1 / 2 := by norm_num
      rw [h1] at hz
      have qd2 : (md : ℚ) ≤ 2 ^ 53 := by exact_mod_cast hd2.le
      have hp : (0 : ℚ) < (2 : ℚ) ^ (jd + k) := by positivity
      have : (md : ℚ) * (2 : ℚ) ^ (jd + k) ≤ 2 ^ 53 * (1 / 2) :=
        mul_le_mul qd2 hz hp.le (by positivity)
      have h53 : (2 : ℚ) ^ 53 * (1 / 2) = 2 ^ 52 := by norm_num
      rw [h53] at this
      linarith
  rw [e]
  nth_rewrite 1 [ed]
  have : (md : ℚ) * (2 : ℚ) ^ jd = (md : ℚ) * (2 : ℚ) ^ (jd + k) * (2 : ℚ) ^ (-k) := by
    rw [zpow_add₀ h2, mul_assoc, mul_assoc, mul_comm ((2 : ℚ) ^ k), hkk, mul_one]
  rw [this]
  exact mul_le_mul_of_nonneg_right key (by positivity)


/-! ## The timer queue of the flip bookkeeping -/

namespace FlipBook

theorem Core.TimerInv.congr {c d : Core} (h : c.TimerInv) (ht : d.timers = c.timers)
    (hn : d.nextTimerId = c.nextTimerId) (hr : d.flipTimeoutRef = c.flipTimeoutRef) :
    d.TimerInv := by
  unfold Core.TimerInv at *
  rw [ht, hn, hr]
  exact h

theorem Core.TimerInv.clearTimeout {c : Core} (h : c.TimerInv) (id : Nat) :
    (c.clearTimeout id).TimerInv := by
  obtain ⟨h0, h1, h2, h3⟩ := h
  refine ⟨h0, ?_, ?_, ?_⟩
  · intro t ht
    exact h1 t (List.mem_of_mem_filter ht)
  · intro t ht hf
    exact h2 t (List.mem_of_mem_filter ht) hf
  · exact (List.filter_sublist _).map Timer.id |>.nodup h3

theorem Core.TimerInv.clearIfTruthy {c : Core} (h : c.TimerInv) (ref : Option Nat) :
    (c.clearIfTruthy ref).TimerInv := by
  unfold Core.clearIfTruthy
  split
  · split
    · exact h.clearTimeout _
    · exact h
  · exact h

theorem Core.TimerInv.setTimeout {c : Core} (h : c.TimerInv) (callback : TimerCallback)
    (delay : Nat) (hc : ∀ p, callback ≠ TimerCallback.flip p) :
    (c.setTimeout callback delay).TimerInv := by
  obtain ⟨h0, h1, h2, h3⟩ := h
  refine ⟨Nat.succ_pos _, ?_, ?_, ?_⟩
  · intro t ht
    simp only [Core.setTimeout, List.mem_append, List.mem_singleton] at ht
    rcases ht with ht | rfl
    · exact ⟨(h1 t ht).1, Nat.lt_succ_of_lt (h1 t ht).2⟩
    · exact ⟨h0, Nat.lt_succ_self _⟩
  · intro t ht hf
    simp only [Core.setTimeout, List.mem_append, List.mem_singleton] at ht
    rcases ht with ht | rfl
    · exact h2 t ht hf
    · exfalso
      cases callback <;> simp [Timer.isFlip] at hf
      exact hc _ rfl
  · simp only [Core.setTimeout, List.map_append, List.map_cons, List.map_nil]
    rw [List.nodup_append]
    refine ⟨h3, List.nodup_singleton _, ?_⟩
    intro a ha hb
    simp only [List.mem_singleton] at hb
    obtain ⟨t, ht, rfl⟩ := List.mem_map.1 ha
    exact absurd hb (Nat.ne_of_lt (h1 t ht).2)

theorem Core.TimerInv.safePageFlipIn {c : Core} (h : c.TimerInv) (isBookReady : Bool)
    (currentPage targetPage : Int) :
    (c.safePageFlipIn isBookReady currentPage targetPage).TimerInv := by
  unfold Core.safePageFlipIn
  split
  · exact h
  split
  · exact h
  split
  · exact h
  obtain ⟨h0, h1, h2, h3⟩ := h
  have hno : ∀ t ∈ (Core.clearIfTruthy c.flipTimeoutRef
      { c with isFlippingRef := true, isFlipping := true }).timers, t.isFlip = false ∧
      0 < t.id ∧ t.id < c.nextTimerId := by
    intro t ht
    cases hr : c.flipTimeoutRef with
    | none =>
      simp only [Core.clearIfTruthy, hr] at ht
      refine ⟨?_, h1 t ht⟩
      cases hf : t.isFlip with
      | false => rfl
      | true => have := h2 t ht hf; rw [hr] at this; cases this
    | some r =>
      simp only [Core.clearIfTruthy, hr] at ht
      split at ht
      · simp only [Core.clearTimeout, List.mem_filter, bne_iff_ne, ne_eq] at ht
        refine ⟨?_, h1 t ht.1⟩
        cases hf : t.isFlip with
        | false => rfl
        | true =>
          have := h2 t ht.1 hf
          rw [hr] at this
          exact absurd (Option.some.inj this).symm ht.2
      · rename_i hz
        simp only [bne_iff_ne, ne_eq, not_not] at hz
        refine ⟨?_, h1 t ht⟩
        cases hf : t.isFlip with
        | false => rfl
        | true =>
          have := h2 t ht hf
          rw [hr] at this
          have h5 := (h1 t ht).1
          rw [← Option.some.inj this, hz] at h5
          exact absurd h5 (Nat.lt_irrefl 0)
  have hnext : (Core.clearIfTruthy c.flipTimeoutRef
      { c with isFlippingRef := true, isFlipping := true }).nextTimerId = c.nextTimerId := by
    unfold Core.clearIfTruthy
    split
    · split <;> rfl
    · rfl
  have hnd : ((Core.clearIfTruthy c.flipTimeoutRef
      { c with isFlippingRef := true, isFlipping := true }).timers.map Timer.id).Nodup := by
    have := Core.TimerInv.clearIfTruthy
      (c := { c with isFlippingRef := true, isFlipping := true }) ⟨h0, h1, h2, h3⟩ c.flipTimeoutRef
    exact this.2.2.2
  refine ⟨?_, ?_, ?_, ?_⟩
  · simp [Core.setTimeout]
  · intro t ht
    simp only [Core.setTimeout, List.mem_append, List.mem_singleton, hnext] at ht ⊢
    rcases ht with ht | rfl
    · exact ⟨(hno t ht).2.1, Nat.lt_succ_of_lt (hno t ht).2.2⟩
    · exact ⟨h0, Nat.lt_succ_self _⟩
  · intro t ht hf
    simp only [Core.setTimeout, List.mem_append, List.mem_singleton, hnext] at ht ⊢
    rcases ht with ht | rfl
    · rw [(hno t ht).1] at hf
      cases hf
    · rfl
  · simp only [Core.setTimeout, List.map_append, List.map_cons, List.map_nil, hnext]
    rw [List.nodup_append]
    refine ⟨hnd, List.nodup_singleton _, ?_⟩
    intro a ha hb
    simp only [List.mem_singleton] at hb
    obtain ⟨t, ht, rfl⟩ := List.mem_map.1 ha
    exact absurd hb (Nat.ne_of_lt (hno t ht).2.2)

end FlipBook

namespace FlipBook

theorem Core.callMethod_fields (method : WidgetMethod) (outcome : Outcome) (targetPage : Int)
    (c : Core) :
    (settle (c.callMethod method outcome targetPage)).timers = c.timers ∧
    (settle (c.callMethod method outcome targetPage)).nextTimerId = c.nextTimerId ∧
    (settle (c.callMethod method outcome targetPage)).flipTimeoutRef = c.flipTimeoutRef := by
  cases outcome <;> simp [Core.callMethod, settle]

theorem Core.flipTimerCallback_ok (bookRef : Option BookHandle) (targetPage : Int) (c : Core) :
    ∃ d, c.flipTimerCallback bookRef targetPage = Except.ok d ∧ d.timers = c.timers ∧
      d.nextTimerId = c.nextTimerId ∧ d.flipTimeoutRef = c.flipTimeoutRef := by
  unfold Core.flipTimerCallback
  cases bookRef with
  | none => exact ⟨_, rfl, rfl, rfl, rfl⟩
  | some handle =>
    simp only
    have key : ∀ r : Except Core Core,
        (match r with
          | Except.ok c => (Except.ok c : Except Core Core)
          | Except.error c => Except.ok (c.directUpdate targetPage)) =
        Except.ok (match r with
          | Except.ok c => c
          | Except.error c => c.directUpdate targetPage) := by
      intro r; cases r <;> rfl
    rw [key]
    refine ⟨_, rfl, ?_⟩
    unfold Core.flipTimerTry
    rcases handle with ⟨pf, fl, gp⟩
    cases pf with
    | none =>
      cases fl with
      | some o => cases o <;> simp [Core.callMethod, Core.directUpdate]
      | none =>
        cases gp with
        | some o => cases o <;> simp [Core.callMethod, Core.directUpdate]
        | none => simp [Core.directUpdate]
    | some call =>
      cases call with
      | throws => simp [Core.directUpdate]
      | returnsNull => simp [Core.directUpdate]
      | returnsApi api =>
        rcases api with ⟨a1, a2, a3, a4, a5⟩
        cases a1 with
        | some o => cases o <;> simp [Core.callMethod, Core.directUpdate]
        | none =>
        cases a2 with
        | some o => cases o <;> simp [Core.callMethod, Core.directUpdate]
        | none =>
        cases a3 with
        | some o => cases o <;> simp [Core.callMethod, Core.directUpdate]
        | none =>
        cases a4 with
        | some o => cases o <;> simp [Core.callMethod, Core.directUpdate]
        | none =>
        cases a5 with
        | some o => cases o <;> simp [Core.callMethod, Core.directUpdate]
        | none => simp [Core.directUpdate]

theorem Core.TimerInv.flipTimerCallback {c : Core} (h : c.TimerInv)
    (bookRef : Option BookHandle) (targetPage : Int) :
    (settle (c.flipTimerCallback bookRef targetPage)).TimerInv := by
  obtain ⟨d, hd, h1, h2, h3⟩ := Core.flipTimerCallback_ok bookRef targetPage c
  rw [hd]
  exact h.congr h1 h2 h3

theorem Core.TimerInv.length_le_one {c : Core} (h : c.TimerInv) :
    (c.timers.filter Timer.isFlip).length ≤ 1 := by
  obtain ⟨_, _, h2, h3⟩ := h
  have hnd : ((c.timers.filter Timer.isFlip).map Timer.id).Nodup :=
    ((List.filter_sublist _).map Timer.id).nodup h3
  have hall : ∀ t ∈ c.timers.filter Timer.isFlip, c.flipTimeoutRef = some t.id := by
    intro t ht
    rw [List.mem_filter] at ht
    exact h2 t ht.1 ht.2
  generalize c.timers.filter Timer.isFlip = l at hnd hall
  match l, hnd, hall with
  | [], _, _ => simp
  | [_], _, _ => simp
  | a :: b :: rest, hnd, hall =>
    exfalso
    have ha := hall a (by simp)
    have hb := hall b (by simp)
    rw [ha] at hb
    have hab : a.id = b.id := Option.some.inj hb
    simp [hab] at hnd

end FlipBook

/-! ## Book: the timer invariant holds in every reachable state -/

namespace Book

open FlipBook

theorem cancelAnimationIfTruthy_toCore (s : State) :
    s.cancelAnimationIfTruthy.toCore = s.toCore := by
  unfold State.cancelAnimationIfTruthy
  split
  · split <;> rfl
  · rfl

theorem frameWrites_toCore (progress : ℚ) (s : State) :
    (frameWrites progress s).toCore = s.toCore := by
  have h1 : ∀ t : State, (backgroundStage progress t).toCore = t.toCore := by
    intro t; unfold backgroundStage; split <;> rfl
  have h2 : ∀ t : State, (appearStage progress t).toCore = t.toCore := by
    intro t; unfold appearStage; split <;> rfl
  have h3 : ∀ t : State, (sizeStage progress t).toCore = t.toCore := by
    intro t; unfold sizeStage; split <;> rfl
  have h4 : ∀ t : State, (finalStage progress t).toCore = t.toCore := by
    intro t; unfold finalStage; split <;> rfl
  have h5 : ∀ t : State, (textStage progress t).toCore = t.toCore := by
    intro t; unfold textStage; split <;> rfl
  have h6 : ∀ t : State, (endStage progress t).toCore = t.toCore := by
    intro t; unfold endStage; split <;> rfl
  unfold frameWrites
  rw [h6, h5, h4, h3, h2, h1]

theorem animate_toCore (startTime duration currentTime : ℚ) (s : State) :
    (animate startTime duration currentTime s).toCore = s.toCore := by
  unfold animate
  simp only
  split
  · exact frameWrites_toCore _ s
  · exact frameWrites_toCore _ s

theorem safePageFlipIn_inv {s : State} (h : s.toCore.TimerInv) (isBookReady : Bool)
    (currentPage targetPage : Int) :
    (safePageFlipIn isBookReady currentPage targetPage s).toCore.TimerInv :=
  h.safePageFlipIn isBookReady currentPage targetPage

theorem safePageFlip_inv {s : State} (h : s.toCore.TimerInv) (targetPage : Int) :
    (safePageFlip targetPage s).toCore.TimerInv :=
  h.safePageFlipIn _ _ targetPage

theorem handlePageChange_inv {s : State} (h : s.toCore.TimerInv) (newPage : Int) :
    (handlePageChange newPage s).toCore.TimerInv := by
  unfold handlePageChange
  split
  · exact h
  · split
    · exact Core.TimerInv.setTimeout (h.congr rfl rfl rfl) _ _ (by intro p hp; cases hp)
    · simp only
      rw [cancelAnimationIfTruthy_toCore]
      exact h.congr rfl rfl rfl

theorem handleResize_inv {s : State} (h : s.toCore.TimerInv) (innerWidth : Nat) :
    (handleResize innerWidth s).toCore.TimerInv := by
  unfold handleResize
  simp only
  split
  · exact Core.TimerInv.setTimeout (h.congr rfl rfl rfl) _ _ (by intro p hp; cases hp)
  · exact h

theorem handleKeyDown_inv {s : State} (h : s.toCore.TimerInv) (key : String) :
    (handleKeyDown key s).toCore.TimerInv := by
  unfold handleKeyDown
  split_ifs
  · exact safePageFlip_inv h _
  · exact h
  · exact safePageFlip_inv h _
  · exact h
  · exact h

theorem goToGroup_inv {s : State} (h : s.toCore.TimerInv) (groupId : Nat) :
    (goToGroup groupId s).toCore.TimerInv := by
  unfold goToGroup
  split
  · split
    · exact safePageFlip_inv h _
    · exact h
  · exact h

theorem closeModal_inv {s : State} (h : s.toCore.TimerInv) :
    (closeModal s).toCore.TimerInv := by
  unfold closeModal
  simp only
  split
  · exact Core.TimerInv.setTimeout (h.congr rfl rfl rfl) _ _ (by intro p hp; cases hp)
  · exact h.congr rfl rfl rfl

theorem handleSectionImgClick_inv {s : State} (h : s.toCore.TimerInv) (imgSrc pageId : String) :
    (handleSectionImgClick imgSrc pageId s).toCore.TimerInv := by
  unfold handleSectionImgClick
  split
  · exact h
  · exact h

theorem unmount_inv {s : State} (h : s.toCore.TimerInv) : (unmount s).toCore.TimerInv := by
  unfold unmount
  simp only
  have h1 : (match s.interval with
      | some interval => State.clearTimeout interval { s with isMounted := false }
      | none => s).toCore.TimerInv := by
    split
    · exact Core.TimerInv.clearTimeout (h.congr rfl rfl rfl) _
    · exact h
  generalize (match s.interval with
      | some interval => State.clearTimeout interval { s with isMounted := false }
      | none => s) = s1 at h1
  have h2 : (match s1.timer with
      | some timer => s1.clearTimeout timer
      | none => s1).toCore.TimerInv := by
    split
    · exact Core.TimerInv.clearTimeout h1 _
    · exact h1
  generalize (match s1.timer with
      | some timer => s1.clearTimeout timer
      | none => s1) = s2 at h2
  have h3 : s2.cancelAnimationIfTruthy.toCore.TimerInv := by
    rw [cancelAnimationIfTruthy_toCore]; exact h2
  generalize s2.cancelAnimationIfTruthy = s3 at h3
  exact (h3.clearIfTruthy s3.flipTimeoutRef).congr rfl rfl rfl

theorem checkBookReadyTick_inv {s : State} (h : s.toCore.TimerInv)
    (bookRef : Option BookHandle) : (checkBookReadyTick bookRef s).toCore.TimerInv := by
  unfold checkBookReadyTick
  split
  · exact h
  · split
    · simp only
      split
      · exact Core.TimerInv.clearTimeout (h.congr rfl rfl rfl) _
      · exact h.congr rfl rfl rfl
    · exact h

theorem runCallback_inv {s : State} (h : s.toCore.TimerInv) (callback : TimerCallback)
    (bookRef : Option BookHandle) (now : ℚ) :
    (runCallback callback bookRef now s).toCore.TimerInv := by
  cases callback with
  | checkBookReady => exact checkBookReadyTick_inv h bookRef
  | mountTimer => exact Core.TimerInv.setTimeout h _ _ (by intro p hp; cases hp)
  | animationTimer => exact h.congr rfl rfl rfl
  | resizeCheck isMobile currentPage isBookReady =>
    simp only [runCallback]
    split
    · exact safePageFlipIn_inv h _ _ _
    · exact h
  | closeModalFlip modalSourcePage isBookReady currentPage =>
    exact safePageFlipIn_inv h _ _ _
  | coverDelay => exact Core.TimerInv.setTimeout h _ _ (by intro p hp; cases hp)
  | coverAnimation => exact h.congr rfl rfl rfl
  | flip targetPage => exact h.flipTimerCallback bookRef targetPage

theorem fireTimer_inv {s : State} (h : s.toCore.TimerInv) (id : Nat)
    (bookRef : Option BookHandle) (now : ℚ) :
    (fireTimer id bookRef now s).toCore.TimerInv := by
  unfold fireTimer
  split
  · simp only
    apply runCallback_inv
    split
    · exact h
    · exact Core.TimerInv.clearTimeout h _
  · exact h

theorem runFrame_inv {s : State} (h : s.toCore.TimerInv) (id : Nat) (currentTime : ℚ) :
    (runFrame id currentTime s).toCore.TimerInv := by
  unfold runFrame
  split
  · rw [animate_toCore]
    exact h
  · exact h

theorem mount_inv (innerWidth : Nat) (bookRef : Option BookHandle) :
    (mount innerWidth bookRef).toCore.TimerInv := by
  have h0 : (init innerWidth).toCore.TimerInv := by
    refine ⟨?_, ?_, ?_, ?_⟩ <;> simp [init]
  unfold mount
  simp only
  split
  · exact Core.TimerInv.setTimeout (h0.congr rfl rfl rfl) _ _ (by intro p hp; cases hp)
  · refine (Core.TimerInv.setTimeout (c := (State.setTimeout TimerCallback.checkBookReady 100
        (init innerWidth)).toCore) ?_ _ _ (by intro p hp; cases hp)).congr rfl rfl rfl
    exact Core.TimerInv.setTimeout h0 _ _ (by intro p hp; cases hp)

theorem step_inv {s : State} (h : s.toCore.TimerInv) (e : Event) :
    (step s e).toCore.TimerInv := by
  cases e with
  | fireTimer id bookRef now => exact fireTimer_inv h id bookRef now
  | runFrame id currentTime => exact runFrame_inv h id currentTime
  | safePageFlip targetPage =>
    simp only [step]; split
    · exact h
    · exact safePageFlip_inv h _
  | handlePageChange newPage =>
    simp only [step]; split
    · exact h
    · exact handlePageChange_inv h _
  | handleResize innerWidth =>
    simp only [step]; split
    · exact h
    · exact handleResize_inv h _
  | handleKeyDown key =>
    simp only [step]; split
    · exact h
    · exact handleKeyDown_inv h _
  | goToGroup groupId =>
    simp only [step]; split
    · exact h
    · exact goToGroup_inv h _
  | goToPreviousPage =>
    simp only [step, goToPreviousPage]; split_ifs
    · exact h
    · exact safePageFlip_inv h _
    · exact h
  | goToNextPage =>
    simp only [step, goToNextPage]; split_ifs
    · exact h
    · exact safePageFlip_inv h _
    · exact h
  | handleGifClick gifNumber =>
    simp only [step]; split
    · exact h
    · exact h.congr rfl rfl rfl
  | handleSectionImgClick imgSrc pageId =>
    simp only [step]; split
    · exact h
    · exact handleSectionImgClick_inv h _ _
  | closeModal =>
    simp only [step]; split
    · exact h
    · exact closeModal_inv h
  | close3DModal =>
    simp only [step]; split
    · exact h
    · exact h
  | unmount =>
    simp only [step]; split
    · exact h
    · exact unmount_inv h

theorem reachable_inv {s : State} (h : Reachable s) : s.toCore.TimerInv := by
  induction h with
  | mount innerWidth bookRef => exact mount_inv innerWidth bookRef
  | step s e _ ih => exact step_inv ih e

end Book

/-! ## VQBook: the timer invariant holds in every reachable state -/

namespace VQBook

open FlipBook

theorem vq_cancelAnimationIfTruthy_toCore (s : State) :
    s.cancelAnimationIfTruthy.toCore = s.toCore := by
  unfold State.cancelAnimationIfTruthy
  split
  · split <;> rfl
  · rfl

theorem vq_animate_toCore (startTime startSize sizeDiff duration currentTime : ℚ) (s : State) :
    (animate startTime startSize sizeDiff duration currentTime s).toCore = s.toCore := by
  unfold animate
  simp only
  split <;> rfl

theorem vq_safePageFlipIn_inv {s : State} (h : s.toCore.TimerInv) (isBookReady : Bool)
    (currentPage targetPage : Int) :
    (safePageFlipIn isBookReady currentPage targetPage s).toCore.TimerInv :=
  h.safePageFlipIn isBookReady currentPage targetPage

theorem vq_safePageFlip_inv {s : State} (h : s.toCore.TimerInv) (targetPage : Int) :
    (safePageFlip targetPage s).toCore.TimerInv :=
  h.safePageFlipIn _ _ targetPage

theorem vq_handlePageChange_inv {s : State} (h : s.toCore.TimerInv) (newPage : Int) :
    (handlePageChange newPage s).toCore.TimerInv := by
  unfold handlePageChange
  split
  · exact h
  · split
    · exact Core.TimerInv.setTimeout (h.congr rfl rfl rfl) _ _ (by intro p hp; cases hp)
    · simp only
      rw [vq_cancelAnimationIfTruthy_toCore]
      exact h.congr rfl rfl rfl

theorem vq_handleResize_inv {s : State} (h : s.toCore.TimerInv) (innerWidth : Nat) :
    (handleResize innerWidth s).toCore.TimerInv := by
  unfold handleResize
  simp only
  split
  · exact Core.TimerInv.setTimeout (h.congr rfl rfl rfl) _ _ (by intro p hp; cases hp)
  · exact h

theorem vq_handleKeyDown_inv {s : State} (h : s.toCore.TimerInv) (key : String) :
    (handleKeyDown key s).toCore.TimerInv := by
  unfold handleKeyDown
  split_ifs
  · exact vq_safePageFlip_inv h _
  · exact h
  · exact vq_safePageFlip_inv h _
  · exact h
  · exact h

theorem vq_goToGroup_inv {s : State} (h : s.toCore.TimerInv) (groupId : Nat) :
    (goToGroup groupId s).toCore.TimerInv := by
  unfold goToGroup
  split
  · split
    · exact vq_safePageFlip_inv h _
    · exact h
  · exact h

theorem vq_closeModal_inv {s : State} (h : s.toCore.TimerInv) :
    (closeModal s).toCore.TimerInv := by
  unfold closeModal
  simp only
  split
  · exact Core.TimerInv.setTimeout (h.congr rfl rfl rfl) _ _ (by intro p hp; cases hp)
  · exact h.congr rfl rfl rfl

theorem vq_handleSectionImgClick_inv {s : State} (h : s.toCore.TimerInv) (imgSrc pageId : String) :
    (handleSectionImgClick imgSrc pageId s).toCore.TimerInv := by
  unfold handleSectionImgClick
  split
  · exact h
  · exact h

theorem vq_unmount_inv {s : State} (h : s.toCore.TimerInv) : (unmount s).toCore.TimerInv := by
  unfold unmount
  simp only
  have h1 : (match s.interval with
      | some interval => State.clearTimeout interval { s with isMounted := false }
      | none => s).toCore.TimerInv := by
    split
    · exact Core.TimerInv.clearTimeout (h.congr rfl rfl rfl) _
    · exact h
  generalize (match s.interval with
      | some interval => State.clearTimeout interval { s with isMounted := false }
      | none => s) = s1 at h1
  have h2 : (match s1.timer with
      | some timer => s1.clearTimeout timer
      | none => s1).toCore.TimerInv := by
    split
    · exact Core.TimerInv.clearTimeout h1 _
    · exact h1
  generalize (match s1.timer with
      | some timer => s1.clearTimeout timer
      | none => s1) = s2 at h2
  have h3 : s2.cancelAnimationIfTruthy.toCore.TimerInv := by
    rw [vq_cancelAnimationIfTruthy_toCore]; exact h2
  generalize s2.cancelAnimationIfTruthy = s3 at h3
  exact (h3.clearIfTruthy s3.flipTimeoutRef).congr rfl rfl rfl

theorem vq_checkBookReadyTick_inv {s : State} (h : s.toCore.TimerInv)
    (bookRef : Option BookHandle) : (checkBookReadyTick bookRef s).toCore.TimerInv := by
  unfold checkBookReadyTick
  split
  · exact h
  · split
    · simp only
      split
      · exact Core.TimerInv.clearTimeout (h.congr rfl rfl rfl) _
      · exact h.congr rfl rfl rfl
    · exact h

theorem vq_runCallback_inv {s : State} (h : s.toCore.TimerInv) (callback : TimerCallback)
    (bookRef : Option BookHandle) (innerWidth : Nat) (now : ℚ) :
    (runCallback callback bookRef innerWidth now s).toCore.TimerInv := by
  cases callback with
  | checkBookReady => exact vq_checkBookReadyTick_inv h bookRef
  | mountTimer =>
    exact Core.TimerInv.setTimeout (h.congr rfl rfl rfl) _ _ (by intro p hp; cases hp)
  | animationTimer => exact h.congr rfl rfl rfl
  | resizeCheck isMobile currentPage isBookReady =>
    simp only [runCallback]
    split
    · exact vq_safePageFlipIn_inv h _ _ _
    · exact h
  | closeModalFlip modalSourcePage isBookReady currentPage =>
    exact vq_safePageFlipIn_inv h _ _ _
  | coverDelay =>
    exact Core.TimerInv.setTimeout (h.congr rfl rfl rfl) _ _ (by intro p hp; cases hp)
  | coverAnimation => exact h.congr rfl rfl rfl
  | flip targetPage => exact h.flipTimerCallback bookRef targetPage

theorem vq_fireTimer_inv {s : State} (h : s.toCore.TimerInv) (id : Nat)
    (bookRef : Option BookHandle) (innerWidth : Nat) (now : ℚ) :
    (fireTimer id bookRef innerWidth now s).toCore.TimerInv := by
  unfold fireTimer
  split
  · simp only
    apply vq_runCallback_inv
    split
    · exact h
    · exact Core.TimerInv.clearTimeout h _
  · exact h

theorem vq_runFrame_inv {s : State} (h : s.toCore.TimerInv) (id : Nat) (currentTime : ℚ) :
    (runFrame id currentTime s).toCore.TimerInv := by
  unfold runFrame
  split
  · rw [vq_animate_toCore]
    exact h
  · exact h

theorem vq_mount_inv (innerWidth : Nat) (bookRef : Option BookHandle) :
    (mount innerWidth bookRef).toCore.TimerInv := by
  have h0 : (init innerWidth).toCore.TimerInv := by
    refine ⟨?_, ?_, ?_, ?_⟩ <;> simp [init]
  unfold mount
  simp only
  split
  · exact Core.TimerInv.setTimeout (h0.congr rfl rfl rfl) _ _ (by intro p hp; cases hp)
  · refine (Core.TimerInv.setTimeout (c := (State.setTimeout TimerCallback.checkBookReady 100
        (init innerWidth)).toCore) ?_ _ _ (by intro p hp; cases hp)).congr rfl rfl rfl
    exact Core.TimerInv.setTimeout h0 _ _ (by intro p hp; cases hp)

theorem vq_step_inv {s : State} (h : s.toCore.TimerInv) (e : Event) :
    (step s e).toCore.TimerInv := by
  cases e with
  | fireTimer id bookRef innerWidth now => exact vq_fireTimer_inv h id bookRef innerWidth now
  | runFrame id currentTime => exact vq_runFrame_inv h id currentTime
  | safePageFlip targetPage =>
    simp only [step]; split
    · exact h
    · exact vq_safePageFlip_inv h _
  | handlePageChange newPage =>
    simp only [step]; split
    · exact h
    · exact vq_handlePageChange_inv h _
  | handleResize innerWidth =>
    simp only [step]; split
    · exact h
    · exact vq_handleResize_inv h _
  | handleKeyDown key =>
    simp only [step]; split
    · exact h
    · exact vq_handleKeyDown_inv h _
  | goToGroup groupId =>
    simp only [step]; split
    · exact h
    · exact vq_goToGroup_inv h _
  | goToPreviousPage =>
    simp only [step, goToPreviousPage]; split_ifs
    · exact h
    · exact vq_safePageFlip_inv h _
    · exact h
  | goToNextPage =>
    simp only [step, goToNextPage]; split_ifs
    · exact h
    · exact vq_safePageFlip_inv h _
    · exact h
  | handleSectionImgClick imgSrc pageId =>
    simp only [step]; split
    · exact h
    · exact vq_handleSectionImgClick_inv h _ _
  | closeModal =>
    simp only [step]; split
    · exact h
    · exact vq_closeModal_inv h
  | close3DModal =>
    simp only [step]; split
    · exact h
    · exact h
  | unmount =>
    simp only [step]; split
    · exact h
    · exact vq_unmount_inv h

theorem vq_reachable_inv {s : State} (h : Reachable s) : s.toCore.TimerInv := by
  induction h with
  | mount innerWidth bookRef => exact vq_mount_inv innerWidth bookRef
  | step s e _ ih => exact vq_step_inv ih e

end VQBook

/-! ## Claims -/

theorem Book.reachable_run {s : Book.State} (h : Book.Reachable s) (events : List Book.Event) :
    Book.Reachable (Book.run s events) := by
  induction events generalizing s with
  | nil => exact h
  | cons e rest ih => exact ih (Book.Reachable.step s e h)

theorem VQBook.vq_reachable_run {s : VQBook.State} (h : VQBook.Reachable s)
    (events : List VQBook.Event) : VQBook.Reachable (VQBook.run s events) := by
  induction events generalizing s with
  | nil => exact h
  | cons e rest ih => exact ih (VQBook.Reachable.step s e h)

/-- C1. In every state of `Book` reachable from a mount by timers firing,
animation frames, `safePageFlip`, `handlePageChange`, the other handlers and
unmount, at most one page-flip timer is pending, and a pending one is the
timer whose handle `flipTimeoutRef` holds (the one `safePageFlip` clears
before it schedules the next); the same for `VQBook`. -/
theorem at_most_one_flip_timer_pending :
    (∀ s : Book.State, Book.Reachable s →
      (Book.pendingFlipTimers s).length ≤ 1 ∧
      ∀ t ∈ Book.pendingFlipTimers s, s.flipTimeoutRef = some t.id) ∧
    (∀ s : VQBook.State, VQBook.Reachable s →
      (VQBook.pendingFlipTimers s).length ≤ 1 ∧
      ∀ t ∈ VQBook.pendingFlipTimers s, s.flipTimeoutRef = some t.id) := by
  constructor
  · intro s h
    have hi := Book.reachable_inv h
    refine ⟨hi.length_le_one, ?_⟩
    intro t ht
    rw [Book.pendingFlipTimers, List.mem_filter] at ht
    exact hi.2.2.1 t ht.1 ht.2
  · intro s h
    have hi := VQBook.vq_reachable_inv h
    refine ⟨hi.length_le_one, ?_⟩
    intro t ht
    rw [VQBook.pendingFlipTimers, List.mem_filter] at ht
    exact hi.2.2.1 t ht.1 ht.2

/-- Witness of C1: after two overlapping flips from a ready book exactly one
page-flip timer is pending, the second one (handle 3, target page 2). -/
theorem at_most_one_flip_timer_pending_witness :
    (Book.pendingFlipTimers
        (Book.run (Book.mount 1024 (some FlipBook.workingHandle)) Book.overlappingFlips)).length ≤ 1 ∧
    Book.pendingFlipTimers
        (Book.run (Book.mount 1024 (some FlipBook.workingHandle)) Book.overlappingFlips) =
      [{ id := 3, delay := 300, callback := FlipBook.TimerCallback.flip 2 }] ∧
    (VQBook.pendingFlipTimers
        (VQBook.run (VQBook.mount 1024 (some FlipBook.workingHandle))
          VQBook.overlappingFlips)).length ≤ 1 ∧
    VQBook.pendingFlipTimers
        (VQBook.run (VQBook.mount 1024 (some FlipBook.workingHandle)) VQBook.overlappingFlips) =
      [{ id := 3, delay := 300, callback := FlipBook.TimerCallback.flip 2 }] :=
  ⟨(at_most_one_flip_timer_pending.1 _
      (Book.reachable_run (Book.Reachable.mount 1024 (some FlipBook.workingHandle)) _)).1,
    by decide,
    (at_most_one_flip_timer_pending.2 _
      (VQBook.vq_reachable_run (VQBook.Reachable.mount 1024 (some FlipBook.workingHandle)) _)).1,
    by decide⟩

theorem FlipBook.Core.clearIfTruthy_eq (c : FlipBook.Core) (ref : Option Nat) :
    c.clearIfTruthy ref =
      { c with timers := c.timers.filter (fun t => !(decide (ref = some t.id) && t.id != 0)) } := by
  unfold FlipBook.Core.clearIfTruthy
  cases ref with
  | none => simp
  | some id =>
    by_cases hz : id = 0
    · subst hz
      have hf : c.timers.filter (fun t => !(decide (some 0 = some t.id) && t.id != 0)) =
          c.timers := by
        apply List.filter_eq_self.2
        intro t _
        by_cases ht : t.id = 0
        · simp [ht]
        · have h2 : ¬ 0 = t.id := fun e => ht e.symm
          simp [h2]
      rw [hf]
      rfl
    · simp only [bne_iff_ne, ne_eq, hz, not_false_eq_true, ↓reduceIte, FlipBook.Core.clearTimeout]
      congr 1
      apply List.filter_congr
      intro t _
      by_cases ht : t.id = id
      · simp [ht, hz]
      · have h2 : ¬ id = t.id := fun e => ht e.symm
        simp [ht, h2]

theorem FlipBook.Core.safePageFlip_eq (c : FlipBook.Core) (targetPage : Int)
    (h1 : c.isBookReady = true) (h2 : c.isFlippingRef = false)
    (h3 : ¬ c.currentPage = targetPage) :
    c.safePageFlip targetPage =
      { c with
        isFlippingRef := true
        isFlipping := true
        timers :=
          c.timers.filter (fun t => !(decide (c.flipTimeoutRef = some t.id) && t.id != 0)) ++
            [{ id := c.nextTimerId, delay := 300,
               callback := FlipBook.TimerCallback.flip targetPage }]
        nextTimerId := c.nextTimerId + 1
        flipTimeoutRef := some c.nextTimerId } := by
  unfold FlipBook.Core.safePageFlip FlipBook.Core.safePageFlipIn
  simp only [h1, h2, h3, Bool.not_true, Bool.false_eq_true, ↓reduceIte]
  rw [FlipBook.Core.clearIfTruthy_eq]
  rfl

/-- C2. The call `safePageFlip(targetPage)` of `Book` changes nothing when the
book is not ready, or `isFlippingRef` is already true, or `targetPage` is the
current page: the whole state, refs and timer queue included, is the same.
Otherwise it sets `isFlippingRef` and `isFlipping`, removes from the queue the
timer whose (non-zero) handle `flipTimeoutRef` holds, schedules exactly one
timer (300 ms, for `targetPage`, with a fresh handle), keeps that handle in
`flipTimeoutRef`, and changes nothing else. -/
theorem Book.safePageFlip_guards (s : Book.State) (targetPage : Int) :
    ((s.isBookReady = false ∨ s.isFlippingRef = true ∨ targetPage = s.currentPage) →
      Book.safePageFlip targetPage s = s) ∧
    (¬ (s.isBookReady = false ∨ s.isFlippingRef = true ∨ targetPage = s.currentPage) →
      Book.safePageFlip targetPage s =
        { s with
          isFlippingRef := true
          isFlipping := true
          timers :=
            s.timers.filter (fun t => !(decide (s.flipTimeoutRef = some t.id) && t.id != 0)) ++
              [{ id := s.nextTimerId, delay := 300,
                 callback := FlipBook.TimerCallback.flip targetPage }]
          nextTimerId := s.nextTimerId + 1
          flipTimeoutRef := some s.nextTimerId }) := by
  constructor
  · intro h
    unfold Book.safePageFlip FlipBook.Core.safePageFlip FlipBook.Core.safePageFlipIn
    rcases h with h | h | h
    · simp [h]
    · simp [h]
    · simp [h]
  · intro h
    simp only [not_or, Bool.not_eq_false, Bool.not_eq_true] at h
    obtain ⟨h1, h2, h3⟩ := h
    unfold Book.safePageFlip
    rw [FlipBook.Core.safePageFlip_eq s.toCore targetPage h1 h2 (fun e => h3 e.symm)]

/-- Witness of C2: a flip requested before the book is ready leaves the mounted
state as it is; on a ready book at page 0 a flip to page 1 sets both flags and
schedules the timer with handle 2. -/
theorem Book.safePageFlip_guards_witness :
    Book.safePageFlip 1 (Book.mount 1024 none) = Book.mount 1024 none ∧
    Book.safePageFlip 1 (Book.mount 1024 (some FlipBook.workingHandle)) =
      { Book.mount 1024 (some FlipBook.workingHandle) with
        isFlippingRef := true
        isFlipping := true
        timers :=
          [{ id := 1, delay := 1000, callback := FlipBook.TimerCallback.mountTimer },
           { id := 2, delay := 300, callback := FlipBook.TimerCallback.flip 1 }]
        nextTimerId := 3
        flipTimeoutRef := some 2 } :=
  ⟨(Book.safePageFlip_guards (Book.mount 1024 none) 1).1 (Or.inl rfl),
    ((Book.safePageFlip_guards (Book.mount 1024 (some FlipBook.workingHandle)) 1).2
      (by decide)).trans rfl⟩

/-- C3. The callback of the flip timer of `Book` never lets an error out, and
with a book handle present it ends in the direct state update (`currentPage`
is `targetPage`, both flipping flags false, timer queue and `flipTimeoutRef`
untouched) in each of the cases (a) `pageFlip()` exposes no transition method,
(b) the handle has no `pageFlip`, `flip` or `goToPage`, (c) the `try` block
throws; with a null handle both flags become false and nothing else changes. -/
theorem Book.flipTimer_fallback (targetPage : Int) (s : Book.State) (now : ℚ) :
    (∀ bookRef, ∃ c, s.toCore.flipTimerCallback bookRef targetPage = Except.ok c ∧
      Book.runCallback (FlipBook.TimerCallback.flip targetPage) bookRef now s =
        { s with toCore := c }) ∧
    (∀ handle : FlipBook.BookHandle,
      (handle.ExposesNoMethod ∨ handle.HasNoMethod) →
        Book.runCallback (FlipBook.TimerCallback.flip targetPage) (some handle) now s =
          { s with currentPage := targetPage, isFlippingRef := false, isFlipping := false }) ∧
    (∀ (handle : FlipBook.BookHandle) (e : FlipBook.Core),
      s.toCore.flipTimerTry handle targetPage = Except.error e →
        Book.runCallback (FlipBook.TimerCallback.flip targetPage) (some handle) now s =
          { s with
            currentPage := targetPage
            isFlippingRef := false
            isFlipping := false
            widgetCalls := e.widgetCalls } ∧
        ∃ calls, e.widgetCalls = s.widgetCalls ++ calls ∧ calls.length ≤ 1) ∧
    Book.runCallback (FlipBook.TimerCallback.flip targetPage) none now s =
      { s with isFlippingRef := false, isFlipping := false } := by
  refine ⟨?_, ?_, ?_, rfl⟩
  · intro bookRef
    obtain ⟨c, hc, _⟩ := FlipBook.Core.flipTimerCallback_ok bookRef targetPage s.toCore
    exact ⟨c, hc, by simp [Book.runCallback, hc, FlipBook.settle]⟩
  · intro handle h
    rcases h with ⟨api, h1, h2, h3, h4, h5, h6⟩ | ⟨h1, h2, h3⟩
    · simp [Book.runCallback, FlipBook.Core.flipTimerCallback, FlipBook.Core.flipTimerTry, h1, h2,
        h3, h4, h5, h6, FlipBook.settle, FlipBook.Core.directUpdate]
    · simp [Book.runCallback, FlipBook.Core.flipTimerCallback, FlipBook.Core.flipTimerTry, h1, h2,
        h3, FlipBook.settle, FlipBook.Core.directUpdate]
  · intro handle e he
    have hfields : e = { s.toCore with widgetCalls := e.widgetCalls } ∧
        ∃ calls, e.widgetCalls = s.widgetCalls ++ calls ∧ calls.length ≤ 1 := by
      unfold FlipBook.Core.flipTimerTry at he
      rcases handle with ⟨pf, fl, gp⟩
      cases pf with
      | none =>
        cases fl with
        | some o =>
          cases o <;> simp [FlipBook.Core.callMethod] at he
          subst he
          exact ⟨rfl, _, rfl, by simp⟩
        | none =>
          cases gp with
          | some o =>
            cases o <;> simp [FlipBook.Core.callMethod] at he
            subst he
            exact ⟨rfl, _, rfl, by simp⟩
          | none => simp at he
      | some call =>
        cases call with
        | throws =>
          simp at he
          subst he
          exact ⟨rfl, [], by simp, by simp⟩
        | returnsNull => simp at he
        | returnsApi api =>
          rcases api with ⟨a1, a2, a3, a4, a5⟩
          cases a1 with
          | some o =>
            cases o <;> simp [FlipBook.Core.callMethod] at he
            subst he
            exact ⟨rfl, _, rfl, by simp⟩
          | none =>
          cases a2 with
          | some o =>
            cases o <;> simp [FlipBook.Core.callMethod] at he
            subst he
            exact ⟨rfl, _, rfl, by simp⟩
          | none =>
          cases a3 with
          | some o =>
            cases o <;> simp [FlipBook.Core.callMethod] at he
            subst he
            exact ⟨rfl, _, rfl, by simp⟩
          | none =>
          cases a4 with
          | some o =>
            cases o <;> simp [FlipBook.Core.callMethod] at he
            subst he
            exact ⟨rfl, _, rfl, by simp⟩
          | none =>
          cases a5 with
          | some o =>
            cases o <;> simp [FlipBook.Core.callMethod] at he
            subst he
            exact ⟨rfl, _, rfl, by simp⟩
          | none => simp at he
    refine ⟨?_, hfields.2⟩
    simp only [Book.runCallback, FlipBook.Core.flipTimerCallback, he, FlipBook.settle,
      FlipBook.Core.directUpdate]
    rw [hfields.1]

/-- Witness of C3: on the state with a pending flip to page 3, the timer
callback ends in the direct update for a handle whose `pageFlip()` exposes no
method, for a handle without methods, and for a handle whose only method
`goToPage` throws (the call is recorded). -/
theorem Book.flipTimer_fallback_witness :
    FlipBook.bareHandle.ExposesNoMethod ∧
    Book.runCallback (FlipBook.TimerCallback.flip 3) (some FlipBook.bareHandle) 0
        Book.flipPending =
      { Book.flipPending with currentPage := 3, isFlippingRef := false, isFlipping := false } ∧
    FlipBook.emptyHandle.HasNoMethod ∧
    Book.runCallback (FlipBook.TimerCallback.flip 3) (some FlipBook.emptyHandle) 0
        Book.flipPending =
      { Book.flipPending with currentPage := 3, isFlippingRef := false, isFlipping := false } ∧
    Book.flipPending.toCore.flipTimerTry FlipBook.throwingHandle 3 =
      Except.error { Book.flipPending.toCore with
        widgetCalls := [{ method := FlipBook.WidgetMethod.pageFlip_goToPage, arg := 3 }] } ∧
    Book.runCallback (FlipBook.TimerCallback.flip 3) (some FlipBook.throwingHandle) 0
        Book.flipPending =
      { Book.flipPending with
        currentPage := 3
        isFlippingRef := false
        isFlipping := false
        widgetCalls := [{ method := FlipBook.WidgetMethod.pageFlip_goToPage, arg := 3 }] } :=
  ⟨⟨_, rfl, rfl, rfl, rfl, rfl, rfl⟩,
    (Book.flipTimer_fallback 3 Book.flipPending 0).2.1 FlipBook.bareHandle
      (Or.inl ⟨_, rfl, rfl, rfl, rfl, rfl, rfl⟩),
    ⟨rfl, rfl, rfl⟩,
    (Book.flipTimer_fallback 3 Book.flipPending 0).2.1 FlipBook.emptyHandle
      (Or.inr ⟨rfl, rfl, rfl⟩),
    rfl,
    ((Book.flipTimer_fallback 3 Book.flipPending 0).2.2.1 FlipBook.throwingHandle _ rfl).1⟩

/-- C5. The URL path determines the initial view: `getInitialBookType` returns
`'friender'` exactly for the path `/friender`, `'vq'` exactly for `/vq` and
`'intro'` for every other path, and `App` renders `Book` under the header for
`'friender'`, `VQBook` under the header for `'vq'`, and `IntroScreen` for
`'intro'`. -/
theorem App.url_path_determines_view (path : String) :
    (App.getInitialBookType path = "friender" ↔ path = "/friender") ∧
    (App.getInitialBookType path = "vq" ↔ path = "/vq") ∧
    (App.getInitialBookType path = "intro" ↔ (path ≠ "/friender" ∧ path ≠ "/vq")) ∧
    App.render "friender" = App.View.headerAnd "friender" App.BookComponent.Book ∧
    App.render "vq" = App.View.headerAnd "vq" App.BookComponent.VQBook ∧
    App.render "intro" = App.View.IntroScreen ∧
    App.initialView path =
      (if path = "/friender" then App.View.headerAnd "friender" App.BookComponent.Book
       else if path = "/vq" then App.View.headerAnd "vq" App.BookComponent.VQBook
       else App.View.IntroScreen) := by
  have e1 : ("friender" : String) ≠ "vq" := by decide
  have e2 : ("friender" : String) ≠ "intro" := by decide
  have e3 : ("vq" : String) ≠ "intro" := by decide
  have e4 : ("/friender" : String) ≠ "/vq" := by decide
  refine ⟨?_, ?_, ?_, by decide, by decide, by decide, ?_⟩
  · unfold App.getInitialBookType
    split_ifs with h1 h2
    · simp [h1]
    · simp [h1, e1.symm]
    · simp [h1, e2.symm]
  · unfold App.getInitialBookType
    split_ifs with h1 h2
    · simp [h1, e1, e4]
    · simp [h2]
    · simp [h2, e3.symm]
  · unfold App.getInitialBookType
    split_ifs with h1 h2
    · simp [h1, e2]
    · simp [h2, e3]
    · simp [h1, h2]
  · unfold App.initialView App.getInitialBookType
    split_ifs with h1 h2
    · decide
    · decide
    · decide

/-- C4 (evaluation at the failing input). When `Book` is unmounted between the
firing of `timer` and the firing of `animationTimer`, the cleanups leave
`animationTimer` pending; when it fires, `setIsMainImageAnimating(true)` runs
on the unmounted component and `animateCover` requests an animation frame.
Likewise the 100 ms timer of `closeModal` survives the unmount. -/
theorem Book.unmount_leaves_timers :
    Book.unmountedEarly.unmounted = true ∧
    Book.unmountedEarly.timers =
      [{ id := 3, delay := 1000, callback := FlipBook.TimerCallback.animationTimer }] ∧
    Book.unmountedEarly.isMainImageAnimating = false ∧
    Book.unmountedEarly.frames = [] ∧
    (Book.step Book.unmountedEarly (Book.Event.fireTimer 3 none 2000)).isMainImageAnimating =
      true ∧
    (Book.step Book.unmountedEarly (Book.Event.fireTimer 3 none 2000)).frames =
      [{ id := 1, startTime := 2000, duration := 3000 }] ∧
    Book.unmountedAfterClose.unmounted = true ∧
    Book.unmountedAfterClose.timers =
      [{ id := 3, delay := 100, callback := FlipBook.TimerCallback.closeModalFlip 2 false 0 }] := by
  refine ⟨by decide, by decide, by decide, rfl, by decide, rfl, by decide, by decide⟩

/-- C6. The per-page tables are parallel: for every page id of `frienderData`
in `Book`, of `vqData` in `VQBook`, and for every page number 2..24 in
`IntroScreen`, the overlay-media table and the overlay-position table both have
an entry and the two entries have the same length; and the render loop drops
no configured overlay: the media of the hot-spots rendered for the page are
exactly the media configured for it. -/
theorem overlay_tables_parallel :
    (∀ id ∈ Book.frienderData,
      TablesParallelAt Book.sectionImgMapping Book.individualImagePositions id ∧
      (Book.renderedOverlays id).map Prod.fst = (JS.lookup Book.sectionImgMapping id).getD []) ∧
    (∀ id ∈ VQBook.vqData,
      TablesParallelAt VQBook.vqSectionImgMapping VQBook.vqIndividualImagePositions id ∧
      (VQBook.renderedOverlays id).map Prod.fst =
        (JS.lookup VQBook.vqSectionImgMapping id).getD []) ∧
    (∀ (responsivePercent : Nat → String) (n : Nat), 2 ≤ n → n ≤ 24 →
      TablesParallelAt IntroScreen.sectionImgMapping
        (IntroScreen.individualImagePositions responsivePercent) (toString n) ∧
      (IntroScreen.renderedOverlays responsivePercent (n - 1)).map Prod.fst =
        (JS.lookup IntroScreen.sectionImgMapping (toString n)).getD []) := by
  refine ⟨by decide, by decide, ?_⟩
  intro responsivePercent n h1 h2
  interval_cases n <;> exact ⟨⟨rfl, rfl, rfl⟩, rfl⟩

/-- Witness of C6: page "4" of `Book` (four overlays), page "19" of `VQBook`
(two videos) and page 12 of `IntroScreen`. -/
theorem overlay_tables_parallel_witness :
    (TablesParallelAt Book.sectionImgMapping Book.individualImagePositions "4" ∧
      (Book.renderedOverlays "4").map Prod.fst = (JS.lookup Book.sectionImgMapping "4").getD []) ∧
    (Book.renderedOverlays "4").length = 4 ∧
    (TablesParallelAt VQBook.vqSectionImgMapping VQBook.vqIndividualImagePositions "19" ∧
      (VQBook.renderedOverlays "19").map Prod.fst =
        (JS.lookup VQBook.vqSectionImgMapping "19").getD []) ∧
    (VQBook.renderedOverlays "19").length = 2 ∧
    (TablesParallelAt IntroScreen.sectionImgMapping
        (IntroScreen.individualImagePositions (fun _ => "81%")) (toString 12) ∧
      (IntroScreen.renderedOverlays (fun _ => "81%") (12 - 1)).map Prod.fst =
        (JS.lookup IntroScreen.sectionImgMapping (toString 12)).getD []) :=
  ⟨overlay_tables_parallel.1 "4" (by decide), by decide,
    overlay_tables_parallel.2.1 "19" (by decide), by decide,
    overlay_tables_parallel.2.2 (fun _ => "81%") 12 (by decide) (by decide)⟩

theorem Book.frameWrites_frames (progress : ℚ) (s : Book.State) :
    (Book.frameWrites progress s).frames = s.frames ∧
    (Book.frameWrites progress s).nextFrameId = s.nextFrameId ∧
    (Book.frameWrites progress s).animationRef = s.animationRef := by
  have h1 : ∀ t : Book.State, (Book.backgroundStage progress t).frames = t.frames ∧
      (Book.backgroundStage progress t).nextFrameId = t.nextFrameId ∧
      (Book.backgroundStage progress t).animationRef = t.animationRef := by
    intro t; unfold Book.backgroundStage; split <;> exact ⟨rfl, rfl, rfl⟩
  have h2 : ∀ t : Book.State, (Book.appearStage progress t).frames = t.frames ∧
      (Book.appearStage progress t).nextFrameId = t.nextFrameId ∧
      (Book.appearStage progress t).animationRef = t.animationRef := by
    intro t; unfold Book.appearStage; split <;> exact ⟨rfl, rfl, rfl⟩
  have h3 : ∀ t : Book.State, (Book.sizeStage progress t).frames = t.frames ∧
      (Book.sizeStage progress t).nextFrameId = t.nextFrameId ∧
      (Book.sizeStage progress t).animationRef = t.animationRef := by
    intro t; unfold Book.sizeStage; split <;> exact ⟨rfl, rfl, rfl⟩
  have h4 : ∀ t : Book.State, (Book.finalStage progress t).frames = t.frames ∧
      (Book.finalStage progress t).nextFrameId = t.nextFrameId ∧
      (Book.finalStage progress t).animationRef = t.animationRef := by
    intro t; unfold Book.finalStage; split <;> exact ⟨rfl, rfl, rfl⟩
  have h5 : ∀ t : Book.State, (Book.textStage progress t).frames = t.frames ∧
      (Book.textStage progress t).nextFrameId = t.nextFrameId ∧
      (Book.textStage progress t).animationRef = t.animationRef := by
    intro t; unfold Book.textStage; split <;> exact ⟨rfl, rfl, rfl⟩
  have h6 : ∀ t : Book.State, (Book.endStage progress t).frames = t.frames ∧
      (Book.endStage progress t).nextFrameId = t.nextFrameId ∧
      (Book.endStage progress t).animationRef = t.animationRef := by
    intro t; unfold Book.endStage; split <;> exact ⟨rfl, rfl, rfl⟩
  unfold Book.frameWrites
  refine ⟨?_, ?_, ?_⟩
  · rw [(h6 _).1, (h5 _).1, (h4 _).1, (h3 _).1, (h2 _).1, (h1 _).1]
  · rw [(h6 _).2.1, (h5 _).2.1, (h4 _).2.1, (h3 _).2.1, (h2 _).2.1, (h1 _).2.1]
  · rw [(h6 _).2.2, (h5 _).2.2, (h4 _).2.2, (h3 _).2.2, (h2 _).2.2, (h1 _).2.2]

theorem Book.progress_lt_one_iff (startTime duration currentTime : ℚ) (hd : 0 < duration)
    (hdd : JS.toDouble duration = duration) :
    Book.progress startTime duration currentTime < 1 ↔
      JS.sub currentTime startTime < duration := by
  unfold Book.progress
  simp only [min_lt_iff, lt_self_iff_false, or_false]
  exact JS.div_lt_one_iff (currentTime - startTime) duration hd hdd

theorem Book.animate_request_of_progress (startTime duration currentTime : ℚ) (s : Book.State) :
    (Book.animate startTime duration currentTime s).frames =
      (if Book.progress startTime duration currentTime < 1 then
        s.frames ++ [{ id := s.nextFrameId, startTime := startTime, duration := duration }]
      else s.frames) ∧
    (Book.animate startTime duration currentTime s).nextFrameId =
      (if Book.progress startTime duration currentTime < 1 then s.nextFrameId + 1
       else s.nextFrameId) ∧
    (Book.animate startTime duration currentTime s).animationRef =
      (if Book.progress startTime duration currentTime < 1 then some s.nextFrameId
       else s.animationRef) := by
  obtain ⟨f1, f2, f3⟩ := Book.frameWrites_frames (Book.progress startTime duration currentTime) s
  unfold Book.animate
  simp only
  split
  · simp [Book.State.requestAnimationFrame, f1, f2]
  · exact ⟨f1, f2, f3⟩

theorem Book.animate_request (startTime duration currentTime : ℚ) (hd : 0 < duration)
    (hdd : JS.toDouble duration = duration) (s : Book.State) :
    (Book.animate startTime duration currentTime s).frames =
      (if JS.sub currentTime startTime < duration then
        s.frames ++ [{ id := s.nextFrameId, startTime := startTime, duration := duration }]
      else s.frames) ∧
    (Book.animate startTime duration currentTime s).nextFrameId =
      (if JS.sub currentTime startTime < duration then s.nextFrameId + 1 else s.nextFrameId) ∧
    (Book.animate startTime duration currentTime s).animationRef =
      (if JS.sub currentTime startTime < duration then some s.nextFrameId
       else s.animationRef) := by
  have h := Book.animate_request_of_progress startTime duration currentTime s
  simp only [Book.progress_lt_one_iff startTime duration currentTime hd hdd] at h
  exact h

theorem JS.sub_3000_1 : JS.sub (JS.num (30001 / 10)) (JS.num (1 / 10)) = 3000 := by
  decide!

/-- C7 (counterexample). For `animateCover(3000)` started at the time stamp 0.1,
the frame at the time stamp 3000.1 has `t - startTime < duration` for the exact
difference of the two doubles, but the code's `elapsed` is the double 3000, the
progress is 1 and no further frame is requested. -/
theorem Book.frame_at_3000_1_requests_none :
    JS.num (30001 / 10) - JS.num (1 / 10) < 3000 ∧
    JS.sub (JS.num (30001 / 10)) (JS.num (1 / 10)) = 3000 ∧
    Book.progress (JS.num (1 / 10)) 3000 (JS.num (30001 / 10)) = 1 ∧
    (Book.animate (JS.num (1 / 10)) 3000 (JS.num (30001 / 10)) (Book.init 1024)).frames = [] ∧
    (Book.animate (JS.num (1 / 10)) 3000 (JS.num (30001 / 10)) (Book.init 1024)).nextFrameId =
      (Book.init 1024).nextFrameId := by
  have hp : Book.progress (JS.num (1 / 10)) 3000 (JS.num (30001 / 10)) = 1 := by
    unfold Book.progress
    simp only [JS.sub_3000_1]
    decide!
  obtain ⟨h1, h2, _⟩ := Book.animate_request_of_progress (JS.num (1 / 10)) 3000
    (JS.num (30001 / 10)) (Book.init 1024)
  rw [hp] at h1 h2
  refine ⟨by decide!, JS.sub_3000_1, hp, ?_, ?_⟩
  · rw [h1]; rfl
  · rw [h2]; rfl

/-- C7 (amended). The cover animation loop of `Book.animateCover(duration)` is
bounded by its duration: for a double `duration > 0`, a frame at timestamp `t`
requests another animation frame if and only if `elapsed < duration`, where
`elapsed` is the double difference `t - startTime` that the code computes (the
request is the one new entry of the frame queue, kept in `animationRef`);
hence for every sequence of frame timestamps the frames that run are those up
to and including the first one with `elapsed ≥ duration`; in every frame with
`elapsed ≥ 0` the progress lies in [0, 1]; and a frame whose exact difference
`t - startTime` is at least the duration has `elapsed ≥ duration` and requests
no frame. -/
theorem Book.cover_animation_bounded (startTime duration : ℚ) (hd : 0 < duration)
    (hdd : JS.toDouble duration = duration) :
    (∀ (t : ℚ) (s : Book.State),
      ((Book.animate startTime duration t s).nextFrameId ≠ s.nextFrameId ↔
        JS.sub t startTime < duration) ∧
      (Book.animate startTime duration t s).frames =
        (if JS.sub t startTime < duration then
          s.frames ++ [{ id := s.nextFrameId, startTime := startTime, duration := duration }]
        else s.frames)) ∧
    (∀ (ts : List ℚ) (s : Book.State),
      (Book.animateCoverLoop startTime duration ts s).2 =
        ts.take
          ((ts.takeWhile (fun t => decide (JS.sub t startTime < duration))).length + 1)) ∧
    (∀ t : ℚ, 0 ≤ JS.sub t startTime →
      0 ≤ Book.progress startTime duration t ∧ Book.progress startTime duration t ≤ 1) ∧
    (∀ (t : ℚ) (s : Book.State), duration ≤ t - startTime →
      duration ≤ JS.sub t startTime ∧
      (Book.animate startTime duration t s).frames = s.frames ∧
      (Book.animate startTime duration t s).nextFrameId = s.nextFrameId) := by
  refine ⟨?_, ?_, ?_, ?_⟩
  · intro t s
    obtain ⟨h1, h2, _⟩ := Book.animate_request startTime duration t hd hdd s
    refine ⟨?_, h1⟩
    rw [h2]
    split <;> simp [*]
  · intro ts
    induction ts with
    | nil => intro s; rfl
    | cons t rest ih =>
      intro s
      obtain ⟨_, h2, _⟩ := Book.animate_request startTime duration t hd hdd s
      unfold Book.animateCoverLoop
      simp only [h2]
      by_cases ht : JS.sub t startTime < duration
      · simp [ht, List.takeWhile_cons, ih]
      · simp [ht, List.takeWhile_cons]
  · intro t ht
    unfold Book.progress
    refine ⟨le_min ?_ zero_le_one, min_le_right _ _⟩
    exact JS.toDouble_nonneg _ (div_nonneg ht hd.le)
  · intro t s ht
    have hge : duration ≤ JS.sub t startTime :=
      JS.toDouble_ge_of_ge (t - startTime) duration hd hdd ht
    obtain ⟨h1, h2, _⟩ := Book.animate_request startTime duration t hd hdd s
    rw [if_neg (not_lt.mpr hge)] at h1 h2
    exact ⟨hge, h1, h2⟩

/-- Witness of C7: `animateCover(3000)` started at time 0 with frames delivered
at 1000, 2000, 3000 and 4000 ms runs the first three and stops. -/
theorem Book.cover_animation_bounded_witness :
    (0 : ℚ) < 3000 ∧ JS.toDouble 3000 = 3000 ∧
    (Book.animateCoverLoop 0 3000 [1000, 2000, 3000, 4000] (Book.init 1024)).2 =
      [1000, 2000, 3000] :=
  ⟨by norm_num, by decide!,
    ((Book.cover_animation_bounded 0 3000 (by norm_num) (by decide!)).2.1
      [1000, 2000, 3000, 4000] (Book.init 1024)).trans (by decide!)⟩

/-- C8 (counterexample). With `navigator.share` missing and the clipboard
available, `handleShareClick` is not silent: it shows the alert dialog
"링크가 클립보드에 복사되었습니다!". -/
theorem IntroScreen.share_missing_shows_alert :
    (IntroScreen.handleShareClick { share := none, clipboard := some IntroScreen.Settled.resolves }
      ).effects = [IntroScreen.Effect.alert "링크가 클립보드에 복사되었습니다!"] ∧
    ¬ IntroScreen.Silent
      (IntroScreen.handleShareClick
        { share := none, clipboard := some IntroScreen.Settled.resolves }) := by
  refine ⟨by decide, ?_⟩
  intro h
  have := h.2 (IntroScreen.Effect.alert "링크가 클립보드에 복사되었습니다!") (by decide)
  exact absurd this (by decide)

/-- C8 (amended). Whenever `navigator.clipboard` is present, `handleShareClick`
raises no error and produces exactly one message with the result of the
clipboard copy: a console message when `navigator.share` is present and its
promise resolves, and an alert dialog when `navigator.share` is missing or its
promise is rejected; so it is silent exactly when the share succeeded. -/
theorem IntroScreen.handleShareClick_with_clipboard (share : Option IntroScreen.Settled)
    (clip : IntroScreen.Settled) :
    (IntroScreen.handleShareClick { share := share, clipboard := some clip }).completion =
      IntroScreen.Completion.completed ∧
    (IntroScreen.handleShareClick { share := share, clipboard := some clip }).effects =
      [(if share = some IntroScreen.Settled.resolves then IntroScreen.Effect.consoleLog
          else IntroScreen.Effect.alert)
        (if clip = IntroScreen.Settled.resolves then "링크가 클립보드에 복사되었습니다!"
          else "클립보드 복사에 실패했습니다.")] ∧
    (IntroScreen.Silent (IntroScreen.handleShareClick { share := share, clipboard := some clip }) ↔
      share = some IntroScreen.Settled.resolves) := by
  rcases share with _ | _ | _ <;> cases clip <;>
    refine ⟨rfl, rfl, ?_⟩ <;>
    simp [IntroScreen.Silent, IntroScreen.handleShareClick, IntroScreen.writeText,
      IntroScreen.Effect.isDialog]

theorem Model3D.step_bounds (s : Model3D.State) (e : Model3D.Event)
    (h : -90 ≤ s.rotationX ∧ s.rotationX ≤ 90) :
    -90 ≤ (Model3D.step s e).rotationX ∧ (Model3D.step s e).rotationX ≤ 90 := by
  have clamp : ∀ x : ℚ, -90 ≤ max (-90) (min 90 x) ∧ max (-90) (min 90 x) ≤ 90 := by
    intro x
    exact ⟨le_max_left _ _, max_le (by norm_num) (min_le_left _ _)⟩
  cases e with
  | mouseDown p => exact h
  | mouseMove p =>
    simp only [Model3D.step, Model3D.handleMouseMove]
    split
    · exact h
    · exact clamp _
  | mouseUp => exact h
  | touchStart touches =>
    simp only [Model3D.step, Model3D.handleTouchStart]
    split <;> exact h
  | touchMove touches =>
    simp only [Model3D.step, Model3D.handleTouchMove]
    split
    · exact h
    · split
      · exact clamp _
      · exact h
  | touchEnd => exact h
  | autoRotateTick =>
    simp only [Model3D.step]
    split <;> exact h
  | toggleAutoRotate => exact h
  | resetModel =>
    simp only [Model3D.step, Model3D.resetModel]
    norm_num

theorem Model3D.run_bounds (events : List Model3D.Event) (s : Model3D.State)
    (h : -90 ≤ s.rotationX ∧ s.rotationX ≤ 90) :
    -90 ≤ (Model3D.run s events).rotationX ∧ (Model3D.run s events).rotationX ≤ 90 := by
  induction events generalizing s with
  | nil => exact h
  | cons e rest ih => exact ih (Model3D.step s e) (Model3D.step_bounds s e h)

/-- C9. `Model3D` keeps the X rotation within -90..90 degrees: from the initial
state, after every sequence of mouse-down, mouse-move, mouse-up, touch-start,
touch-move, touch-end, auto-rotate tick, `toggleAutoRotate` and `resetModel`
events with arbitrary pointer coordinates, `-90 ≤ rotationX ≤ 90`. -/
theorem Model3D.rotationX_bounded (events : List Model3D.Event) :
    -90 ≤ (Model3D.run Model3D.init events).rotationX ∧
    (Model3D.run Model3D.init events).rotationX ≤ 90 :=
  Model3D.run_bounds events Model3D.init (by norm_num [Model3D.init])

/-- C10 (evaluation at the failing input). In `VQBook` the test
`imgSrc.includes("2-1.png")` also holds for the configured overlays of pages 12
and 22: among the configured media paths, those for which
`handleSectionImgClick` opens the 3D model are `2-1.png`, `12-1.png` and
`22-1.png`, and a click on the overlay of page 12 opens the 3D modal and
leaves the media modal closed. -/
theorem VQBook.substring_match_opens_3D :
    (VQBook.vqSectionImgMapping.flatMap Prod.snd).filter (fun p => JS.includes p "2-1.png") =
      ["/interacivefile/VQFile/sectionimg/2-1.png",
       "/interacivefile/VQFile/sectionimg/12-1.png",
       "/interacivefile/VQFile/sectionimg/22-1.png"] ∧
    (VQBook.renderedOverlays "12").map Prod.fst =
      ["/interacivefile/VQFile/sectionimg/12-1.png"] ∧
    (∀ s : VQBook.State,
      VQBook.handleSectionImgClick "/interacivefile/VQFile/sectionimg/12-1.png" "12" s =
        { s with is3DModalOpen := true }) ∧
    (VQBook.handleSectionImgClick "/interacivefile/VQFile/sectionimg/12-1.png" "12"
      (VQBook.mount 1024 none)).isModalOpen = false ∧
    (VQBook.handleSectionImgClick "/interacivefile/VQFile/sectionimg/12-1.png" "12"
      (VQBook.mount 1024 none)).selectedGif = none := by
  refine ⟨by decide, by decide, ?_, by decide, by decide⟩
  intro s
  have h : JS.includes "/interacivefile/VQFile/sectionimg/12-1.png" "2-1.png" = true := by
    decide
  simp [VQBook.handleSectionImgClick, h, VQBook.open3DModal]

/-- C11. In `Book` only the image `3-3.png` is shown as the 3D model: among the
overlay paths configured in `sectionImgMapping`, `handleSectionImgClick` opens
the 3D modal (and changes nothing else) exactly for
`/interacivefile/FrienderFile/section-img/3-3.png`; for every other configured
path it sets `selectedGif` to the path, `modalSourcePage` to
`parseInt(pageId)`, which is the number of the page, and `isModalOpen` to
true, and leaves `is3DModalOpen` and the rest of the state unchanged. -/
theorem Book.only_3_3_opens_3D (pageId imgSrc : String)
    (h : (pageId, imgSrc) ∈ Book.configuredOverlays) (s : Book.State) :
    (imgSrc = "/interacivefile/FrienderFile/section-img/3-3.png" →
      Book.handleSectionImgClick imgSrc pageId s = { s with is3DModalOpen := true }) ∧
    (imgSrc ≠ "/interacivefile/FrienderFile/section-img/3-3.png" →
      Book.handleSectionImgClick imgSrc pageId s =
        { s with
          selectedGif := some imgSrc
          modalSourcePage := JS.parseInt pageId
          isModalOpen := true } ∧
      (Book.handleSectionImgClick imgSrc pageId s).is3DModalOpen = s.is3DModalOpen ∧
      ∃ k : Int, JS.parseInt pageId = some k ∧ 2 ≤ k ∧ k ≤ 8 ∧ pageId ∈ Book.frienderData) := by
  have key : ∀ e ∈ Book.configuredOverlays,
      JS.includes e.2 "3-3.png" =
        decide (e.2 = "/interacivefile/FrienderFile/section-img/3-3.png") ∧
      ∃ k : Int, JS.parseInt e.1 = some k ∧ 2 ≤ k ∧ k ≤ 8 ∧ e.1 ∈ Book.frienderData := by
    decide
  obtain ⟨hinc, hk⟩ := key (pageId, imgSrc) h
  simp only at hinc hk
  constructor
  · intro he
    have h1 : JS.includes imgSrc "3-3.png" = true := by rw [hinc]; exact decide_eq_true he
    simp [Book.handleSectionImgClick, h1, Book.open3DModal]
  · intro hne
    have h1 : JS.includes imgSrc "3-3.png" = false := by rw [hinc]; exact decide_eq_false hne
    refine ⟨?_, ?_, hk⟩
    · simp [Book.handleSectionImgClick, h1]
    · simp [Book.handleSectionImgClick, h1]

/-- Witness of C11: the third overlay of page 3 opens the 3D modal, and the
first overlay of page 3 opens the media modal with source page 3. -/
theorem Book.only_3_3_opens_3D_witness :
    Book.handleSectionImgClick "/interacivefile/FrienderFile/section-img/3-3.png" "3"
        (Book.mount 1024 none) =
      { Book.mount 1024 none with is3DModalOpen := true } ∧
    Book.handleSectionImgClick "/interacivefile/FrienderFile/section-img/3-1.png" "3"
        (Book.mount 1024 none) =
      { Book.mount 1024 none with
        selectedGif := some "/interacivefile/FrienderFile/section-img/3-1.png"
        modalSourcePage := JS.parseInt "3"
        isModalOpen := true } ∧
    JS.parseInt "3" = some 3 :=
  ⟨(Book.only_3_3_opens_3D "3" "/interacivefile/FrienderFile/section-img/3-3.png" (by decide)
      (Book.mount 1024 none)).1 rfl,
    ((Book.only_3_3_opens_3D "3" "/interacivefile/FrienderFile/section-img/3-1.png" (by decide)
      (Book.mount 1024 none)).2 (by decide)).1,
    by decide⟩

/-- C12. Closing a modal goes to the page that opened it. For every page id the
modal can record, `closeModal` schedules (100 ms) the call
`safePageFlip(k - 1)` (0 for `k = 1`), where `k` is the recorded number; for a
page of `frienderData` the recorded number is `parseInt(page.id)`, that is
`i + 2` for `frienderData[i]`, and `k - 1` is the index `i + 1` at which that
page is displayed, the cover being at index 0; the GIF hot-spots are rendered
on `frienderData` index 2, whose id is 4, the number `handleGifClick`
records. -/
theorem Book.closeModal_returns_to_source :
    (∀ (k : Int) (s : Book.State), s.modalSourcePage = some k →
      (Book.closeModal s).timers =
        s.timers ++
          [{ id := s.nextTimerId, delay := 100,
             callback := FlipBook.TimerCallback.closeModalFlip k s.isBookReady s.currentPage }] ∧
      ∀ (bookRef : Option FlipBook.BookHandle) (now : ℚ) (t : Book.State),
        Book.runCallback
            (FlipBook.TimerCallback.closeModalFlip k s.isBookReady s.currentPage) bookRef now t =
          Book.safePageFlipIn s.isBookReady s.currentPage (if k = 1 then 0 else k - 1) t) ∧
    (∀ i : Nat, i < Book.frienderData.length →
      (Book.frienderData.get? i).bind JS.parseInt = some ((i : Int) + 2) ∧
      Book.renderedPages.get? (i + 1) = (Book.frienderData.get? i).map some ∧
      (if ((i : Int) + 2) = 1 then (0 : Int) else ((i : Int) + 2) - 1) = ((i + 1 : Nat) : Int)) ∧
    Book.renderedPages.get? 0 = some none ∧
    (∀ index : Nat, Book.rendersGifHotspots index = true →
      Book.frienderData.get? index = some "4" ∧
      ∀ (gifNumber : Nat) (s : Book.State),
        (Book.handleGifClick gifNumber s).modalSourcePage = JS.parseInt "4" ∧
        (Book.handleGifClick gifNumber s).modalSourcePage = some 4) := by
  refine ⟨?_, ?_, rfl, ?_⟩
  · intro k s hk
    refine ⟨?_, ?_⟩
    · simp [Book.closeModal, hk, Book.State.setTimeout, FlipBook.Core.setTimeout]
    · intro bookRef now t
      rfl
  · intro i hi
    have hi7 : i < 7 := hi
    interval_cases i <;> exact ⟨by decide, by decide, by decide⟩
  · intro index h
    have h2 : index = 2 := by simpa [Book.rendersGifHotspots] using h
    subst h2
    refine ⟨by decide, ?_⟩
    intro gifNumber s
    have h4 : JS.parseInt "4" = some 4 := by decide
    exact ⟨h4.symm ▸ rfl, rfl⟩

/-- Witness of C12: a click on an overlay of page 5 followed by `closeModal`
schedules the flip to index 4, where page 5 is displayed. -/
theorem Book.closeModal_returns_to_source_witness :
    (Book.handleSectionImgClick "/interacivefile/FrienderFile/section-img/5-2.png" "5"
      (Book.mount 1024 none)).modalSourcePage = some 5 ∧
    (Book.closeModal
      (Book.handleSectionImgClick "/interacivefile/FrienderFile/section-img/5-2.png" "5"
        (Book.mount 1024 none))).timers =
      (Book.handleSectionImgClick "/interacivefile/FrienderFile/section-img/5-2.png" "5"
        (Book.mount 1024 none)).timers ++
        [{ id := 3, delay := 100,
           callback := FlipBook.TimerCallback.closeModalFlip 5 false 0 }] ∧
    Book.renderedPages.get? 4 = some (some "5") ∧
    Book.frienderData.get? 2 = some "4" :=
  ⟨by decide,
    (Book.closeModal_returns_to_source.1 5
      (Book.handleSectionImgClick "/interacivefile/FrienderFile/section-img/5-2.png" "5"
        (Book.mount 1024 none)) (by decide)).1,
    by decide,
    (Book.closeModal_returns_to_source.2.2.2 2 (by decide)).1⟩

/-- C13. An overlay hot-spot opens the media modal and closing restores the
closed state: in `Book`, for every non-empty path `p` that does not contain
`3-3.png` and every page id, after `handleSectionImgClick(p, e, id)` the modal
is rendered (`isModalOpen` is true and `selectedGif` is `p`), and a following
`closeModal` sets `isModalOpen`, `selectedGif`, `modalSourcePage` to their
initial values false, null, null, while `currentPage`, `is3DModalOpen` and the
animation state are what they were before the click. -/
theorem Book.overlay_modal_opens_and_closes (p pageId : String) (s : Book.State)
    (hp : p ≠ "") (h3 : JS.includes p "3-3.png" = false) :
    (Book.handleSectionImgClick p pageId s).isModalOpen = true ∧
    (Book.handleSectionImgClick p pageId s).selectedGif = some p ∧
    Book.modalRendered (Book.handleSectionImgClick p pageId s) = true ∧
    (Book.closeModal (Book.handleSectionImgClick p pageId s)).isModalOpen = false ∧
    (Book.closeModal (Book.handleSectionImgClick p pageId s)).selectedGif = none ∧
    (Book.closeModal (Book.handleSectionImgClick p pageId s)).modalSourcePage = none ∧
    Book.modalRendered (Book.closeModal (Book.handleSectionImgClick p pageId s)) = false ∧
    (Book.closeModal (Book.handleSectionImgClick p pageId s)).isModalOpen =
      (Book.init 1024).isModalOpen ∧
    (Book.closeModal (Book.handleSectionImgClick p pageId s)).selectedGif =
      (Book.init 1024).selectedGif ∧
    (Book.closeModal (Book.handleSectionImgClick p pageId s)).modalSourcePage =
      (Book.init 1024).modalSourcePage ∧
    (Book.closeModal (Book.handleSectionImgClick p pageId s)).currentPage = s.currentPage ∧
    (Book.closeModal (Book.handleSectionImgClick p pageId s)).is3DModalOpen = s.is3DModalOpen ∧
    (Book.closeModal (Book.handleSectionImgClick p pageId s)).isMainImageAnimating =
      s.isMainImageAnimating ∧
    (Book.closeModal (Book.handleSectionImgClick p pageId s)).mainImageSize = s.mainImageSize ∧
    (Book.closeModal (Book.handleSectionImgClick p pageId s)).mainImageRotation =
      s.mainImageRotation ∧
    (Book.closeModal (Book.handleSectionImgClick p pageId s)).mainImageOpacity =
      s.mainImageOpacity ∧
    (Book.closeModal (Book.handleSectionImgClick p pageId s)).titleOpacity = s.titleOpacity ∧
    (Book.closeModal (Book.handleSectionImgClick p pageId s)).subtitleOpacity =
      s.subtitleOpacity ∧
    (Book.closeModal (Book.handleSectionImgClick p pageId s)).backgroundScale =
      s.backgroundScale ∧
    (Book.closeModal (Book.handleSectionImgClick p pageId s)).backgroundBlur =
      s.backgroundBlur ∧
    (Book.closeModal (Book.handleSectionImgClick p pageId s)).frames = s.frames ∧
    (Book.closeModal (Book.handleSectionImgClick p pageId s)).animationRef = s.animationRef := by
  have e1 : Book.handleSectionImgClick p pageId s =
      { s with selectedGif := some p, modalSourcePage := JS.parseInt pageId,
               isModalOpen := true } := by
    simp [Book.handleSectionImgClick, h3]
  rw [e1]
  have e2 : ∀ t : Book.State,
      (Book.closeModal t).isModalOpen = false ∧ (Book.closeModal t).selectedGif = none ∧
      (Book.closeModal t).modalSourcePage = none ∧
      (Book.closeModal t).currentPage = t.currentPage ∧
      (Book.closeModal t).is3DModalOpen = t.is3DModalOpen ∧
      (Book.closeModal t).isMainImageAnimating = t.isMainImageAnimating ∧
      (Book.closeModal t).mainImageSize = t.mainImageSize ∧
      (Book.closeModal t).mainImageRotation = t.mainImageRotation ∧
      (Book.closeModal t).mainImageOpacity = t.mainImageOpacity ∧
      (Book.closeModal t).titleOpacity = t.titleOpacity ∧
      (Book.closeModal t).subtitleOpacity = t.subtitleOpacity ∧
      (Book.closeModal t).backgroundScale = t.backgroundScale ∧
      (Book.closeModal t).backgroundBlur = t.backgroundBlur ∧
      (Book.closeModal t).frames = t.frames ∧
      (Book.closeModal t).animationRef = t.animationRef := by
    intro t
    unfold Book.closeModal
    cases t.modalSourcePage <;>
      exact ⟨rfl, rfl, rfl, rfl, rfl, rfl, rfl, rfl, rfl, rfl, rfl, rfl, rfl, rfl, rfl⟩
  obtain ⟨c1, c2, c3, c4, c5, c6, c7, c8, c9, c10, c11, c12, c13, c14, c15⟩ :=
    e2 { s with selectedGif := some p, modalSourcePage := JS.parseInt pageId,
                isModalOpen := true }
  refine ⟨rfl, rfl, ?_, c1, c2, c3, ?_, c1, c2, c3, c4, c5, c6, c7, c8, c9, c10, c11, c12, c13,
    c14, c15⟩
  · simp [Book.modalRendered, hp]
  · simp [Book.modalRendered, c1]

/-- Witness of C13: the first overlay of page 2, clicked on the mounted book;
every configured overlay path is non-empty. -/
theorem Book.overlay_modal_opens_and_closes_witness :
    (∀ e ∈ Book.configuredOverlays, e.2 ≠ "") ∧
    Book.modalRendered
      (Book.handleSectionImgClick "/interacivefile/FrienderFile/section-img/2-1.png" "2"
        (Book.mount 1024 none)) = true ∧
    (Book.closeModal
      (Book.handleSectionImgClick "/interacivefile/FrienderFile/section-img/2-1.png" "2"
        (Book.mount 1024 none))).modalSourcePage = none :=
  ⟨by decide,
    (Book.overlay_modal_opens_and_closes "/interacivefile/FrienderFile/section-img/2-1.png" "2"
      (Book.mount 1024 none) (by decide) (by decide)).2.2.1,
    (Book.overlay_modal_opens_and_closes "/interacivefile/FrienderFile/section-img/2-1.png" "2"
      (Book.mount 1024 none) (by decide) (by decide)).2.2.2.2.2.1⟩

theorem Book.handlePageChange_other_page (newPage : Int) (s : Book.State)
    (h : newPage ≠ s.currentPage) :
    (Book.handlePageChange newPage s).currentPage = newPage ∧
    (Book.handlePageChange newPage s).isFlippingRef = false ∧
    (Book.handlePageChange newPage s).isFlipping = false := by
  unfold Book.handlePageChange
  simp only [h, ↓reduceIte]
  split
  · exact ⟨rfl, rfl, rfl⟩
  · rw [Book.cancelAnimationIfTruthy_toCore]
    exact ⟨rfl, rfl, rfl⟩

/-- C17. The handler `handlePageChange` of `Book` does not update when the
reported page is the current page: for `e.data = currentPage` the whole state
(refs, timers and frames included) is unchanged, so the flipping flags are not
reset; for `e.data ≠ currentPage` it sets `currentPage` to `e.data` and
`isFlippingRef` and `isFlipping` to false. -/
theorem Book.handlePageChange_same_page (newPage : Int) (s : Book.State) :
    (newPage = s.currentPage → Book.handlePageChange newPage s = s) ∧
    (newPage ≠ s.currentPage →
      (Book.handlePageChange newPage s).currentPage = newPage ∧
      (Book.handlePageChange newPage s).isFlippingRef = false ∧
      (Book.handlePageChange newPage s).isFlipping = false) := by
  constructor
  · intro h
    simp [Book.handlePageChange, h]
  · exact Book.handlePageChange_other_page newPage s

/-- Witness of C17: on the state with a pending flip (page 0, both flags set) a
report of page 0 changes nothing, and a report of page 3 moves to page 3 and
resets the flags. -/
theorem Book.handlePageChange_same_page_witness :
    Book.handlePageChange 0 Book.flipPending = Book.flipPending ∧
    Book.flipPending.isFlippingRef = true ∧
    (Book.handlePageChange 3 Book.flipPending).currentPage = 3 ∧
    (Book.handlePageChange 3 Book.flipPending).isFlippingRef = false ∧
    (Book.handlePageChange 3 Book.flipPending).isFlipping = false :=
  ⟨(Book.handlePageChange_same_page 0 Book.flipPending).1 (by decide),
    by decide,
    (Book.handlePageChange_same_page 3 Book.flipPending).2 (by decide)⟩

/-- C18. Leaving the cover restores the cover's initial animation state: for
every page change to a page `n ≠ 0` other than the current page,
`handlePageChange` leaves `isMainImageAnimating`, `mainImageSize`,
`mainImageRotation`, `mainImageOpacity`, `titleOpacity`, `subtitleOpacity`,
`backgroundScale`, `backgroundBlur` at false, 1, 0, 0, 0, 0, 1.2, 0, the values
of the first render, whatever the state before. -/
theorem Book.leaving_cover_resets_animation (n : Int) (s : Book.State)
    (h0 : n ≠ 0) (hc : n ≠ s.currentPage) :
    (Book.handlePageChange n s).isMainImageAnimating = false ∧
    (Book.handlePageChange n s).mainImageSize = 1 ∧
    (Book.handlePageChange n s).mainImageRotation = 0 ∧
    (Book.handlePageChange n s).mainImageOpacity = 0 ∧
    (Book.handlePageChange n s).titleOpacity = 0 ∧
    (Book.handlePageChange n s).subtitleOpacity = 0 ∧
    (Book.handlePageChange n s).backgroundScale = JS.num (6 / 5) ∧
    (Book.handlePageChange n s).backgroundBlur = 0 ∧
    (∀ innerWidth : Nat,
      (Book.handlePageChange n s).isMainImageAnimating =
        (Book.init innerWidth).isMainImageAnimating ∧
      (Book.handlePageChange n s).mainImageSize = (Book.init innerWidth).mainImageSize ∧
      (Book.handlePageChange n s).mainImageRotation = (Book.init innerWidth).mainImageRotation ∧
      (Book.handlePageChange n s).mainImageOpacity = (Book.init innerWidth).mainImageOpacity ∧
      (Book.handlePageChange n s).titleOpacity = (Book.init innerWidth).titleOpacity ∧
      (Book.handlePageChange n s).subtitleOpacity = (Book.init innerWidth).subtitleOpacity ∧
      (Book.handlePageChange n s).backgroundScale = (Book.init innerWidth).backgroundScale ∧
      (Book.handlePageChange n s).backgroundBlur = (Book.init innerWidth).backgroundBlur) := by
  have key : ∀ t : Book.State,
      t.cancelAnimationIfTruthy.isMainImageAnimating = t.isMainImageAnimating ∧
      t.cancelAnimationIfTruthy.mainImageSize = t.mainImageSize ∧
      t.cancelAnimationIfTruthy.mainImageRotation = t.mainImageRotation ∧
      t.cancelAnimationIfTruthy.mainImageOpacity = t.mainImageOpacity ∧
      t.cancelAnimationIfTruthy.titleOpacity = t.titleOpacity ∧
      t.cancelAnimationIfTruthy.subtitleOpacity = t.subtitleOpacity ∧
      t.cancelAnimationIfTruthy.backgroundScale = t.backgroundScale ∧
      t.cancelAnimationIfTruthy.backgroundBlur = t.backgroundBlur := by
    intro t
    unfold Book.State.cancelAnimationIfTruthy
    split
    · split <;> exact ⟨rfl, rfl, rfl, rfl, rfl, rfl, rfl, rfl⟩
    · exact ⟨rfl, rfl, rfl, rfl, rfl, rfl, rfl, rfl⟩
  have main : (Book.handlePageChange n s).isMainImageAnimating = false ∧
      (Book.handlePageChange n s).mainImageSize = 1 ∧
      (Book.handlePageChange n s).mainImageRotation = 0 ∧
      (Book.handlePageChange n s).mainImageOpacity = 0 ∧
      (Book.handlePageChange n s).titleOpacity = 0 ∧
      (Book.handlePageChange n s).subtitleOpacity = 0 ∧
      (Book.handlePageChange n s).backgroundScale = JS.num (6 / 5) ∧
      (Book.handlePageChange n s).backgroundBlur = 0 := by
    unfold Book.handlePageChange
    simp only [hc, h0, ↓reduceIte]
    obtain ⟨k1, k2, k3, k4, k5, k6, k7, k8⟩ := key
      { s with
        currentPage := n, isFlippingRef := false, isFlipping := false,
        isMainImageAnimating := false, mainImageSize := 1, mainImageRotation := 0,
        mainImageOpacity := 0, titleOpacity := 0, subtitleOpacity := 0,
        backgroundScale := JS.num (6 / 5), backgroundBlur := 0 }
    exact ⟨k1, k2, k3, k4, k5, k6, k7, k8⟩
  obtain ⟨m1, m2, m3, m4, m5, m6, m7, m8⟩ := main
  refine ⟨m1, m2, m3, m4, m5, m6, m7, m8, ?_⟩
  intro innerWidth
  exact ⟨m1, m2, m3, m4, m5, m6, m7, m8⟩

/-- Witness of C18: a change to page 1 in the middle of the cover animation. -/
theorem Book.leaving_cover_resets_animation_witness :
    Book.midAnimation.mainImageSize = 35 ∧
    (Book.handlePageChange 1 Book.midAnimation).isMainImageAnimating = false ∧
    (Book.handlePageChange 1 Book.midAnimation).mainImageSize = 1 ∧
    (Book.handlePageChange 1 Book.midAnimation).mainImageRotation = 0 ∧
    (Book.handlePageChange 1 Book.midAnimation).mainImageOpacity = 0 ∧
    (Book.handlePageChange 1 Book.midAnimation).titleOpacity = 0 ∧
    (Book.handlePageChange 1 Book.midAnimation).subtitleOpacity = 0 ∧
    (Book.handlePageChange 1 Book.midAnimation).backgroundScale = JS.num (6 / 5) ∧
    (Book.handlePageChange 1 Book.midAnimation).backgroundBlur = 0 :=
  ⟨rfl,
    (Book.leaving_cover_resets_animation 1 Book.midAnimation (by decide) (by decide)).1,
    (Book.leaving_cover_resets_animation 1 Book.midAnimation (by decide) (by decide)).2.1,
    (Book.leaving_cover_resets_animation 1 Book.midAnimation (by decide) (by decide)).2.2.1,
    (Book.leaving_cover_resets_animation 1 Book.midAnimation (by decide) (by decide)).2.2.2.1,
    (Book.leaving_cover_resets_animation 1 Book.midAnimation (by decide) (by decide)).2.2.2.2.1,
    (Book.leaving_cover_resets_animation 1 Book.midAnimation (by decide)
      (by decide)).2.2.2.2.2.1,
    (Book.leaving_cover_resets_animation 1 Book.midAnimation (by decide)
      (by decide)).2.2.2.2.2.2.1,
    (Book.leaving_cover_resets_animation 1 Book.midAnimation (by decide)
      (by decide)).2.2.2.2.2.2.2.1⟩

/-- C15 (counterexample). At a window width of exactly 576 px `isMobile` is
false, at mount and after a resize, and `getPageGroups` returns the structure
with two pages per group. -/
theorem Book.width_576_is_not_mobile :
    (Book.init 576).isMobile = false ∧
    (Book.handleResize 576 (Book.mount 320 none)).isMobile = false ∧
    (Book.getPageGroups (Book.init 576).isMobile).map (fun g => g.pages) =
      [[0], [1, 2], [3, 4], [5, 6], [7]] := by
  decide

/-- C15 (amended). The layout breakpoint is 576 px with the boundary on the
desktop side: `isMobile` is true exactly when `window.innerWidth < 576`, at
mount and after every `handleResize`; for `isMobile` true `getPageGroups`
returns the one-page-per-group structure, and otherwise (every width of 576 px
or more, as the second comment on `getPageGroups` says) the
two-pages-per-group structure. -/
theorem Book.isMobile_iff_below_576 (innerWidth : Nat) (s : Book.State) :
    ((Book.init innerWidth).isMobile = true ↔ innerWidth < 576) ∧
    ((Book.mount innerWidth none).isMobile = true ↔ innerWidth < 576) ∧
    ((Book.handleResize innerWidth s).isMobile = true ↔ innerWidth < 576) ∧
    (Book.getPageGroups true).map (fun g => g.pages) =
      [[0], [1], [2], [3], [4], [5], [6], [7]] ∧
    (Book.getPageGroups false).map (fun g => g.pages) =
      [[0], [1, 2], [3, 4], [5, 6], [7]] := by
  refine ⟨?_, ?_, ?_, by decide, by decide⟩
  · simp [Book.init]
  · simp [Book.mount, Book.init, Book.handleReady, Book.State.setTimeout]
  · unfold Book.handleResize
    simp only
    split
    · simp [Book.State.setTimeout]
    · rename_i h
      simp only [bne_iff_ne, ne_eq, not_not] at h
      rw [h]
      simp

/-! ## Book: waiting for the widget after the flip timer -/

namespace FlipBook

theorem Core.Awaiting.of_fields {page : Int} {calls : List WidgetCall} {c d : Core}
    (h : c.Awaiting page calls) (h1 : d.isFlippingRef = c.isFlippingRef)
    (h2 : d.currentPage = c.currentPage) (h3 : d.widgetCalls = c.widgetCalls)
    (h4 : d.timers = c.timers) : d.Awaiting page calls := by
  unfold Core.Awaiting at *
  rw [h1, h2, h3, h4]
  exact h

theorem Core.Awaiting.after_setTimeout {page : Int} {calls : List WidgetCall} {c : Core}
    (h : c.Awaiting page calls) (callback : TimerCallback) (delay : Nat)
    (hc : ∀ p, callback ≠ TimerCallback.flip p) :
    (c.setTimeout callback delay).Awaiting page calls := by
  obtain ⟨h1, h2, h3, h4⟩ := h
  refine ⟨h1, h2, h3, ?_⟩
  intro t ht
  simp only [Core.setTimeout, List.mem_append, List.mem_singleton] at ht
  rcases ht with ht | rfl
  · exact h4 t ht
  · cases callback <;> simp [Timer.isFlip]
    exact hc _ rfl

theorem Core.Awaiting.after_clearTimeout {page : Int} {calls : List WidgetCall} {c : Core}
    (h : c.Awaiting page calls) (id : Nat) : (c.clearTimeout id).Awaiting page calls := by
  obtain ⟨h1, h2, h3, h4⟩ := h
  exact ⟨h1, h2, h3, fun t ht => h4 t (List.mem_of_mem_filter ht)⟩

theorem Core.safePageFlipIn_of_flipping {c : Core} (h : c.isFlippingRef = true)
    (isBookReady : Bool) (currentPage targetPage : Int) :
    c.safePageFlipIn isBookReady currentPage targetPage = c := by
  unfold Core.safePageFlipIn
  simp [h]

theorem PageFlipApi.flipTimerTry_firstAvailable (api : PageFlipApi) (fl gp : Option Outcome)
    (m : WidgetMethod) (o : Outcome) (targetPage : Int) (c : Core)
    (h : api.firstAvailable = some (m, o)) :
    c.flipTimerTry { pageFlip := some (PageFlipCall.returnsApi api), flip := fl, goToPage := gp }
        targetPage =
      c.callMethod m o targetPage := by
  rcases api with ⟨a1, a2, a3, a4, a5⟩
  unfold PageFlipApi.firstAvailable at h
  unfold Core.flipTimerTry
  cases a1 with
  | some x => simp at h; obtain ⟨rfl, rfl⟩ := h; rfl
  | none =>
  cases a2 with
  | some x => simp at h; obtain ⟨rfl, rfl⟩ := h; rfl
  | none =>
  cases a3 with
  | some x => simp at h; obtain ⟨rfl, rfl⟩ := h; rfl
  | none =>
  cases a4 with
  | some x => simp at h; obtain ⟨rfl, rfl⟩ := h; rfl
  | none =>
  cases a5 with
  | some x => simp at h; obtain ⟨rfl, rfl⟩ := h; rfl
  | none => simp at h

theorem Timer.find_of_mem (l : List Timer) (t : Timer) (hn : (l.map Timer.id).Nodup)
    (ht : t ∈ l) : l.find? (fun x => x.id == t.id) = some t := by
  induction l with
  | nil => cases ht
  | cons a rest ih =>
    simp only [List.map_cons, List.nodup_cons] at hn
    rcases List.mem_cons.1 ht with rfl | hr
    · simp
    · have hne : a.id ≠ t.id := by
        intro e
        exact hn.1 (e ▸ List.mem_map_of_mem Timer.id hr)
      simp [List.find?_cons, hne, ih hn.2 hr]

end FlipBook

namespace Book

open FlipBook

theorem safePageFlipIn_awaiting {page : Int} {calls : List WidgetCall} {s : State}
    (h : s.toCore.Awaiting page calls) (isBookReady : Bool) (currentPage targetPage : Int) :
    (safePageFlipIn isBookReady currentPage targetPage s).toCore.Awaiting page calls := by
  unfold safePageFlipIn
  simp only
  rw [Core.safePageFlipIn_of_flipping h.1]
  exact h

theorem safePageFlip_awaiting {page : Int} {calls : List WidgetCall} {s : State}
    (h : s.toCore.Awaiting page calls) (targetPage : Int) :
    (safePageFlip targetPage s).toCore.Awaiting page calls := by
  unfold safePageFlip Core.safePageFlip
  simp only
  rw [Core.safePageFlipIn_of_flipping h.1]
  exact h

theorem runCallback_awaiting {page : Int} {calls : List WidgetCall} {s : State}
    (h : s.toCore.Awaiting page calls) (callback : TimerCallback)
    (hc : ∀ p, callback ≠ TimerCallback.flip p) (bookRef : Option BookHandle) (now : ℚ) :
    (runCallback callback bookRef now s).toCore.Awaiting page calls := by
  cases callback with
  | checkBookReady =>
    simp only [runCallback, checkBookReadyTick]
    split
    · exact h
    · split
      · split
        · exact Core.Awaiting.after_clearTimeout (h.of_fields rfl rfl rfl rfl) _
        · exact h.of_fields rfl rfl rfl rfl
      · exact h
  | mountTimer => exact Core.Awaiting.after_setTimeout h _ _ (by intro p hp; cases hp)
  | animationTimer => exact h.of_fields rfl rfl rfl rfl
  | resizeCheck isMobile currentPage isBookReady =>
    simp only [runCallback]
    split
    · exact safePageFlipIn_awaiting h _ _ _
    · exact h
  | closeModalFlip modalSourcePage isBookReady currentPage =>
    exact safePageFlipIn_awaiting h _ _ _
  | coverDelay => exact Core.Awaiting.after_setTimeout h _ _ (by intro p hp; cases hp)
  | coverAnimation => exact h.of_fields rfl rfl rfl rfl
  | flip targetPage => exact absurd rfl (hc targetPage)

theorem fireTimer_awaiting {page : Int} {calls : List WidgetCall} {s : State}
    (h : s.toCore.Awaiting page calls) (id : Nat) (bookRef : Option BookHandle) (now : ℚ) :
    (fireTimer id bookRef now s).toCore.Awaiting page calls := by
  unfold fireTimer
  split
  · rename_i t ht
    have hmem : t ∈ s.timers := List.mem_of_find?_eq_some ht
    have hnf : ∀ p, t.callback ≠ TimerCallback.flip p := by
      intro p hp
      have := h.2.2.2 t hmem
      simp [Timer.isFlip, hp] at this
    simp only
    apply runCallback_awaiting _ _ hnf
    split
    · exact h
    · exact Core.Awaiting.after_clearTimeout h _
  · exact h

theorem step_awaiting {page : Int} {calls : List WidgetCall} {s : State}
    (h : s.toCore.Awaiting page calls) (e : Event) (he : e.keepsWaiting page = true) :
    (step s e).toCore.Awaiting page calls := by
  cases e with
  | fireTimer id bookRef now => exact fireTimer_awaiting h id bookRef now
  | runFrame id currentTime =>
    simp only [step, runFrame]
    split
    · rw [animate_toCore]; exact h
    · exact h
  | safePageFlip targetPage =>
    simp only [step]; split
    · exact h
    · exact safePageFlip_awaiting h _
  | handlePageChange newPage =>
    have hp : newPage = s.currentPage := by
      have : newPage = page := by simpa [Event.keepsWaiting] using he
      rw [this, h.2.1]
    simp only [step]; split
    · exact h
    · simp [handlePageChange, hp]; exact h
  | handleResize innerWidth =>
    simp only [step]; split
    · exact h
    · unfold handleResize
      simp only
      split
      · exact Core.Awaiting.after_setTimeout (h.of_fields rfl rfl rfl rfl) _ _ (by intro p hp; cases hp)
      · exact h
  | handleKeyDown key =>
    simp only [step]; split
    · exact h
    · unfold handleKeyDown
      split_ifs
      · exact safePageFlip_awaiting h _
      · exact h
      · exact safePageFlip_awaiting h _
      · exact h
      · exact h
  | goToGroup groupId =>
    simp only [step]; split
    · exact h
    · unfold goToGroup
      split
      · split
        · exact safePageFlip_awaiting h _
        · exact h
      · exact h
  | goToPreviousPage =>
    simp only [step, goToPreviousPage]; split_ifs
    · exact h
    · exact safePageFlip_awaiting h _
    · exact h
  | goToNextPage =>
    simp only [step, goToNextPage]; split_ifs
    · exact h
    · exact safePageFlip_awaiting h _
    · exact h
  | handleGifClick gifNumber =>
    simp only [step]; split
    · exact h
    · exact h.of_fields rfl rfl rfl rfl
  | handleSectionImgClick imgSrc pageId =>
    simp only [step]; split
    · exact h
    · unfold handleSectionImgClick
      split <;> exact h
  | closeModal =>
    simp only [step]; split
    · exact h
    · unfold closeModal
      simp only
      split
      · exact Core.Awaiting.after_setTimeout (h.of_fields rfl rfl rfl rfl) _ _ (by intro p hp; cases hp)
      · exact h.of_fields rfl rfl rfl rfl
  | close3DModal =>
    simp only [step]; split
    · exact h
    · exact h
  | unmount => simp [Event.keepsWaiting] at he

theorem run_awaiting {page : Int} {calls : List WidgetCall} (events : List Event) {s : State}
    (h : s.toCore.Awaiting page calls) (he : ∀ e ∈ events, e.keepsWaiting page = true) :
    (run s events).toCore.Awaiting page calls := by
  induction events generalizing s with
  | nil => exact h
  | cons e rest ih =>
    exact ih (step_awaiting h e (he e (List.mem_cons_self _ _)))
      (fun x hx => he x (List.mem_cons_of_mem _ hx))

end Book

theorem Book.fireTimer_flip_eq (s : Book.State) (hs : Book.Reachable s) (id : Nat)
    (targetPage : Int) (bookRef : Option FlipBook.BookHandle) (now : ℚ)
    (ht : ({ id := id, delay := 300, callback := FlipBook.TimerCallback.flip targetPage } :
      FlipBook.Timer) ∈ s.timers) :
    Book.fireTimer id bookRef now s =
      { s with
        toCore :=
          FlipBook.settle ((s.toCore.clearTimeout id).flipTimerCallback bookRef targetPage) } ∧
    ∀ t ∈ (s.toCore.clearTimeout id).timers, t.isFlip = false := by
  have hi := Book.reachable_inv hs
  have hf := FlipBook.Timer.find_of_mem s.timers _ hi.2.2.2 ht
  constructor
  · unfold Book.fireTimer
    simp only at hf
    rw [hf]
    rfl
  · intro t htm
    simp only [FlipBook.Core.clearTimeout, List.mem_filter, bne_iff_ne, ne_eq] at htm
    cases hfl : t.isFlip with
    | false => rfl
    | true =>
      exfalso
      have h1 := hi.2.2.1 t htm.1 hfl
      have h2 := hi.2.2.1 _ ht rfl
      rw [h1] at h2
      exact htm.2 (Option.some.inj h2)

/-- C16. When the flip timer of `Book.safePageFlip(targetPage)` fires with a book
handle whose `pageFlip()` object exposes at least one transition method,
exactly one widget method is called, once, with argument `targetPage`: the
first available in the order `flip`, `flipToPage`, `goToPage`, `turnToPage`,
`setPage`. If it returns normally, only the timer queue and the call record
change, so `currentPage` is unchanged; and if `isFlippingRef` was true it stays
true, with `currentPage` and the call record unchanged, through every history
of events without an unmount and without a report by `handlePageChange` of
another page, and the first such report resets it and sets `currentPage`. -/
theorem Book.flipTimer_calls_first_method (s : Book.State) (hs : Book.Reachable s) (id : Nat)
    (targetPage : Int) (api : FlipBook.PageFlipApi) (fl gp : Option FlipBook.Outcome)
    (m : FlipBook.WidgetMethod) (o : FlipBook.Outcome) (now : ℚ)
    (ht : ({ id := id, delay := 300, callback := FlipBook.TimerCallback.flip targetPage } :
      FlipBook.Timer) ∈ s.timers)
    (hm : api.firstAvailable = some (m, o)) :
    (Book.fireTimer id
        (some { pageFlip := some (FlipBook.PageFlipCall.returnsApi api), flip := fl,
                goToPage := gp }) now s).widgetCalls =
      s.widgetCalls ++ [{ method := m, arg := targetPage }] ∧
    (o = FlipBook.Outcome.returns →
      Book.fireTimer id
          (some { pageFlip := some (FlipBook.PageFlipCall.returnsApi api), flip := fl,
                  goToPage := gp }) now s =
        { s with
          timers := s.timers.filter (fun t => t.id != id)
          widgetCalls := s.widgetCalls ++ [{ method := m, arg := targetPage }] } ∧
      (s.isFlippingRef = true →
        ∀ events : List Book.Event,
          (∀ e ∈ events, e.keepsWaiting s.currentPage = true) →
          (Book.run (Book.fireTimer id
              (some { pageFlip := some (FlipBook.PageFlipCall.returnsApi api), flip := fl,
                      goToPage := gp }) now s) events).isFlippingRef = true ∧
          (Book.run (Book.fireTimer id
              (some { pageFlip := some (FlipBook.PageFlipCall.returnsApi api), flip := fl,
                      goToPage := gp }) now s) events).currentPage = s.currentPage ∧
          (Book.run (Book.fireTimer id
              (some { pageFlip := some (FlipBook.PageFlipCall.returnsApi api), flip := fl,
                      goToPage := gp }) now s) events).widgetCalls =
            s.widgetCalls ++ [{ method := m, arg := targetPage }] ∧
          ∀ newPage : Int, newPage ≠ s.currentPage →
            (Book.handlePageChange newPage (Book.run (Book.fireTimer id
              (some { pageFlip := some (FlipBook.PageFlipCall.returnsApi api), flip := fl,
                      goToPage := gp }) now s) events)).isFlippingRef = false ∧
            (Book.handlePageChange newPage (Book.run (Book.fireTimer id
              (some { pageFlip := some (FlipBook.PageFlipCall.returnsApi api), flip := fl,
                      goToPage := gp }) now s) events)).currentPage = newPage)) := by
  obtain ⟨hfire, hnoflip⟩ := Book.fireTimer_flip_eq s hs id targetPage
    (some { pageFlip := some (FlipBook.PageFlipCall.returnsApi api), flip := fl, goToPage := gp })
    now ht
  have htry := FlipBook.PageFlipApi.flipTimerTry_firstAvailable api fl gp m o targetPage
    (s.toCore.clearTimeout id) hm
  have hcb : FlipBook.settle ((s.toCore.clearTimeout id).flipTimerCallback
      (some { pageFlip := some (FlipBook.PageFlipCall.returnsApi api), flip := fl,
              goToPage := gp }) targetPage) =
      (match o with
        | FlipBook.Outcome.returns =>
          { s.toCore.clearTimeout id with
            widgetCalls := s.widgetCalls ++ [{ method := m, arg := targetPage }] }
        | FlipBook.Outcome.throws =>
          FlipBook.Core.directUpdate targetPage
            { s.toCore.clearTimeout id with
              widgetCalls := s.widgetCalls ++ [{ method := m, arg := targetPage }] }) := by
    unfold FlipBook.Core.flipTimerCallback
    simp only [htry]
    cases o <;> rfl
  rw [hfire, hcb]
  refine ⟨?_, ?_⟩
  · cases o <;> rfl
  · intro ho
    subst ho
    refine ⟨rfl, ?_⟩
    intro hflag events hev
    have haw : FlipBook.Core.Awaiting s.currentPage
        (s.widgetCalls ++ [{ method := m, arg := targetPage }])
        ({ s with toCore :=
            { s.toCore.clearTimeout id with
              widgetCalls := s.widgetCalls ++ [{ method := m, arg := targetPage }] } } :
          Book.State).toCore :=
      ⟨hflag, rfl, rfl, hnoflip⟩
    have hrun := Book.run_awaiting events haw hev
    refine ⟨hrun.1, hrun.2.1, hrun.2.2.1, ?_⟩
    intro newPage hne
    have hne2 : newPage ≠ (Book.run ({ s with toCore :=
        { s.toCore.clearTimeout id with
          widgetCalls := s.widgetCalls ++ [{ method := m, arg := targetPage }] } } :
        Book.State) events).currentPage := by
      rw [hrun.2.1]; exact hne
    have h17 := Book.handlePageChange_other_page newPage _ hne2
    exact ⟨h17.2.1, h17.1⟩

/-- Witness of C16: on the state with a pending flip to page 3 (handle 2), with a
widget that has no `flip` but `flipToPage` and `setPage`, the timer calls
`flipToPage(3)` only; the book stays at page 0 with `isFlippingRef` true
through key presses, a resize, a modal opened and closed, and a report of page
0; a report of page 3 then resets the flag. -/
theorem Book.flipTimer_calls_first_method_witness :
    Book.flipPending.isFlippingRef = true ∧
    (Book.fireTimer 2 (some FlipBook.secondMethodHandle) 300 Book.flipPending).widgetCalls =
      [{ method := FlipBook.WidgetMethod.pageFlip_flipToPage, arg := 3 }] ∧
    (Book.run (Book.fireTimer 2 (some FlipBook.secondMethodHandle) 300 Book.flipPending)
      Book.waitingHistory).isFlippingRef = true ∧
    (Book.run (Book.fireTimer 2 (some FlipBook.secondMethodHandle) 300 Book.flipPending)
      Book.waitingHistory).currentPage = 0 ∧
    (Book.handlePageChange 3
      (Book.run (Book.fireTimer 2 (some FlipBook.secondMethodHandle) 300 Book.flipPending)
        Book.waitingHistory)).isFlippingRef = false := by
  have h := Book.flipTimer_calls_first_method Book.flipPending
    (Book.Reachable.step _ (Book.Event.safePageFlip 3)
      (Book.Reachable.mount 1024 (some FlipBook.workingHandle)))
    2 3
    { flip := none, flipToPage := some FlipBook.Outcome.returns, goToPage := none,
      turnToPage := none, setPage := some FlipBook.Outcome.returns }
    none none FlipBook.WidgetMethod.pageFlip_flipToPage FlipBook.Outcome.returns 300
    (by decide) (by decide)
  have hw := (h.2 rfl).2 (by decide) Book.waitingHistory (by decide)
  exact ⟨by decide, h.1, hw.1, hw.2.1, (hw.2.2.2 3 (by decide)).1⟩

/-! ## Double-precision values -/

theorem JS.num_7_10 : JS.num (7 / 10) = 3152519739159347 / 2 ^ 52 := by
  decide!

theorem JS.num_3_10 : JS.num (3 / 10) = 5404319552844595 / 2 ^ 54 := by
  decide!

theorem JS.num_8_10 : JS.num (8 / 10) = 3602879701896397 / 2 ^ 52 := by
  decide!

theorem JS.num_2_10 : JS.num (2 / 10) = 3602879701896397 / 2 ^ 54 := by
  decide!

theorem JS.num_4_10 : JS.num (4 / 10) = 3602879701896397 / 2 ^ 53 := by
  decide!

theorem JS.text_progress_at_one :
    JS.div (JS.sub 1 (JS.num (7 / 10))) (JS.num (3 / 10)) = 1 + 1 / 2 ^ 52 := by
  have h1 : JS.sub 1 (3152519739159347 / 2 ^ 52) = 5404319552844596 / 2 ^ 54 := by decide!
  have h2 : JS.div (5404319552844596 / 2 ^ 54) (5404319552844595 / 2 ^ 54) = 1 + 1 / 2 ^ 52 := by
    decide!
  rw [JS.num_7_10, JS.num_3_10, h1, h2]

theorem Book.frameWrites_at_one (s : Book.State) :
    Book.frameWrites 1 s =
      { s with
        mainImageSize := 70
        mainImageOpacity := 1
        mainImageRotation := 0
        titleOpacity := 1 + 1 / 2 ^ 52
        subtitleOpacity := 1 + 1 / 2 ^ 52 } := by
  have h3 : ¬ (1 : ℚ) ≤ JS.num (3 / 10) := by rw [JS.num_3_10]; norm_num
  have h5 : ¬ (1 : ℚ) ≤ 1 / 2 := by norm_num
  have h8 : ¬ (1 : ℚ) ≤ JS.num (8 / 10) := by rw [JS.num_8_10]; norm_num
  have h8b : (1 : ℚ) ≥ JS.num (8 / 10) := by rw [JS.num_8_10]; norm_num
  have h7 : (1 : ℚ) ≥ JS.num (7 / 10) := by rw [JS.num_7_10]; norm_num
  unfold Book.frameWrites Book.backgroundStage Book.appearStage Book.sizeStage Book.finalStage
    Book.textStage Book.endStage
  simp only [h3, h5, h8, h8b, h7, and_false, false_and, ↓reduceIte, le_refl, ge_iff_le,
    and_self, JS.text_progress_at_one]

theorem Book.progress_eq_one (startTime duration currentTime : ℚ) (hd : 0 < duration)
    (he : duration ≤ JS.sub currentTime startTime) :
    Book.progress startTime duration currentTime = 1 := by
  unfold Book.progress
  simp only
  exact min_eq_right (JS.div_ge_one _ _ hd he)

theorem Book.animate_writes (startTime duration currentTime : ℚ) (s : Book.State) :
    (Book.animate startTime duration currentTime s).mainImageSize =
      (Book.frameWrites (Book.progress startTime duration currentTime) s).mainImageSize ∧
    (Book.animate startTime duration currentTime s).mainImageOpacity =
      (Book.frameWrites (Book.progress startTime duration currentTime) s).mainImageOpacity ∧
    (Book.animate startTime duration currentTime s).mainImageRotation =
      (Book.frameWrites (Book.progress startTime duration currentTime) s).mainImageRotation := by
  unfold Book.animate
  simp only
  split <;> exact ⟨rfl, rfl, rfl⟩

theorem JS.sub_zero_3000 : JS.sub 3000 0 = 3000 := by
  decide!

theorem Book.frameWrites_from_80 (progress : ℚ) (s : Book.State)
    (h : JS.num (8 / 10) ≤ progress) :
    (Book.frameWrites progress s).mainImageSize = 70 ∧
    (Book.frameWrites progress s).mainImageOpacity = 1 ∧
    (Book.frameWrites progress s).mainImageRotation = 0 := by
  have hf : ∀ t : Book.State, (Book.finalStage progress t).mainImageSize = 70 ∧
      (Book.finalStage progress t).mainImageOpacity = 1 ∧
      (Book.finalStage progress t).mainImageRotation = 0 := by
    intro t
    unfold Book.finalStage
    rw [if_pos h]
    exact ⟨rfl, rfl, rfl⟩
  have ht : ∀ t : Book.State, (Book.textStage progress t).mainImageSize = t.mainImageSize ∧
      (Book.textStage progress t).mainImageOpacity = t.mainImageOpacity ∧
      (Book.textStage progress t).mainImageRotation = t.mainImageRotation := by
    intro t
    unfold Book.textStage
    split <;> exact ⟨rfl, rfl, rfl⟩
  have he : ∀ t : Book.State, t.mainImageRotation = 0 →
      (Book.endStage progress t).mainImageSize = t.mainImageSize ∧
      (Book.endStage progress t).mainImageOpacity = t.mainImageOpacity ∧
      (Book.endStage progress t).mainImageRotation = 0 := by
    intro t h0
    unfold Book.endStage
    split
    · exact ⟨rfl, rfl, rfl⟩
    · exact ⟨rfl, rfl, h0⟩
  unfold Book.frameWrites
  obtain ⟨f1, f2, f3⟩ := hf (Book.sizeStage progress (Book.appearStage progress
    (Book.backgroundStage progress s)))
  obtain ⟨t1, t2, t3⟩ := ht (Book.finalStage progress (Book.sizeStage progress
    (Book.appearStage progress (Book.backgroundStage progress s))))
  obtain ⟨e1, e2, e3⟩ := he (Book.textStage progress (Book.finalStage progress
    (Book.sizeStage progress (Book.appearStage progress (Book.backgroundStage progress s)))))
    (t3.trans f3)
  exact ⟨e1.trans (t1.trans f1), e2.trans (t2.trans f2), e3⟩

/-- Counterexample to C14 as stated: the last frame of `animateCover(3000)`
started at time 0 (frame at 3000 ms, progress 1) writes `titleOpacity` and
`subtitleOpacity` as `(1 - 0.7) / 0.3`, which in double arithmetic is
1.0000000000000002 (`1 + 2 ^ (-52)`), not 1. -/
theorem Book.last_frame_title_opacity_above_one :
    Book.progress 0 3000 3000 = 1 ∧
    (Book.animate 0 3000 3000 (Book.init 1024)).titleOpacity = 1 + 1 / 2 ^ 52 ∧
    (Book.animate 0 3000 3000 (Book.init 1024)).subtitleOpacity = 1 + 1 / 2 ^ 52 ∧
    (Book.animate 0 3000 3000 (Book.init 1024)).titleOpacity ≠ 1 ∧
    (Book.animate 0 3000 3000 (Book.init 1024)).subtitleOpacity ≠ 1 := by
  have hp : Book.progress 0 3000 3000 = 1 :=
    Book.progress_eq_one 0 3000 3000 (by norm_num) (by rw [JS.sub_zero_3000])
  have ha : Book.animate 0 3000 3000 (Book.init 1024) = Book.frameWrites 1 (Book.init 1024) := by
    unfold Book.animate
    simp only [hp, lt_self_iff_false, ↓reduceIte]
  rw [ha, Book.frameWrites_at_one]
  refine ⟨hp, rfl, rfl, ?_, ?_⟩ <;> norm_num

/-- C14 (amended). The cover animation ends in its final state: for every
duration > 0, the frame of `animateCover` whose elapsed time (the double
difference `t - startTime` of the code) is at least the duration has progress 1
and writes `mainImageSize` 70, `mainImageOpacity` 1, `mainImageRotation` 0, and
`titleOpacity` and `subtitleOpacity` equal to `(1 - 0.7) / 0.3` in double
arithmetic, which is `1 + 2 ^ (-52)`, and requests no further frame; and every
frame with progress at least the literal 0.8 writes size 70, opacity 1 and
rotation 0. Every frame with progress 1 writes these values. -/
theorem Book.cover_animation_final_state (startTime duration currentTime : ℚ) (s : Book.State)
    (hd : 0 < duration) (he : duration ≤ JS.sub currentTime startTime) :
    Book.progress startTime duration currentTime = 1 ∧
    (Book.animate startTime duration currentTime s).mainImageSize = 70 ∧
    (Book.animate startTime duration currentTime s).mainImageOpacity = 1 ∧
    (Book.animate startTime duration currentTime s).mainImageRotation = 0 ∧
    (Book.animate startTime duration currentTime s).titleOpacity = 1 + 1 / 2 ^ 52 ∧
    (Book.animate startTime duration currentTime s).subtitleOpacity = 1 + 1 / 2 ^ 52 ∧
    (Book.animate startTime duration currentTime s).frames = s.frames ∧
    (Book.animate startTime duration currentTime s).nextFrameId = s.nextFrameId ∧
    (Book.animate startTime duration currentTime s).animationRef = s.animationRef ∧
    (∀ (t : ℚ) (u : Book.State), JS.num (8 / 10) ≤ Book.progress startTime duration t →
      (Book.animate startTime duration t u).mainImageSize = 70 ∧
      (Book.animate startTime duration t u).mainImageOpacity = 1 ∧
      (Book.animate startTime duration t u).mainImageRotation = 0) ∧
    (∀ (progress : ℚ) (u : Book.State), JS.num (8 / 10) ≤ progress →
      (Book.frameWrites progress u).mainImageSize = 70 ∧
      (Book.frameWrites progress u).mainImageOpacity = 1 ∧
      (Book.frameWrites progress u).mainImageRotation = 0) ∧
    (∀ (t : ℚ) (u : Book.State), Book.progress startTime duration t = 1 →
      (Book.animate startTime duration t u).mainImageSize = 70 ∧
      (Book.animate startTime duration t u).mainImageOpacity = 1 ∧
      (Book.animate startTime duration t u).mainImageRotation = 0 ∧
      (Book.animate startTime duration t u).titleOpacity = 1 + 1 / 2 ^ 52 ∧
      (Book.animate startTime duration t u).subtitleOpacity = 1 + 1 / 2 ^ 52 ∧
      (Book.animate startTime duration t u).frames = u.frames) := by
  have hone : ∀ (t : ℚ) (u : Book.State), Book.progress startTime duration t = 1 →
      Book.animate startTime duration t u =
        { u with
          mainImageSize := 70
          mainImageOpacity := 1
          mainImageRotation := 0
          titleOpacity := 1 + 1 / 2 ^ 52
          subtitleOpacity := 1 + 1 / 2 ^ 52 } := by
    intro t u hp
    rw [← Book.frameWrites_at_one]
    unfold Book.animate
    simp only [hp, lt_self_iff_false, ↓reduceIte]
  have hp := Book.progress_eq_one startTime duration currentTime hd he
  rw [hone currentTime s hp]
  refine ⟨hp, rfl, rfl, rfl, rfl, rfl, rfl, rfl, rfl, ?_,
    fun progress u h => Book.frameWrites_from_80 progress u h, ?_⟩
  · intro t u h
    obtain ⟨a1, a2, a3⟩ := Book.animate_writes startTime duration t u
    obtain ⟨w1, w2, w3⟩ := Book.frameWrites_from_80 _ u h
    exact ⟨a1.trans w1, a2.trans w2, a3.trans w3⟩
  · intro t u h
    rw [hone t u h]
    exact ⟨rfl, rfl, rfl, rfl, rfl, rfl⟩

theorem JS.sub_4016_1000 : JS.sub 4016 1000 = 3016 := by
  decide!

theorem Book.progress_at_2400 : Book.progress 1000 3000 3400 = JS.num (8 / 10) := by
  decide!

/-- Witness of C14: `animateCover(3000)` started at 1000 ms, on the state in the
middle of the animation: the frame delivered at 4016 ms is the last one; the
frame at 3400 ms has progress 0.8 and writes opacity 1 and rotation 0. -/
theorem Book.cover_animation_final_state_witness :
    (0 : ℚ) < 3000 ∧ (3000 : ℚ) ≤ JS.sub 4016 1000 ∧
    (Book.animate 1000 3000 4016 Book.midAnimation).mainImageSize = 70 ∧
    (Book.animate 1000 3000 4016 Book.midAnimation).titleOpacity = 1 + 1 / 2 ^ 52 ∧
    (Book.animate 1000 3000 4016 Book.midAnimation).frames = Book.midAnimation.frames ∧
    (Book.animate 1000 3000 3400 Book.midAnimation).mainImageOpacity = 1 ∧
    (Book.animate 1000 3000 3400 Book.midAnimation).mainImageRotation = 0 := by
  have he : (3000 : ℚ) ≤ JS.sub 4016 1000 := by rw [JS.sub_4016_1000]; norm_num
  have h := Book.cover_animation_final_state 1000 3000 4016 Book.midAnimation
    (by norm_num) he
  have h8 := h.2.2.2.2.2.2.2.2.2.1 3400 Book.midAnimation (by rw [Book.progress_at_2400])
  exact ⟨by norm_num, he, h.2.1, h.2.2.2.2.1, h.2.2.2.2.2.2.1, h8.2.1, h8.2.2⟩

/-- C19. The handler `IntroScreen.handleHomeClick` initialises the state: from
any prior state, right after the call each of the 17 state variables has its
initial `useState` value (true, 0, true, false, 1.2, 0, 0, 0, (0, 0), 0,
'translateX(-100%)', 0, 0, 'translateX(-100%)', null, false, null). The call
also starts one 500 ms timer and leaves the pending frames and `animationRef`
as they were. -/
theorem IntroScreen.handleHomeClick_resets_state (s : IntroScreen.State) :
    (IntroScreen.handleHomeClick s).toVars = IntroScreen.init.toVars ∧
    (IntroScreen.handleHomeClick s).toVars =
      { showIntro := true
        logoOpacity := 0
        whiteScreenVisible := true
        mainScreenVisible := false
        imageScale := JS.num (6 / 5)
        imageOpacity := 0
        mainLogoOpacity := 0
        mainLogoScale := 0
        mainLogoPosition := { x := 0, y := 0 }
        subTitleOpacity := 0
        subTitleTransform := "translateX(-100%)"
        subTitle2Opacity := 0
        titleOpacity := 0
        titleTransform := "translateX(-100%)"
        selectedGif := none
        isModalOpen := false
        modalSourcePage := none } ∧
    (IntroScreen.handleHomeClick s).timers =
      s.timers ++ [{ id := s.nextTimerId, delay := 500,
                     callback := IntroScreen.TimerCallback.restartLogoAnimation }] ∧
    (IntroScreen.handleHomeClick s).frames = s.frames ∧
    (IntroScreen.handleHomeClick s).animationRef = s.animationRef :=
  ⟨rfl, rfl, rfl, rfl, rfl⟩

theorem JS.move_progress_at_one : JS.div (JS.sub 1 (5 / 8)) (3 / 8) = 1 := by
  decide!

theorem JS.logo_scale_at_one_desktop : JS.sub (3 / 2) (JS.mul (JS.sub (3 / 2) 1) 1) = 1 := by
  decide!

theorem JS.logo_scale_at_one_tablet :
    JS.sub (3 / 2) (JS.mul (JS.sub (3 / 2) (JS.num (8 / 10))) 1) = JS.num (8 / 10) := by
  decide!

theorem JS.logo_scale_at_one_mobile :
    JS.sub (3 / 2) (JS.mul (JS.sub (3 / 2) (JS.num (4 / 10))) 1) = 900719925474099 / 2 ^ 51 := by
  decide!

theorem JS.logo_scale_at_one_small :
    JS.sub (3 / 2) (JS.mul (JS.sub (3 / 2) (JS.num (3 / 10))) 1) = 5404319552844596 / 2 ^ 54 := by
  decide!

theorem JS.mul_one_offsets :
    JS.mul 1 42 = 42 ∧ JS.mul 1 41 = 41 ∧ JS.mul 1 40 = 40 ∧
    JS.mul 1 (-41) = -41 ∧ JS.mul 1 (-40) = -40 := by
  decide!

/-- The scale the last frame of the logo animation writes at a window width. -/
theorem IntroScreen.logoFrameWrites_at_one (innerWidth : Nat) (s : IntroScreen.State) :
    IntroScreen.logoFrameWrites 1 (IntroScreen.finalSettings innerWidth) s =
      { s with
        mainLogoOpacity := 1
        mainLogoScale :=
          if 768 ≤ innerWidth then (IntroScreen.finalSettings innerWidth).scale
          else if 480 ≤ innerWidth then 900719925474099 / 2 ^ 51
          else 5404319552844596 / 2 ^ 54
        mainLogoPosition := (IntroScreen.finalSettings innerWidth).position } := by
  obtain ⟨m42, m41, m40, n41, n40⟩ := JS.mul_one_offsets
  have h1 : ¬ (1 : ℚ) < 3 / 8 := by norm_num
  have h2 : ¬ (1 : ℚ) < 5 / 8 := by norm_num
  unfold IntroScreen.logoFrameWrites
  simp only [h1, h2, ↓reduceIte, JS.move_progress_at_one]
  unfold IntroScreen.finalSettings IntroScreen.getResponsiveMainLogoFinalSettings
  by_cases c1 : innerWidth < 1024
  · by_cases c2 : innerWidth ≥ 768
    · have c0 : ¬ innerWidth ≥ 1024 := by omega
      have c3 : 768 ≤ innerWidth := c2
      simp only [c1, c0, c2, c3, ↓reduceIte, JS.logo_scale_at_one_tablet, m41, n41]
    · by_cases c4 : innerWidth ≥ 480
      · have c0 : ¬ innerWidth ≥ 1024 := by omega
        have c3 : ¬ 768 ≤ innerWidth := c2
        have c5 : 480 ≤ innerWidth := c4
        simp only [c1, c0, c2, c3, c4, c5, ↓reduceIte, JS.logo_scale_at_one_mobile, m41, n41]
      · have c0 : ¬ innerWidth ≥ 1024 := by omega
        have c3 : ¬ 768 ≤ innerWidth := c2
        have c5 : ¬ 480 ≤ innerWidth := c4
        simp only [c1, c0, c2, c3, c4, c5, ↓reduceIte, JS.logo_scale_at_one_small, m40, n40]
  · have c3 : 768 ≤ innerWidth := by omega
    simp only [c1, c3, ↓reduceIte, JS.logo_scale_at_one_desktop, m42, n41]

theorem JS.toDouble_4000 : JS.toDouble 4000 = 4000 := by
  decide!

theorem IntroScreen.logoProgress_eq_one (startTime currentTime : ℚ)
    (he : 4000 ≤ JS.sub currentTime startTime) :
    IntroScreen.logoProgress startTime currentTime = 1 := by
  unfold IntroScreen.logoProgress
  simp only
  exact min_eq_right (JS.div_ge_one _ _ (by norm_num) he)

theorem IntroScreen.logoProgress_lt_one (startTime currentTime : ℚ)
    (he : JS.sub currentTime startTime < 4000) :
    IntroScreen.logoProgress startTime currentTime < 1 := by
  unfold IntroScreen.logoProgress
  simp only
  exact min_lt_of_left_lt
    ((JS.div_lt_one_iff (currentTime - startTime) 4000 (by norm_num) JS.toDouble_4000).mpr he)

theorem JS.sub_4000_zero : JS.sub 4000 0 = 4000 := by
  decide!

theorem JS.sub_5000_1000 : JS.sub 5000 1000 = 4000 := by
  decide!

theorem JS.sub_4000_1_zero_1 : JS.sub (JS.num (40001 / 10)) (JS.num (1 / 10)) = 4000 := by
  decide!

theorem IntroScreen.logoFrameWrites_queues (p : ℚ) (fs : IntroScreen.FinalSettings)
    (s : IntroScreen.State) :
    (IntroScreen.logoFrameWrites p fs s).timers = s.timers ∧
    (IntroScreen.logoFrameWrites p fs s).nextTimerId = s.nextTimerId ∧
    (IntroScreen.logoFrameWrites p fs s).frames = s.frames ∧
    (IntroScreen.logoFrameWrites p fs s).nextFrameId = s.nextFrameId ∧
    (IntroScreen.logoFrameWrites p fs s).animationRef = s.animationRef := by
  unfold IntroScreen.logoFrameWrites
  simp only
  split
  · exact ⟨rfl, rfl, rfl, rfl, rfl⟩
  · split <;> exact ⟨rfl, rfl, rfl, rfl, rfl⟩

theorem IntroScreen.final_scale_values :
    JS.num (4 / 10) ≠ 900719925474099 / 2 ^ 51 ∧ JS.num (3 / 10) ≠ 5404319552844596 / 2 ^ 54 := by
  rw [JS.num_4_10, JS.num_3_10]
  constructor <;> norm_num

theorem IntroScreen.finalSettings_scale (innerWidth : Nat) :
    (1024 ≤ innerWidth → (IntroScreen.finalSettings innerWidth).scale = 1) ∧
    (768 ≤ innerWidth → innerWidth < 1024 →
      (IntroScreen.finalSettings innerWidth).scale = JS.num (8 / 10)) ∧
    (480 ≤ innerWidth → innerWidth < 768 →
      (IntroScreen.finalSettings innerWidth).scale = JS.num (4 / 10)) ∧
    (innerWidth < 480 → (IntroScreen.finalSettings innerWidth).scale = JS.num (3 / 10)) := by
  unfold IntroScreen.finalSettings IntroScreen.getResponsiveMainLogoFinalSettings
  refine ⟨?_, ?_, ?_, ?_⟩
  · intro h
    have c1 : ¬ innerWidth < 1024 := by omega
    simp only [c1, ↓reduceIte]
  · intro h1 h2
    have c0 : ¬ innerWidth ≥ 1024 := by omega
    have c2 : innerWidth ≥ 768 := h1
    simp only [h2, c0, c2, ↓reduceIte]
  · intro h1 h2
    have c0 : ¬ innerWidth ≥ 1024 := by omega
    have c1 : innerWidth < 1024 := by omega
    have c2 : ¬ innerWidth ≥ 768 := by omega
    have c3 : innerWidth ≥ 480 := h1
    simp only [c0, c1, c2, c3, ↓reduceIte]
  · intro h
    have c0 : ¬ innerWidth ≥ 1024 := by omega
    have c1 : innerWidth < 1024 := by omega
    have c2 : ¬ innerWidth ≥ 768 := by omega
    have c3 : ¬ innerWidth ≥ 480 := by omega
    simp only [c0, c1, c2, c3, ↓reduceIte]

/-- The scale written by the last frame of the logo animation, compared with
the scale of the final setting. -/
theorem IntroScreen.last_frame_scale (innerWidth : Nat) :
    (if 768 ≤ innerWidth then (IntroScreen.finalSettings innerWidth).scale
      else if 480 ≤ innerWidth then (900719925474099 : ℚ) / 2 ^ 51
      else 5404319552844596 / 2 ^ 54) =
      JS.sub (3 / 2) (JS.mul (JS.sub (3 / 2) (IntroScreen.finalSettings innerWidth).scale) 1) ∧
    (480 ≤ innerWidth → innerWidth < 768 →
      (900719925474099 : ℚ) / 2 ^ 51 = (IntroScreen.finalSettings innerWidth).scale - 1 / 2 ^ 53) ∧
    (innerWidth < 480 →
      (5404319552844596 : ℚ) / 2 ^ 54 =
        (IntroScreen.finalSettings innerWidth).scale + 1 / 2 ^ 54) := by
  obtain ⟨s1, s2, s3, s4⟩ := IntroScreen.finalSettings_scale innerWidth
  refine ⟨?_, ?_, ?_⟩
  · by_cases c1 : 1024 ≤ innerWidth
    · have c : 768 ≤ innerWidth := by omega
      rw [if_pos c, s1 c1, JS.logo_scale_at_one_desktop]
    · by_cases c2 : 768 ≤ innerWidth
      · rw [if_pos c2, s2 c2 (by omega), JS.logo_scale_at_one_tablet]
      · by_cases c3 : 480 ≤ innerWidth
        · rw [if_neg c2, if_pos c3, s3 c3 (by omega), JS.logo_scale_at_one_mobile]
        · rw [if_neg c2, if_neg c3, s4 (by omega), JS.logo_scale_at_one_small]
  · intro h1 h2
    rw [s3 h1 h2, JS.num_4_10]
    norm_num
  · intro h
    rw [s4 h, JS.num_3_10]
    norm_num

/-- Counterexample to C20 as stated: at window width 600 the final setting that
the code returns has the scale literal 0.4 and the position (41, -41); the last
frame of the logo animation started at time 0 (frame at 4000 ms, progress 1)
writes the position (41, -41) but the scale `1.5 - (1.5 - 0.4) * 1`, which in
double arithmetic is 0.3999999999999999, not the scale of the setting. -/
theorem IntroScreen.last_frame_scale_at_600 :
    IntroScreen.logoProgress 0 4000 = 1 ∧
    (IntroScreen.finalSettings 600).scale = JS.num (4 / 10) ∧
    (IntroScreen.logoAnimate 0 600 4000 IntroScreen.init).mainLogoPosition =
      (IntroScreen.finalSettings 600).position ∧
    (IntroScreen.logoAnimate 0 600 4000 IntroScreen.init).mainLogoScale =
      900719925474099 / 2 ^ 51 ∧
    (IntroScreen.logoAnimate 0 600 4000 IntroScreen.init).mainLogoScale ≠
      (IntroScreen.finalSettings 600).scale := by
  have hp : IntroScreen.logoProgress 0 4000 = 1 :=
    IntroScreen.logoProgress_eq_one 0 4000 (by rw [JS.sub_4000_zero])
  have hfs : (IntroScreen.finalSettings 600).scale = JS.num (4 / 10) := by decide!
  have ha : IntroScreen.logoAnimate 0 600 4000 IntroScreen.init =
      IntroScreen.startOverlayAnimations
        (IntroScreen.logoFrameWrites 1 (IntroScreen.finalSettings 600) IntroScreen.init) := by
    unfold IntroScreen.logoAnimate
    simp only [hp, lt_self_iff_false, ↓reduceIte]
  rw [ha, IntroScreen.logoFrameWrites_at_one, hfs]
  refine ⟨hp, rfl, rfl, rfl, ?_⟩
  exact fun h => IntroScreen.final_scale_values.1 h.symm

theorem IntroScreen.startOverlayAnimations_timers (t : IntroScreen.State) :
    (IntroScreen.startOverlayAnimations t).timers =
      t.timers ++
        [{ id := t.nextTimerId, delay := 500,
           callback := IntroScreen.TimerCallback.subTitleFromLeft },
         { id := t.nextTimerId + 1, delay := 2000,
           callback := IntroScreen.TimerCallback.swapSubTitle },
         { id := t.nextTimerId + 2, delay := 2500,
           callback := IntroScreen.TimerCallback.titleFromLeft }] := by
  unfold IntroScreen.startOverlayAnimations IntroScreen.State.setTimeout
  simp only [List.append_assoc, List.singleton_append, List.cons_append, List.nil_append]

/-- C20 (amended). The frame callback of `IntroScreen.startMainLogoAnimation`
follows its three stages for a final setting (s, (x, y)), each operation being
a double operation in the order of the code: a frame with progress p writes,
for p < 0.375, opacity p / 0.375, scale (p / 0.375) * 1.5 and position
(0, 0); for 0.375 <= p < 0.625, opacity 1, scale 1.5 and position (0, 0); for
p >= 0.625, with m = (p - 0.625) / 0.375, opacity 1, scale
1.5 - (1.5 - s) * m and position (m * x, m * y). The last frame (the one whose
elapsed time, the double difference of the code, is at least 4000 ms; p = 1)
leaves the logo with opacity 1 and exactly at position (x, y); its scale is
1.5 - (1.5 - s) * 1 in double arithmetic, which for the settings the code
returns is s exactly at window widths from 768 px, s - 2 ^ (-53) at widths
480-767 and s + 2 ^ (-54) below 480, so it equals s exactly when the width is
at least 768. The last frame starts the three overlay timers (500, 2000,
2500 ms) and requests no frame; every earlier frame (elapsed time below
4000 ms) requests the next frame and starts no timer. -/
theorem IntroScreen.main_logo_animation_stages (p : ℚ) (fs : IntroScreen.FinalSettings)
    (innerWidth : Nat) (startTime currentTime : ℚ) (s : IntroScreen.State) :
    (p < 3 / 8 →
      (IntroScreen.logoFrameWrites p fs s).mainLogoOpacity = JS.div p (3 / 8) ∧
      (IntroScreen.logoFrameWrites p fs s).mainLogoScale = JS.mul (JS.div p (3 / 8)) (3 / 2) ∧
      (IntroScreen.logoFrameWrites p fs s).mainLogoPosition = { x := 0, y := 0 }) ∧
    (3 / 8 ≤ p → p < 5 / 8 →
      (IntroScreen.logoFrameWrites p fs s).mainLogoOpacity = 1 ∧
      (IntroScreen.logoFrameWrites p fs s).mainLogoScale = 3 / 2 ∧
      (IntroScreen.logoFrameWrites p fs s).mainLogoPosition = { x := 0, y := 0 }) ∧
    (5 / 8 ≤ p →
      (IntroScreen.logoFrameWrites p fs s).mainLogoOpacity = 1 ∧
      (IntroScreen.logoFrameWrites p fs s).mainLogoScale =
        JS.sub (3 / 2)
          (JS.mul (JS.sub (3 / 2) fs.scale) (JS.div (JS.sub p (5 / 8)) (3 / 8))) ∧
      (IntroScreen.logoFrameWrites p fs s).mainLogoPosition =
        { x := JS.mul (JS.div (JS.sub p (5 / 8)) (3 / 8)) fs.position.x
          y := JS.mul (JS.div (JS.sub p (5 / 8)) (3 / 8)) fs.position.y }) ∧
    (4000 ≤ JS.sub currentTime startTime →
      IntroScreen.logoProgress startTime currentTime = 1 ∧
      (IntroScreen.logoAnimate startTime innerWidth currentTime s).mainLogoOpacity = 1 ∧
      (IntroScreen.logoAnimate startTime innerWidth currentTime s).mainLogoPosition =
        (IntroScreen.finalSettings innerWidth).position ∧
      (IntroScreen.logoAnimate startTime innerWidth currentTime s).mainLogoScale =
        JS.sub (3 / 2)
          (JS.mul (JS.sub (3 / 2) (IntroScreen.finalSettings innerWidth).scale) 1) ∧
      (768 ≤ innerWidth →
        (IntroScreen.logoAnimate startTime innerWidth currentTime s).mainLogoScale =
          (IntroScreen.finalSettings innerWidth).scale) ∧
      (480 ≤ innerWidth → innerWidth < 768 →
        (IntroScreen.logoAnimate startTime innerWidth currentTime s).mainLogoScale =
          (IntroScreen.finalSettings innerWidth).scale - 1 / 2 ^ 53) ∧
      (innerWidth < 480 →
        (IntroScreen.logoAnimate startTime innerWidth currentTime s).mainLogoScale =
          (IntroScreen.finalSettings innerWidth).scale + 1 / 2 ^ 54) ∧
      ((IntroScreen.logoAnimate startTime innerWidth currentTime s).mainLogoScale =
          (IntroScreen.finalSettings innerWidth).scale ↔ 768 ≤ innerWidth) ∧
      (IntroScreen.logoAnimate startTime innerWidth currentTime s).timers =
        s.timers ++
          [{ id := s.nextTimerId, delay := 500,
             callback := IntroScreen.TimerCallback.subTitleFromLeft },
           { id := s.nextTimerId + 1, delay := 2000,
             callback := IntroScreen.TimerCallback.swapSubTitle },
           { id := s.nextTimerId + 2, delay := 2500,
             callback := IntroScreen.TimerCallback.titleFromLeft }] ∧
      (IntroScreen.logoAnimate startTime innerWidth currentTime s).frames = s.frames ∧
      (IntroScreen.logoAnimate startTime innerWidth currentTime s).animationRef =
        s.animationRef) ∧
    (JS.sub currentTime startTime < 4000 →
      IntroScreen.logoProgress startTime currentTime < 1 ∧
      (IntroScreen.logoAnimate startTime innerWidth currentTime s).timers = s.timers ∧
      (IntroScreen.logoAnimate startTime innerWidth currentTime s).frames =
        s.frames ++ [{ id := s.nextFrameId, startTime := startTime }] ∧
      (IntroScreen.logoAnimate startTime innerWidth currentTime s).animationRef =
        some s.nextFrameId) := by
  refine ⟨?_, ?_, ?_, ?_, ?_⟩
  · intro h
    unfold IntroScreen.logoFrameWrites
    simp only [h, ↓reduceIte, and_self]
  · intro h1 h2
    have h1n : ¬ p < 3 / 8 := not_lt.mpr h1
    unfold IntroScreen.logoFrameWrites
    simp only [h1n, h2, ↓reduceIte, and_self]
  · intro h
    have h1n : ¬ p < 3 / 8 := not_lt.mpr (le_trans (by norm_num) h)
    have h2n : ¬ p < 5 / 8 := not_lt.mpr h
    unfold IntroScreen.logoFrameWrites
    simp only [h1n, h2n, ↓reduceIte, and_self]
  · intro he
    have hp := IntroScreen.logoProgress_eq_one startTime currentTime he
    have ha : IntroScreen.logoAnimate startTime innerWidth currentTime s =
        IntroScreen.startOverlayAnimations
          (IntroScreen.logoFrameWrites 1 (IntroScreen.finalSettings innerWidth) s) := by
      unfold IntroScreen.logoAnimate
      simp only [hp, lt_self_iff_false, ↓reduceIte]
    obtain ⟨v1, v2, v3⟩ := IntroScreen.last_frame_scale innerWidth
    have hsc : (IntroScreen.logoAnimate startTime innerWidth currentTime s).mainLogoScale =
        (if 768 ≤ innerWidth then (IntroScreen.finalSettings innerWidth).scale
          else if 480 ≤ innerWidth then (900719925474099 : ℚ) / 2 ^ 51
          else 5404319552844596 / 2 ^ 54) := by
      rw [ha, IntroScreen.logoFrameWrites_at_one]
      rfl
    have h768 : 768 ≤ innerWidth →
        (IntroScreen.logoAnimate startTime innerWidth currentTime s).mainLogoScale =
          (IntroScreen.finalSettings innerWidth).scale := by
      intro c; rw [hsc, if_pos c]
    have h480 : 480 ≤ innerWidth → innerWidth < 768 →
        (IntroScreen.logoAnimate startTime innerWidth currentTime s).mainLogoScale =
          (IntroScreen.finalSettings innerWidth).scale - 1 / 2 ^ 53 := by
      intro c1 c2
      rw [hsc, if_neg (by omega), if_pos c1]
      exact v2 c1 c2
    have hsmall : innerWidth < 480 →
        (IntroScreen.logoAnimate startTime innerWidth currentTime s).mainLogoScale =
          (IntroScreen.finalSettings innerWidth).scale + 1 / 2 ^ 54 := by
      intro c
      rw [hsc, if_neg (by omega), if_neg (by omega)]
      exact v3 c
    refine ⟨hp, ?_, ?_, hsc.trans v1, h768, h480, hsmall, ?_, ?_, ?_, ?_⟩
    · rw [ha, IntroScreen.logoFrameWrites_at_one]; rfl
    · rw [ha, IntroScreen.logoFrameWrites_at_one]; rfl
    · constructor
      · intro heq
        by_contra c
        by_cases c4 : 480 ≤ innerWidth
        · have := h480 c4 (by omega)
          rw [heq] at this
          linarith [show (0 : ℚ) < 1 / 2 ^ 53 by positivity]
        · have := hsmall (by omega)
          rw [heq] at this
          linarith [show (0 : ℚ) < 1 / 2 ^ 54 by positivity]
      · exact h768
    · rw [ha, IntroScreen.logoFrameWrites_at_one]
      exact IntroScreen.startOverlayAnimations_timers _
    · rw [ha, IntroScreen.logoFrameWrites_at_one]; rfl
    · rw [ha, IntroScreen.logoFrameWrites_at_one]; rfl
  · intro he
    have hp := IntroScreen.logoProgress_lt_one startTime currentTime he
    obtain ⟨q1, _, q3, q4, _⟩ := IntroScreen.logoFrameWrites_queues
      (IntroScreen.logoProgress startTime currentTime) (IntroScreen.finalSettings innerWidth) s
    unfold IntroScreen.logoAnimate
    simp only [hp, ↓reduceIte]
    refine ⟨trivial, ?_, ?_, ?_⟩
    · exact q1
    · show (IntroScreen.logoFrameWrites _ _ s).frames ++
        [{ id := (IntroScreen.logoFrameWrites _ _ s).nextFrameId, startTime := startTime }] = _
      rw [q3, q4]
    · show some (IntroScreen.logoFrameWrites _ _ s).nextFrameId = _
      rw [q4]

theorem JS.sub_4000_1000 : JS.sub 4000 1000 = 3000 := by
  decide!

/-- Witness of C20: on the busy state at window width 600, animation started at
1000 ms: the frame at 5000 ms is the last one, leaves the position (41, -41)
and starts the overlay timers; the frame at 4000 ms requests the next frame
and starts no timer; a frame with progress 1/2 writes scale 1.5; and for an
animation started at the time stamp 0.1 the frame at 4000.1 is the last one,
its elapsed time being the double 4000. -/
theorem IntroScreen.main_logo_animation_stages_witness :
    (4000 : ℚ) ≤ JS.sub 5000 1000 ∧ JS.sub 4000 1000 < 4000 ∧
    (4000 : ℚ) ≤ JS.sub (JS.num (40001 / 10)) (JS.num (1 / 10)) ∧
    (IntroScreen.logoAnimate (JS.num (1 / 10)) 600 (JS.num (40001 / 10))
      IntroScreen.busy).frames = IntroScreen.busy.frames ∧
    (IntroScreen.logoAnimate 1000 600 5000 IntroScreen.busy).mainLogoPosition =
      { x := 41, y := -41 } ∧
    (IntroScreen.logoAnimate 1000 600 5000 IntroScreen.busy).mainLogoScale =
      (IntroScreen.finalSettings 600).scale - 1 / 2 ^ 53 ∧
    (IntroScreen.logoAnimate 1000 600 5000 IntroScreen.busy).timers.length = 4 ∧
    (IntroScreen.logoAnimate 1000 600 4000 IntroScreen.busy).timers =
      IntroScreen.busy.timers ∧
    (IntroScreen.logoFrameWrites (1 / 2) (IntroScreen.finalSettings 600)
      IntroScreen.busy).mainLogoScale = 3 / 2 := by
  have he : (4000 : ℚ) ≤ JS.sub 5000 1000 := by rw [JS.sub_5000_1000]
  have hlt : JS.sub 4000 1000 < 4000 := by rw [JS.sub_4000_1000]; norm_num
  have h := IntroScreen.main_logo_animation_stages (1 / 2) (IntroScreen.finalSettings 600) 600
    1000 5000 IntroScreen.busy
  have h2 := IntroScreen.main_logo_animation_stages (1 / 2) (IntroScreen.finalSettings 600) 600
    1000 4000 IntroScreen.busy
  have hl := h.2.2.2.1 he
  have he3 : (4000 : ℚ) ≤ JS.sub (JS.num (40001 / 10)) (JS.num (1 / 10)) := by
    rw [JS.sub_4000_1_zero_1]
  have h3 := (IntroScreen.main_logo_animation_stages (1 / 2) (IntroScreen.finalSettings 600) 600
    (JS.num (1 / 10)) (JS.num (40001 / 10)) IntroScreen.busy).2.2.2.1 he3
  have hpos : (IntroScreen.finalSettings 600).position = { x := 41, y := -41 } := by decide
  refine ⟨he, hlt, he3, h3.2.2.2.2.2.2.2.2.2.1, hl.2.2.1.trans hpos,
    hl.2.2.2.2.2.1 (by decide) (by decide), ?_,
    (h2.2.2.2.2 hlt).2.1, (h.2.1 (by norm_num) (by norm_num)).2.1⟩
  rw [hl.2.2.2.2.2.2.2.2.1]
  rfl
